import Mathlib

/-!
# The chunk table of libewf

A shallow embedding of `libewf/libewf_chunk_table.c`.

* Pointers that the C functions reject when NULL (`chunk_table`, `io_handle`,
  `media_values`, the output parameters) are taken by value, so the leading
  NULL guards hold by typing.  Pointers that may legitimately be NULL
  (`delta_chunks_range_list`, `*chunk_data`, `chunks_list`) are `Option`s.
* An `int` result with an output parameter is a pair, or a result type whose
  `found` case carries what was written.
* `file_io_pool`, `chunk_groups_cache` and `chunks_cache` are only forwarded to
  the list lookups; a list is represented by its lookup function, which
  absorbs them.
* Functions of other compilation units (`libcdata_range_list_*`,
  `libewf_chunk_data_*`) and the constants of `libewf_definitions.h` are
  collected in the structure `externals` and passed as a parameter; the two
  libfdata functions that set an element value are in `libfdata_externals`.
* `libewf_chunk_table_clone` copies pointers.  It is embedded over a memory
  that holds the chunk table structures, the range lists and the IO handles by
  address, so that a shared object can be told from a copy.
* Integers are `Nat`/`Int`; every C operation that can wrap is followed by an
  explicit reduction (`to_uint64`, `to_int64`), for an LP64 target where
  `size_t`, `size64_t` and `uint64_t` have 64 bits.
-/

namespace Libewf

/-! ## Machine integers -/

/-- The value of an integer converted to `uint64_t` (also `size_t`, `size64_t`). -/
@[irreducible]
def to_uint64 (x : Int) : Nat :=
  (x % 2 ^ 64).toNat

/-- The value of an integer converted to `off64_t` (two's complement `int64_t`). -/
@[irreducible]
def to_int64 (x : Int) : Int :=
  (2 ^ 63 + x) % 2 ^ 64 - 2 ^ 63

/-- The value of an integer converted to `int` (two's complement, 32 bits). -/
@[irreducible]
def to_int32 (x : Int) : Int :=
  (2 ^ 31 + x) % 2 ^ 32 - 2 ^ 31

/-- The C library `memset` on a byte buffer: the first `size` bytes become
`value`, the rest of the buffer is kept.  (`memory_set` is `memset`.) -/
def memory_set (buffer : List Nat) (value : Nat) (size : Nat) : List Nat :=
  List.replicate (min size buffer.length) value ++ buffer.drop size

/-! ## Data model -/

/-- The `struct libewf_chunk_data` of `libewf_chunk_data.h`.  `data` is the
allocated buffer, which every chunk has; `compressed_data` is `none` when the
pointer is NULL.  Bytes are numbers below 256. -/
structure libewf_chunk_data where
  allocated_data_size : Nat
  data : List Nat
  data_size : Nat
  compressed_data : Option (List Nat)
  compressed_data_offset : Nat
  compressed_data_size : Nat
  padding_size : Nat
  range_flags : Nat
  checksum : Nat
  flags : Nat
  chunk_io_flags : Int
deriving DecidableEq, Repr

/-- The two fields of `libewf_io_handle_t` that the chunk table reads. -/
structure libewf_io_handle where
  compression_method : Nat
  zero_on_error : Nat
deriving DecidableEq, Repr

/-- The fields of `libewf_media_values_t` that the chunk table reads:
`media_size` is a `size64_t`, `number_of_sectors` a `uint64_t`, the other three
are `uint32_t`. -/
structure libewf_media_values where
  media_size : Nat
  chunk_size : Nat
  sectors_per_chunk : Nat
  bytes_per_sector : Nat
  number_of_sectors : Nat
deriving DecidableEq, Repr

/-- One range of a `libcdata_range_list_t` that stores no values. -/
structure libcdata_range_list_value where
  start : Nat
  size : Nat
deriving DecidableEq, Repr

/-- A `libcdata_range_list_t` without values: its ranges in iteration order. -/
abbrev libcdata_range_list := List libcdata_range_list_value

/-- The fields of `libewf_chunk_table_t` used in `libewf_chunk_table.c`. -/
structure libewf_chunk_table where
  io_handle : libewf_io_handle
  checksum_errors : libcdata_range_list
deriving DecidableEq, Repr

/-- Outcome of `libfdata_list_get_element_value_at_offset` and of
`libfdata_range_list_get_element_value_at_offset`: -1, 0, or 1 together with
the element data offset and the element value they wrote. -/
inductive element_value_result where
  | error
  | no_element
  | found (element_data_offset : Int) (element_value : Option libewf_chunk_data)
deriving DecidableEq, Repr

/-- Outcome of `libfdata_list_get_list_element_at_offset`: -1, 0, or 1 together
with the element index and the element data offset. -/
inductive list_element_result where
  | error
  | no_element
  | found (element_index : Int) (element_data_offset : Int)
deriving DecidableEq, Repr

/-- A chunks list (`libfdata_list_t`), seen through its two lookups by offset. -/
structure libfdata_list where
  get_element_value_at_offset : Int → element_value_result
  get_list_element_at_offset : Int → list_element_result

/-- The delta chunks range list (`libfdata_range_list_t`), seen through its
lookup by offset. -/
structure libfdata_range_list where
  get_element_value_at_offset : Int → element_value_result

/-- Outcome of `libewf_segment_file_get_chunk_group_by_offset`. -/
inductive chunk_group_result where
  | error
  | no_chunk_group
  | found (chunk_groups_list_index : Int) (chunk_group_data_offset : Int)
      (chunks_list : Option libfdata_list)

/-- A segment file, seen through `libewf_segment_file_get_chunk_group_by_offset`. -/
structure libewf_segment_file where
  get_chunk_group_by_offset : Int → chunk_group_result

/-- Outcome of `libewf_segment_table_get_segment_file_at_offset`. -/
inductive segment_file_result where
  | error
  | no_segment_file
  | found (segment_number : Nat) (segment_file_data_offset : Int)
      (segment_file : libewf_segment_file)

/-- The segment table, seen through
`libewf_segment_table_get_segment_file_at_offset`. -/
structure libewf_segment_table where
  get_segment_file_at_offset : Int → segment_file_result

/-- What `libewf_chunk_table.c` takes from other compilation units: the two
range flags of `libewf_definitions.h`, and the functions it calls on a chunk
and on the checksum errors range list.  Each function returns its `int` result
together with the object it worked on. -/
structure externals where
  LIBEWF_RANGE_FLAG_IS_CORRUPTED : Nat
  LIBEWF_RANGE_FLAG_IS_DELTA : Nat
  libewf_chunk_data_unpack : libewf_chunk_data → Nat → Nat → Int × libewf_chunk_data
  libewf_chunk_data_initialize_clear_data :
    Option libewf_chunk_data → Nat → Int × Option libewf_chunk_data
  libcdata_range_list_insert_range :
    libcdata_range_list → Nat → Nat → Int × libcdata_range_list

/-! ## The checksum errors range list (libcdata)

`libcdata_range_list.c` is not among the sources; the accessors below follow
the specification of the checksum-error list. -/

/-- Modelled from the spec: `libcdata_range_list_initialize`, which is not
among the sources; a new range list holds no range. -/
def libcdata_range_list_empty : libcdata_range_list :=
  []

/-- Modelled from the spec: `libcdata_range_list_get_number_of_elements`, which
is not among the sources; the number of ranges held, as an `int`. -/
def libcdata_range_list_get_number_of_elements (range_list : libcdata_range_list) : Int × Int :=
  (1, (range_list.length : Int))

/-- Modelled from the spec: `libcdata_range_list_get_range_by_index`, which is
not among the sources; the range at an index in iteration order (ascending
start), and -1 for an index outside the list. -/
def libcdata_range_list_get_range_by_index (range_list : libcdata_range_list)
    (element_index : Int) : Int × Nat × Nat :=
  if element_index < 0 then (-1, 0, 0)
  else
    match range_list.get? element_index.toNat with
    | some range => (1, range.start, range.size)
    | none => (-1, 0, 0)

/-- Modelled from the spec: the merging insertion of
`libcdata_range_list_insert_range`, which is not among the sources: "The list
merges overlapping/adjacent ranges on insert; iteration order is by
start_sector ascending."  A range that lies strictly before the next stored
range is placed in front of it; a stored range that lies strictly before the
new range is kept; a stored range that overlaps or touches the new range is
absorbed into it. -/
def range_list_merge : libcdata_range_list → Nat → Nat → libcdata_range_list
  | [], range_start, range_size => [⟨range_start, range_size⟩]
  | range :: rest, range_start, range_size =>
    if range_start + range_size < range.start then
      ⟨range_start, range_size⟩ :: range :: rest
    else if range.start + range.size < range_start then
      range :: range_list_merge rest range_start range_size
    else
      range_list_merge rest (min range_start range.start)
        (max (range_start + range_size) (range.start + range.size) - min range_start range.start)

/-- Modelled from the spec: `libcdata_range_list_insert_range` for a list
without values, which is not among the sources; the insertion merges and
reports success. -/
def libcdata_range_list_insert_range (range_list : libcdata_range_list)
    (range_start range_size : Nat) : Int × libcdata_range_list :=
  (1, range_list_merge range_list range_start range_size)

/-- Modelled from the spec: `libewf_chunk_data_initialize_clear_data` of
`libewf_chunk_data.c`, which is not among the sources: "synthesize a zeroed
ChunkData of appropriate size".  The new chunk has a buffer of `data_size` zero
bytes and every other field cleared. -/
def libewf_chunk_data_initialize_clear_data (_chunk_data : Option libewf_chunk_data)
    (data_size : Nat) : Int × Option libewf_chunk_data :=
  (1, some
    { allocated_data_size := data_size
      data := List.replicate data_size 0
      data_size := data_size
      compressed_data := none
      compressed_data_offset := 0
      compressed_data_size := 0
      padding_size := 0
      range_flags := 0
      checksum := 0
      flags := 0
      chunk_io_flags := 0 })

/-! ## libewf_chunk_table.c -/

/-- Lines 42-141, `libewf_chunk_table_initialize`: the new table has an empty
checksum errors range list and refers to the IO handle. -/
def libewf_chunk_table_initialize (io_handle : libewf_io_handle) : Int × libewf_chunk_table :=
  (1, { io_handle := io_handle, checksum_errors := libcdata_range_list_empty })

/-- Lines 288-346, `libewf_chunk_table_get_number_of_checksum_errors`: the
result and `*number_of_errors`; the conversion of a non-negative `int` to
`uint32_t` keeps its value. -/
def libewf_chunk_table_get_number_of_checksum_errors (chunk_table : libewf_chunk_table) :
    Int × Nat :=
  let (result, number_of_elements) :=
    libcdata_range_list_get_number_of_elements chunk_table.checksum_errors
  if result ≠ 1 then (-1, 0)
  else if number_of_elements < 0 then (-1, 0)
  else (1, number_of_elements.toNat)

/-- Lines 352-392, `libewf_chunk_table_get_checksum_error`: the result,
`*start_sector` and `*number_of_sectors`.  `error_index` is a `uint32_t`
converted to `int`. -/
def libewf_chunk_table_get_checksum_error (chunk_table : libewf_chunk_table)
    (error_index : Nat) : Int × Nat × Nat :=
  let (result, start_sector, number_of_sectors) :=
    libcdata_range_list_get_range_by_index chunk_table.checksum_errors
      (to_int32 error_index)
  if result ≠ 1 then (-1, 0, 0)
  else (1, start_sector, number_of_sectors)

/-- Lines 397-435, `libewf_chunk_table_append_checksum_error`: the result and
the chunk table afterwards. -/
def libewf_chunk_table_append_checksum_error (ext : externals)
    (chunk_table : libewf_chunk_table) (start_sector number_of_sectors : Nat) :
    Int × libewf_chunk_table :=
  let (result, checksum_errors) :=
    ext.libcdata_range_list_insert_range chunk_table.checksum_errors start_sector
      number_of_sectors
  if result ≠ 1 then (-1, { chunk_table with checksum_errors := checksum_errors })
  else (1, { chunk_table with checksum_errors := checksum_errors })

/-- The `int` result and the six output parameters of
`libewf_chunk_table_get_segment_file_chunk_group_by_offset`. -/
structure segment_file_chunk_group where
  result : Int
  segment_number : Nat
  segment_file_data_offset : Int
  segment_file : Option libewf_segment_file
  chunk_groups_list_index : Int
  chunk_group_data_offset : Int
  chunks_list : Option libfdata_list

/-- Lines 440-597, `libewf_chunk_table_get_segment_file_chunk_group_by_offset`.
An output parameter that is not written keeps the value the callers in this
file initialise it with (0 or NULL). -/
def libewf_chunk_table_get_segment_file_chunk_group_by_offset
    (segment_table : libewf_segment_table) (offset : Int) : segment_file_chunk_group :=
  match segment_table.get_segment_file_at_offset offset with
  | .error => ⟨-1, 0, 0, none, 0, 0, none⟩
  | .no_segment_file => ⟨0, 0, 0, none, 0, 0, none⟩
  | .found segment_number segment_file_data_offset segment_file =>
    match segment_file.get_chunk_group_by_offset segment_file_data_offset with
    | .error => ⟨-1, segment_number, segment_file_data_offset, some segment_file, 0, 0, none⟩
    | .no_chunk_group =>
      ⟨0, segment_number, segment_file_data_offset, some segment_file, 0, 0, none⟩
    | .found chunk_groups_list_index chunk_group_data_offset chunks_list =>
      match chunks_list with
      | none =>
        ⟨-1, segment_number, segment_file_data_offset, some segment_file,
          chunk_groups_list_index, chunk_group_data_offset, none⟩
      | some list =>
        ⟨1, segment_number, segment_file_data_offset, some segment_file,
          chunk_groups_list_index, chunk_group_data_offset, some list⟩

/-- Lines 602-699, `libewf_chunk_table_chunk_exists_for_offset`: the result and
the chunk table afterwards.  `chunk_index` is used in the error message only. -/
def libewf_chunk_table_chunk_exists_for_offset (chunk_table : libewf_chunk_table)
    (_chunk_index : Nat) (segment_table : libewf_segment_table) (offset : Int) :
    Int × libewf_chunk_table :=
  let group := libewf_chunk_table_get_segment_file_chunk_group_by_offset segment_table offset
  if group.result = -1 then (-1, chunk_table)
  else if group.result ≠ 0 then
    match group.chunks_list with
    | none => (-1, chunk_table)
    | some chunks_list =>
      match chunks_list.get_list_element_at_offset group.chunk_group_data_offset with
      | .error => (-1, chunk_table)
      | .no_element => (0, chunk_table)
      | .found _ _ => (1, chunk_table)
  else (group.result, chunk_table)

/-- The `int` result of `libewf_chunk_table_get_chunk_data_by_offset` with what
it leaves behind: the chunk table, `*chunk_data` and `*chunk_data_offset`. -/
structure chunk_data_by_offset where
  result : Int
  chunk_table : libewf_chunk_table
  chunk_data : Option libewf_chunk_data
  chunk_data_offset : Int
deriving DecidableEq, Repr

/-- Lines 789-883 of `libewf_chunk_table_get_chunk_data_by_offset`: the lookup
in the delta chunks range list when there is one, and, when `result` is still
0, the lookup in the chunks list of the segment file chunk group.  The outcome
`found` carries what was written to `*chunk_data_offset` and `*chunk_data`. -/
def get_chunk_data_by_offset_lookup (segment_table : libewf_segment_table)
    (delta_chunks_range_list : Option libfdata_range_list) (offset : Int) :
    element_value_result :=
  let delta_result :=
    match delta_chunks_range_list with
    | some range_list => range_list.get_element_value_at_offset offset
    | none => element_value_result.no_element
  match delta_result with
  | .error => .error
  | .found element_data_offset element_value => .found element_data_offset element_value
  | .no_element =>
    let group := libewf_chunk_table_get_segment_file_chunk_group_by_offset segment_table offset
    if group.result = -1 then .error
    else if group.result ≠ 0 then
      match group.chunks_list with
      | none => .error
      | some chunks_list =>
        chunks_list.get_element_value_at_offset group.chunk_group_data_offset
    else .no_element

/-- Line 980 of `libewf_chunk_table_get_chunk_data_by_offset`: the start sector
of the checksum error.  `chunk_offset` is an `off64_t`, divided as such
(truncation towards zero), and the quotient is stored in a `uint64_t`.  The
division by a zero `bytes_per_sector` is undefined in C; `Int.tdiv` gives 0. -/
def checksum_error_start_sector (media_values : libewf_media_values) (chunk_offset : Int) :
    Nat :=
  to_uint64 (Int.tdiv chunk_offset media_values.bytes_per_sector)

/-- Lines 981-986 of `libewf_chunk_table_get_chunk_data_by_offset`: the number
of sectors of the checksum error; the sum and the difference are `uint64_t`. -/
def checksum_error_number_of_sectors (media_values : libewf_media_values)
    (chunk_offset : Int) : Nat :=
  if to_uint64 (checksum_error_start_sector media_values chunk_offset +
      media_values.sectors_per_chunk) > media_values.number_of_sectors then
    to_uint64 (media_values.number_of_sectors -
      checksum_error_start_sector media_values chunk_offset)
  else
    media_values.sectors_per_chunk

/-- Lines 976-1006 of `libewf_chunk_table_get_chunk_data_by_offset`: a chunk
flagged as corrupted adds a checksum error for its sectors. -/
def get_chunk_data_by_offset_add_checksum_error (ext : externals)
    (chunk_table : libewf_chunk_table) (media_values : libewf_media_values)
    (chunk_data : libewf_chunk_data) (chunk_data_offset : Int) (chunk_offset : Int) :
    chunk_data_by_offset :=
  if chunk_data.range_flags &&& ext.LIBEWF_RANGE_FLAG_IS_CORRUPTED ≠ 0 then
    let (result, checksum_errors) :=
      ext.libcdata_range_list_insert_range chunk_table.checksum_errors
        (checksum_error_start_sector media_values chunk_offset)
        (checksum_error_number_of_sectors media_values chunk_offset)
    if result ≠ 1 then
      ⟨-1, { chunk_table with checksum_errors := checksum_errors }, some chunk_data,
        chunk_data_offset⟩
    else
      ⟨1, { chunk_table with checksum_errors := checksum_errors }, some chunk_data,
        chunk_data_offset⟩
  else
    ⟨1, chunk_table, some chunk_data, chunk_data_offset⟩

/-- Line 939 of `libewf_chunk_table_get_chunk_data_by_offset`: the offset of a
chunk that is in no list, `(off64_t) chunk_index * media_values->chunk_size`. -/
def missing_chunk_offset (chunk_index : Nat) (media_values : libewf_media_values) : Int :=
  to_int64 (to_int64 chunk_index * media_values.chunk_size)

/-- Lines 940-945 of `libewf_chunk_table_get_chunk_data_by_offset`: the data
size of a chunk that is in no list.  The sum of the `off64_t` offset and the
`size_t` chunk size, and the difference from the `size64_t` media size, are
unsigned 64-bit. -/
def missing_chunk_data_size (chunk_index : Nat) (media_values : libewf_media_values) : Nat :=
  if to_uint64 (missing_chunk_offset chunk_index media_values + media_values.chunk_size) >
      media_values.media_size then
    to_uint64 (media_values.media_size - missing_chunk_offset chunk_index media_values)
  else
    media_values.chunk_size

/-- The value of the local variable `chunk_offset` when a checksum error is
added: `offset - *chunk_data_offset` for a located chunk (line 934),
`chunk_index * chunk_size` for a chunk that is in no list (line 939). -/
def corrupted_chunk_offset (lookup : element_value_result) (chunk_index : Nat)
    (media_values : libewf_media_values) (offset : Int) : Int :=
  match lookup with
  | .found element_data_offset _ => to_int64 (offset - element_data_offset)
  | _ => (missing_chunk_offset chunk_index media_values)

/-- Lines 705-1007, `libewf_chunk_table_get_chunk_data_by_offset`.
`chunk_data` and `chunk_data_offset` are the values of `*chunk_data` and
`*chunk_data_offset` on entry.  On the paths that return -1 the objects are
reported as the failing call left them.  `memory_set` returns its destination
pointer, which is the data buffer of the chunk, so the guard of lines 918-932
does not fire. -/
def libewf_chunk_table_get_chunk_data_by_offset (ext : externals)
    (chunk_table : libewf_chunk_table) (chunk_index : Nat) (io_handle : libewf_io_handle)
    (media_values : libewf_media_values) (segment_table : libewf_segment_table)
    (delta_chunks_range_list : Option libfdata_range_list) (offset : Int)
    (chunk_data : Option libewf_chunk_data) (chunk_data_offset : Int) :
    chunk_data_by_offset :=
  match get_chunk_data_by_offset_lookup segment_table delta_chunks_range_list offset with
  | .error => ⟨-1, chunk_table, chunk_data, chunk_data_offset⟩
  | .found element_data_offset none => ⟨-1, chunk_table, none, element_data_offset⟩
  | .found element_data_offset (some element_value) =>
    let (result, unpacked) :=
      ext.libewf_chunk_data_unpack element_value media_values.chunk_size
        io_handle.compression_method
    if result ≠ 1 then ⟨-1, chunk_table, some unpacked, element_data_offset⟩
    else if unpacked.range_flags &&& ext.LIBEWF_RANGE_FLAG_IS_CORRUPTED ≠ 0 then
      let zeroed :=
        if io_handle.zero_on_error ≠ 0 then
          { unpacked with data := memory_set unpacked.data 0 unpacked.data_size }
        else unpacked
      get_chunk_data_by_offset_add_checksum_error ext chunk_table media_values zeroed
        element_data_offset (to_int64 (offset - element_data_offset))
    else
      get_chunk_data_by_offset_add_checksum_error ext chunk_table media_values unpacked
        element_data_offset 0
  | .no_element =>
    let (result, created) :=
      ext.libewf_chunk_data_initialize_clear_data chunk_data
        (missing_chunk_data_size chunk_index media_values)
    if result ≠ 1 then ⟨-1, chunk_table, created, chunk_data_offset⟩
    else
      match created with
      | none => ⟨-1, chunk_table, none, chunk_data_offset⟩
      | some new_chunk =>
        get_chunk_data_by_offset_add_checksum_error ext chunk_table media_values
          { new_chunk with
            data_size := missing_chunk_data_size chunk_index media_values
            range_flags := new_chunk.range_flags ||| ext.LIBEWF_RANGE_FLAG_IS_CORRUPTED }
          chunk_data_offset (missing_chunk_offset chunk_index media_values)

/-- What `libewf_chunk_table_set_chunk_data_by_offset` takes from libfdata: the
element value flag `LIBFDATA_LIST_ELEMENT_VALUE_FLAG_MANAGED`, and the two
functions that set the value of the element at an offset.  Each takes the list,
the offset, the element value and the element value flags, and returns its
`int` result together with the list as it is afterwards.  The function that
frees the value, `libewf_chunk_data_free` in both calls, is left out. -/
structure libfdata_externals where
  LIBFDATA_LIST_ELEMENT_VALUE_FLAG_MANAGED : Nat
  libfdata_range_list_set_element_value_at_offset :
    Option libfdata_range_list → Int → libewf_chunk_data → Nat →
      Int × Option libfdata_range_list
  libfdata_list_set_element_value_at_offset :
    libfdata_list → Int → libewf_chunk_data → Nat → Int × libfdata_list

/-- The `int` result of `libewf_chunk_table_set_chunk_data_by_offset` with what
it leaves behind: the chunk table, the delta chunks range list, and the chunks
list that `libfdata_list_set_element_value_at_offset` was called on, as that
call left it (`none` when no chunks list was passed to it). -/
structure set_chunk_data_by_offset where
  result : Int
  chunk_table : libewf_chunk_table
  delta_chunks_range_list : Option libfdata_range_list
  chunks_list : Option libfdata_list

/-- Lines 1013-1148, `libewf_chunk_table_set_chunk_data_by_offset`.
`chunk_index` is used in the error messages only. -/
def libewf_chunk_table_set_chunk_data_by_offset (ext : externals) (fdata : libfdata_externals)
    (chunk_table : libewf_chunk_table) (_chunk_index : Nat)
    (segment_table : libewf_segment_table)
    (delta_chunks_range_list : Option libfdata_range_list) (offset : Int)
    (chunk_data : libewf_chunk_data) : set_chunk_data_by_offset :=
  if chunk_data.range_flags &&& ext.LIBEWF_RANGE_FLAG_IS_DELTA ≠ 0 then
    let (result, range_list) :=
      fdata.libfdata_range_list_set_element_value_at_offset delta_chunks_range_list offset
        chunk_data fdata.LIBFDATA_LIST_ELEMENT_VALUE_FLAG_MANAGED
    if result ≠ 1 then ⟨-1, chunk_table, range_list, none⟩
    else ⟨1, chunk_table, range_list, none⟩
  else
    let group := libewf_chunk_table_get_segment_file_chunk_group_by_offset segment_table offset
    if group.result ≠ 1 then ⟨-1, chunk_table, delta_chunks_range_list, none⟩
    else
      match group.chunks_list with
      | none => ⟨-1, chunk_table, delta_chunks_range_list, none⟩
      | some chunks_list =>
        let (result, written) :=
          fdata.libfdata_list_set_element_value_at_offset chunks_list
            group.chunk_group_data_offset chunk_data
            fdata.LIBFDATA_LIST_ELEMENT_VALUE_FLAG_MANAGED
        if result ≠ 1 then ⟨-1, chunk_table, delta_chunks_range_list, some written⟩
        else ⟨1, chunk_table, delta_chunks_range_list, some written⟩

/-! ## Instances of the externals and sequences of calls -/

/-- Externals with the chunk creation and the merging range list of the
specification; the flag values and the unpack function stay parameters. -/
def spec_externals (is_corrupted is_delta : Nat)
    (unpack : libewf_chunk_data → Nat → Nat → Int × libewf_chunk_data) : externals :=
  { LIBEWF_RANGE_FLAG_IS_CORRUPTED := is_corrupted
    LIBEWF_RANGE_FLAG_IS_DELTA := is_delta
    libewf_chunk_data_unpack := unpack
    libewf_chunk_data_initialize_clear_data := libewf_chunk_data_initialize_clear_data
    libcdata_range_list_insert_range := libcdata_range_list_insert_range }

/-- The same externals with a range list that appends every range it is asked
to insert, unmerged: the list is then the record of the insertions made. -/
def recording_externals (ext : externals) : externals :=
  { ext with
    libcdata_range_list_insert_range := fun range_list range_start range_size =>
      (1, range_list ++ [⟨range_start, range_size⟩]) }

/-- A call that can change the checksum errors of a chunk table, with its
arguments. -/
inductive chunk_table_call where
  | append_checksum_error (start_sector number_of_sectors : Nat)
  | get_chunk_data_by_offset (chunk_index : Nat) (io_handle : libewf_io_handle)
      (media_values : libewf_media_values) (segment_table : libewf_segment_table)
      (delta_chunks_range_list : Option libfdata_range_list) (offset : Int)
      (chunk_data : Option libewf_chunk_data) (chunk_data_offset : Int)

/-- The chunk table after one call. -/
def run_call (ext : externals) (chunk_table : libewf_chunk_table) :
    chunk_table_call → libewf_chunk_table
  | .append_checksum_error start_sector number_of_sectors =>
    (libewf_chunk_table_append_checksum_error ext chunk_table start_sector
      number_of_sectors).2
  | .get_chunk_data_by_offset chunk_index io_handle media_values segment_table
      delta_chunks_range_list offset chunk_data chunk_data_offset =>
    (libewf_chunk_table_get_chunk_data_by_offset ext chunk_table chunk_index io_handle
      media_values segment_table delta_chunks_range_list offset chunk_data
      chunk_data_offset).chunk_table

/-- The chunk table after a sequence of calls. -/
def run_calls (ext : externals) (chunk_table : libewf_chunk_table)
    (calls : List chunk_table_call) : libewf_chunk_table :=
  calls.foldl (run_call ext) chunk_table

/-- A sector lies in one of the ranges of the list. -/
def covers (range_list : libcdata_range_list) (sector : Nat) : Prop :=
  ∃ range ∈ range_list, range.start ≤ sector ∧ sector < range.start + range.size

/-- Every range of the list ends strictly before each later range starts: the
ranges are pairwise disjoint, not adjacent, and in ascending order of start. -/
def separated (range_list : libcdata_range_list) : Prop :=
  range_list.Pairwise (fun earlier later => earlier.start + earlier.size < later.start)

/-- A sector lies in one of the ranges reported by
`libewf_chunk_table_get_number_of_checksum_errors` and
`libewf_chunk_table_get_checksum_error`. -/
def reported (chunk_table : libewf_chunk_table) (sector : Nat) : Prop :=
  ∃ error_index start_sector number_of_sectors,
    error_index < (libewf_chunk_table_get_number_of_checksum_errors chunk_table).2 ∧
    libewf_chunk_table_get_checksum_error chunk_table error_index =
      (1, start_sector, number_of_sectors) ∧
    start_sector ≤ sector ∧ sector < start_sector + number_of_sectors

/-! ## Chunk tables in memory

`libewf_chunk_table_clone` copies the structure of a chunk table, pointers
included.  To tell an object that two tables share from a copy, this section
places the objects in a memory and refers to them by address. -/

/-- A `libewf_chunk_table_t` as it is stored: the address of its IO handle and
the address of its checksum errors range list, `none` for NULL. -/
structure stored_chunk_table where
  io_handle : Option Nat
  checksum_errors : Option Nat
deriving DecidableEq, Repr

/-- The allocated objects by address: chunk table structures, range lists and
IO handles.  An allocation hands out `next_address`, and `available` is the
number of allocations that can still be served. -/
structure memory where
  chunk_tables : Nat → Option stored_chunk_table
  range_lists : Nat → Option libcdata_range_list
  io_handles : Nat → Option libewf_io_handle
  next_address : Nat
  available : Nat

/-- The memory with a chunk table structure written at an address. -/
def store_chunk_table (m : memory) (address : Nat) (value : Option stored_chunk_table) :
    memory :=
  { m with chunk_tables := fun a => if a = address then value else m.chunk_tables a }

/-- The C library `malloc` for a `libewf_chunk_table_t`
(`memory_allocate_structure`): NULL when no allocation can be served,
otherwise the address of a new structure, whose indeterminate content is
represented by NULL pointers. -/
def memory_allocate_structure (m : memory) : memory × Option Nat :=
  if m.available = 0 then (m, none)
  else
    ({ store_chunk_table m m.next_address (some ⟨none, none⟩) with
        next_address := m.next_address + 1
        available := m.available - 1 },
      some m.next_address)

/-- The C library `free` on a chunk table structure (`memory_free`). -/
def memory_free (m : memory) (address : Nat) : memory :=
  { store_chunk_table m address none with available := m.available + 1 }

/-- Modelled from the spec: `libcdata_range_list_clone` for a list without
values, which is not among the sources: "a deep clone of the checksum-error
list (value-less ranges)".  The result, the memory afterwards and
`*destination_range_list`.  The destination must be NULL on entry; a NULL
source leaves it NULL; otherwise a new range list with the ranges of the source
is allocated, and the call fails when the allocation does. -/
def libcdata_range_list_clone (m : memory) (destination_range_list : Option Nat)
    (source_range_list : Option Nat) : Int × memory × Option Nat :=
  match destination_range_list with
  | some _ => (-1, m, destination_range_list)
  | none =>
    match source_range_list with
    | none => (1, m, none)
    | some source =>
      match m.range_lists source with
      | none => (-1, m, none)
      | some ranges =>
        if m.available = 0 then (-1, m, none)
        else
          (1,
            { m with
              range_lists := fun a => if a = m.next_address then some ranges else m.range_lists a
              next_address := m.next_address + 1
              available := m.available - 1 },
            some m.next_address)

/-- Lines 191-283, `libewf_chunk_table_clone`: the result, the memory
afterwards and `*destination_chunk_table`.  `range_list_clone` stands for
`libcdata_range_list_clone`, called on the field `checksum_errors` of the new
structure, which line 254 has set to NULL.  `memory_copy` returns its
destination, so the guard of lines 240-253 does not fire for a source that
holds a chunk table; a source address that holds none is reported as a failed
copy. -/
def libewf_chunk_table_clone
    (range_list_clone : memory → Option Nat → Option Nat → Int × memory × Option Nat)
    (m : memory) (destination_chunk_table : Option Nat) (source_chunk_table : Option Nat) :
    Int × memory × Option Nat :=
  match destination_chunk_table with
  | some _ => (-1, m, destination_chunk_table)
  | none =>
    match source_chunk_table with
    | none => (1, m, none)
    | some source =>
      match memory_allocate_structure m with
      | (_, none) => (-1, m, none)
      | (allocated, some destination) =>
        match allocated.chunk_tables source with
        | none => (-1, memory_free allocated destination, none)
        | some source_table =>
          let copied := store_chunk_table allocated destination (some source_table)
          let cleared :=
            store_chunk_table copied destination
              (some { source_table with checksum_errors := none })
          let (result, cloned, checksum_errors) :=
            range_list_clone cleared none source_table.checksum_errors
          if result ≠ 1 then (-1, memory_free cloned destination, none)
          else
            (1,
              store_chunk_table cloned destination
                (some { source_table with checksum_errors := checksum_errors }),
              some destination)

/-- The chunk table at an address as the functions of `libewf_chunk_table.c`
see it through the pointer: its IO handle and its checksum errors. -/
def chunk_table_at (m : memory) (address : Nat) : Option libewf_chunk_table :=
  match m.chunk_tables address with
  | some ⟨some io_handle_address, some range_list_address⟩ =>
    match m.io_handles io_handle_address, m.range_lists range_list_address with
    | some io_handle, some checksum_errors => some ⟨io_handle, checksum_errors⟩
    | _, _ => none
  | _ => none

/-- A call on the chunk table at an address: the checksum errors that the call
leaves are written to the range list that the table points to, and no other
object changes. -/
def run_call_at (ext : externals) (m : memory) (address : Nat) (call : chunk_table_call) :
    memory :=
  match m.chunk_tables address, chunk_table_at m address with
  | some ⟨_, some range_list_address⟩, some chunk_table =>
    { m with
      range_lists := fun a =>
        if a = range_list_address then some (run_call ext chunk_table call).checksum_errors
        else m.range_lists a }
  | _, _ => m

/-- A sequence of calls on the chunk table at an address. -/
def run_calls_at (ext : externals) (m : memory) (address : Nat)
    (calls : List chunk_table_call) : memory :=
  calls.foldl (fun current call => run_call_at ext current address call) m

/-- Every address from `next_address` on is free. -/
def unallocated_from_next (m : memory) : Prop :=
  ∀ a : Nat, m.next_address ≤ a → m.chunk_tables a = none ∧ m.range_lists a = none

/-! ## Worked example: 512-byte sectors, 64 sectors per chunk -/

/-- Media of 100000 bytes in chunks of 32768 bytes. -/
def example_media_values : libewf_media_values :=
  { media_size := 100000
    chunk_size := 32768
    sectors_per_chunk := 64
    bytes_per_sector := 512
    number_of_sectors := 196 }

/-- An unpack that finds the chunk already unpacked: success without action. -/
def example_unpack (chunk_data : libewf_chunk_data) (_chunk_size _compression_method : Nat) :
    Int × libewf_chunk_data :=
  (1, chunk_data)

/-- Example externals: two distinct flag bits, the unpack above. -/
def example_externals : externals :=
  spec_externals 0x400 0x800 example_unpack

/-- An unpacked chunk of 32768 bytes 0xab with the given range flags. -/
def example_chunk (range_flags : Nat) : libewf_chunk_data :=
  { allocated_data_size := 32768
    data := List.replicate 32768 0xab
    data_size := 32768
    compressed_data := none
    compressed_data_offset := 0
    compressed_data_size := 0
    padding_size := 0
    range_flags := range_flags
    checksum := 0
    flags := 0
    chunk_io_flags := 0 }

/-- The corrupted chunk of the examples after its 32768 data bytes were set to
zero. -/
def example_zeroed_chunk : libewf_chunk_data :=
  { example_chunk 0x400 with
    data := memory_set (example_chunk 0x400).data 0 (example_chunk 0x400).data_size }

/-- A list that holds one element: the chunk at the offsets `first ≤ offset <
first + 32768`, found with its data offset `offset - first`. -/
def example_lookup (first : Int) (chunk_data : libewf_chunk_data) (offset : Int) :
    element_value_result :=
  if first ≤ offset ∧ offset < first + 32768 then .found (offset - first) (some chunk_data)
  else .no_element

/-- A delta chunks range list with one chunk starting at `first`. -/
def example_delta_list (first : Int) (chunk_data : libewf_chunk_data) : libfdata_range_list :=
  { get_element_value_at_offset := example_lookup first chunk_data }

/-- A segment table of one segment file with one chunk group starting at
offset 0, whose chunks list holds one chunk starting at `first`. -/
def example_segment_table (first : Int) (chunk_data : libewf_chunk_data) :
    libewf_segment_table :=
  { get_segment_file_at_offset := fun offset =>
      if 0 ≤ offset ∧ offset < 100000 then
        .found 1 offset
          { get_chunk_group_by_offset := fun segment_file_data_offset =>
              .found 0 segment_file_data_offset
                (some
                  { get_element_value_at_offset := example_lookup first chunk_data
                    get_list_element_at_offset := fun group_offset =>
                      if first ≤ group_offset ∧ group_offset < first + 32768 then
                        .found 0 (group_offset - first)
                      else .no_element }) }
      else .no_segment_file }

/-- A segment table in which no offset has a segment file. -/
def empty_segment_table : libewf_segment_table :=
  { get_segment_file_at_offset := fun _ => .no_segment_file }

/-- The chunk table of the examples, without checksum errors. -/
def example_chunk_table : libewf_chunk_table :=
  ( libewf_chunk_table_initialize ⟨0, 1⟩).2

/-- A sequence of calls: three appended checksum errors that overlap or touch,
and two reads of the corrupted second chunk of the example media. -/
def example_calls : List chunk_table_call :=
  [ .append_checksum_error 10 5,
    .append_checksum_error 0 3,
    .get_chunk_data_by_offset 1 ⟨0, 1⟩ example_media_values
      (example_segment_table 32768 (example_chunk 0x400)) none 32868 none 0,
    .append_checksum_error 3 7,
    .get_chunk_data_by_offset 1 ⟨0, 1⟩ example_media_values
      (example_segment_table 32768 example_zeroed_chunk) none 32868 none 0 ]

/-- A lookup that finds the value set at `first` at that offset, with data
offset 0, and is the given lookup at every other offset. -/
def example_set_lookup (lookup : Int → element_value_result) (first : Int)
    (chunk_data : libewf_chunk_data) (offset : Int) : element_value_result :=
  if offset = first then .found 0 (some chunk_data) else lookup offset

/-- Example libfdata functions: a list takes the value and finds it afterwards
at the offset it was set at; a NULL range list is refused. -/
def example_libfdata : libfdata_externals :=
  { LIBFDATA_LIST_ELEMENT_VALUE_FLAG_MANAGED := 1
    libfdata_range_list_set_element_value_at_offset :=
      fun range_list offset chunk_data _element_value_flags =>
        match range_list with
        | none => (-1, none)
        | some list =>
          (1, some
            { get_element_value_at_offset :=
                example_set_lookup list.get_element_value_at_offset offset chunk_data })
    libfdata_list_set_element_value_at_offset :=
      fun list offset chunk_data _element_value_flags =>
        (1,
          { list with
            get_element_value_at_offset :=
              example_set_lookup list.get_element_value_at_offset offset chunk_data }) }

/-- A segment table of one segment file whose chunk group at offset 0 has no
chunks list. -/
def null_chunks_list_segment_table : libewf_segment_table :=
  { get_segment_file_at_offset := fun offset =>
      .found 1 offset
        { get_chunk_group_by_offset := fun segment_file_data_offset =>
            .found 0 segment_file_data_offset none } }

/-- A segment table whose lookup fails at every offset. -/
def failing_segment_table : libewf_segment_table :=
  { get_segment_file_at_offset := fun _ => .error }

/-- A segment table of one segment file whose chunk group lookup has the given
outcome at every offset. -/
def example_chunk_group_segment_table (outcome : chunk_group_result) : libewf_segment_table :=
  { get_segment_file_at_offset := fun offset =>
      .found 1 offset { get_chunk_group_by_offset := fun _ => outcome } }

/-- A memory that holds one chunk table at address 1, with its IO handle at
address 2 and its checksum errors, the range (0, 3), at address 3. -/
def example_memory : memory :=
  { chunk_tables := fun a => if a = 1 then some ⟨some 2, some 3⟩ else none
    range_lists := fun a => if a = 3 then some [⟨0, 3⟩] else none
    io_handles := fun a => if a = 2 then some ⟨0, 1⟩ else none
    next_address := 4
    available := 2 }

/-! ## Shape of the result of `libewf_chunk_table_get_chunk_data_by_offset` on each path -/

theorem add_checksum_error_corrupted (ext : externals) (chunk_table : libewf_chunk_table)
    (media_values : libewf_media_values) (chunk_data : libewf_chunk_data)
    (chunk_data_offset chunk_offset : Int)
    (h : chunk_data.range_flags &&& ext.LIBEWF_RANGE_FLAG_IS_CORRUPTED ≠ 0) :
    get_chunk_data_by_offset_add_checksum_error ext chunk_table media_values chunk_data
        chunk_data_offset chunk_offset =
      ⟨if (ext.libcdata_range_list_insert_range chunk_table.checksum_errors
            (checksum_error_start_sector media_values chunk_offset)
            (checksum_error_number_of_sectors media_values chunk_offset)).1 ≠ 1 then -1 else 1,
        { chunk_table with
          checksum_errors :=
            (ext.libcdata_range_list_insert_range chunk_table.checksum_errors
              (checksum_error_start_sector media_values chunk_offset)
              (checksum_error_number_of_sectors media_values chunk_offset)).2 },
        some chunk_data, chunk_data_offset⟩ := by
  unfold get_chunk_data_by_offset_add_checksum_error
  simp only [h, ne_eq, not_false_eq_true, if_true]
  split <;> rfl

theorem add_checksum_error_intact (ext : externals) (chunk_table : libewf_chunk_table)
    (media_values : libewf_media_values) (chunk_data : libewf_chunk_data)
    (chunk_data_offset chunk_offset : Int)
    (h : chunk_data.range_flags &&& ext.LIBEWF_RANGE_FLAG_IS_CORRUPTED = 0) :
    get_chunk_data_by_offset_add_checksum_error ext chunk_table media_values chunk_data
        chunk_data_offset chunk_offset =
      ⟨1, chunk_table, some chunk_data, chunk_data_offset⟩ := by
  unfold get_chunk_data_by_offset_add_checksum_error
  simp [h]

/-- The chunk handed back for a located chunk that unpacked as corrupted. -/
theorem zeroed_range_flags (io_handle : libewf_io_handle) (unpacked : libewf_chunk_data) :
    (if io_handle.zero_on_error ≠ 0 then
        { unpacked with data := memory_set unpacked.data 0 unpacked.data_size }
      else unpacked).range_flags = unpacked.range_flags := by
  split <;> rfl

theorem get_chunk_data_located_corrupted (ext : externals) (chunk_table : libewf_chunk_table)
    (chunk_index : Nat) (io_handle : libewf_io_handle) (media_values : libewf_media_values)
    (segment_table : libewf_segment_table)
    (delta_chunks_range_list : Option libfdata_range_list) (offset : Int)
    (chunk_data : Option libewf_chunk_data) (chunk_data_offset : Int)
    (element_data_offset : Int) (element_value unpacked : libewf_chunk_data)
    (h_located : get_chunk_data_by_offset_lookup segment_table delta_chunks_range_list offset =
      .found element_data_offset (some element_value))
    (h_unpack : ext.libewf_chunk_data_unpack element_value media_values.chunk_size
      io_handle.compression_method = (1, unpacked))
    (h_corrupted : unpacked.range_flags &&& ext.LIBEWF_RANGE_FLAG_IS_CORRUPTED ≠ 0) :
    libewf_chunk_table_get_chunk_data_by_offset ext chunk_table chunk_index io_handle
        media_values segment_table delta_chunks_range_list offset chunk_data
        chunk_data_offset =
      ⟨if (ext.libcdata_range_list_insert_range chunk_table.checksum_errors
            (checksum_error_start_sector media_values (to_int64 (offset - element_data_offset)))
            (checksum_error_number_of_sectors media_values (to_int64 (offset - element_data_offset)))).1
            ≠ 1 then -1 else 1,
        { chunk_table with
          checksum_errors :=
            (ext.libcdata_range_list_insert_range chunk_table.checksum_errors
              (checksum_error_start_sector media_values (to_int64 (offset - element_data_offset)))
              (checksum_error_number_of_sectors media_values
                (to_int64 (offset - element_data_offset)))).2 },
        some (if io_handle.zero_on_error ≠ 0 then
            { unpacked with data := memory_set unpacked.data 0 unpacked.data_size }
          else unpacked),
        element_data_offset⟩ := by
  unfold libewf_chunk_table_get_chunk_data_by_offset
  simp only [h_located, h_unpack]
  rw [if_neg (by simp), if_pos h_corrupted]
  exact add_checksum_error_corrupted ext chunk_table media_values _ _ _
    (by rw [zeroed_range_flags]; exact h_corrupted)

theorem get_chunk_data_located_intact (ext : externals) (chunk_table : libewf_chunk_table)
    (chunk_index : Nat) (io_handle : libewf_io_handle) (media_values : libewf_media_values)
    (segment_table : libewf_segment_table)
    (delta_chunks_range_list : Option libfdata_range_list) (offset : Int)
    (chunk_data : Option libewf_chunk_data) (chunk_data_offset : Int)
    (element_data_offset : Int) (element_value unpacked : libewf_chunk_data)
    (h_located : get_chunk_data_by_offset_lookup segment_table delta_chunks_range_list offset =
      .found element_data_offset (some element_value))
    (h_unpack : ext.libewf_chunk_data_unpack element_value media_values.chunk_size
      io_handle.compression_method = (1, unpacked))
    (h_intact : unpacked.range_flags &&& ext.LIBEWF_RANGE_FLAG_IS_CORRUPTED = 0) :
    libewf_chunk_table_get_chunk_data_by_offset ext chunk_table chunk_index io_handle
        media_values segment_table delta_chunks_range_list offset chunk_data
        chunk_data_offset =
      ⟨1, chunk_table, some unpacked, element_data_offset⟩ := by
  unfold libewf_chunk_table_get_chunk_data_by_offset
  simp [h_located, h_unpack, h_intact, add_checksum_error_intact]

theorem lor_land_self_ne_zero (flags flag : Nat) (h : 0 < flag) :
    (flags ||| flag) &&& flag ≠ 0 := by
  have : (flags ||| flag) &&& flag = flag := by
    apply Nat.eq_of_testBit_eq
    intro i
    simp only [Nat.testBit_land, Nat.testBit_lor]
    cases flags.testBit i <;> cases flag.testBit i <;> rfl
  omega

theorem get_chunk_data_missing (ext : externals) (chunk_table : libewf_chunk_table)
    (chunk_index : Nat) (io_handle : libewf_io_handle) (media_values : libewf_media_values)
    (segment_table : libewf_segment_table)
    (delta_chunks_range_list : Option libfdata_range_list) (offset : Int)
    (chunk_data : Option libewf_chunk_data) (chunk_data_offset : Int)
    (new_chunk : libewf_chunk_data)
    (h_missing : get_chunk_data_by_offset_lookup segment_table delta_chunks_range_list offset =
      .no_element)
    (h_created : ext.libewf_chunk_data_initialize_clear_data chunk_data
      (missing_chunk_data_size chunk_index media_values) = (1, some new_chunk))
    (h_flag : 0 < ext.LIBEWF_RANGE_FLAG_IS_CORRUPTED) :
    libewf_chunk_table_get_chunk_data_by_offset ext chunk_table chunk_index io_handle
        media_values segment_table delta_chunks_range_list offset chunk_data
        chunk_data_offset =
      ⟨if (ext.libcdata_range_list_insert_range chunk_table.checksum_errors
            (checksum_error_start_sector media_values
              (missing_chunk_offset chunk_index media_values))
            (checksum_error_number_of_sectors media_values
              (missing_chunk_offset chunk_index media_values))).1 ≠ 1
          then -1 else 1,
        { chunk_table with
          checksum_errors :=
            (ext.libcdata_range_list_insert_range chunk_table.checksum_errors
              (checksum_error_start_sector media_values
                (missing_chunk_offset chunk_index media_values))
              (checksum_error_number_of_sectors media_values
                (missing_chunk_offset chunk_index media_values))).2 },
        some
          { new_chunk with
            data_size := (missing_chunk_data_size chunk_index media_values)
            range_flags := new_chunk.range_flags ||| ext.LIBEWF_RANGE_FLAG_IS_CORRUPTED },
        chunk_data_offset⟩ := by
  unfold libewf_chunk_table_get_chunk_data_by_offset
  simp only [h_missing, h_created]
  rw [if_neg (by simp)]
  exact add_checksum_error_corrupted ext chunk_table media_values _ _ _
    (lor_land_self_ne_zero new_chunk.range_flags _ h_flag)

theorem get_chunk_data_lookup_error (ext : externals) (chunk_table : libewf_chunk_table)
    (chunk_index : Nat) (io_handle : libewf_io_handle) (media_values : libewf_media_values)
    (segment_table : libewf_segment_table)
    (delta_chunks_range_list : Option libfdata_range_list) (offset : Int)
    (chunk_data : Option libewf_chunk_data) (chunk_data_offset : Int)
    (h_lookup : get_chunk_data_by_offset_lookup segment_table delta_chunks_range_list offset =
      .error) :
    libewf_chunk_table_get_chunk_data_by_offset ext chunk_table chunk_index io_handle
        media_values segment_table delta_chunks_range_list offset chunk_data
        chunk_data_offset =
      ⟨-1, chunk_table, chunk_data, chunk_data_offset⟩ := by
  unfold libewf_chunk_table_get_chunk_data_by_offset
  simp only [h_lookup]

theorem get_chunk_data_located_null (ext : externals) (chunk_table : libewf_chunk_table)
    (chunk_index : Nat) (io_handle : libewf_io_handle) (media_values : libewf_media_values)
    (segment_table : libewf_segment_table)
    (delta_chunks_range_list : Option libfdata_range_list) (offset : Int)
    (chunk_data : Option libewf_chunk_data) (chunk_data_offset : Int)
    (element_data_offset : Int)
    (h_located : get_chunk_data_by_offset_lookup segment_table delta_chunks_range_list offset =
      .found element_data_offset none) :
    libewf_chunk_table_get_chunk_data_by_offset ext chunk_table chunk_index io_handle
        media_values segment_table delta_chunks_range_list offset chunk_data
        chunk_data_offset =
      ⟨-1, chunk_table, none, element_data_offset⟩ := by
  unfold libewf_chunk_table_get_chunk_data_by_offset
  simp only [h_located]

theorem get_chunk_data_unpack_failed (ext : externals) (chunk_table : libewf_chunk_table)
    (chunk_index : Nat) (io_handle : libewf_io_handle) (media_values : libewf_media_values)
    (segment_table : libewf_segment_table)
    (delta_chunks_range_list : Option libfdata_range_list) (offset : Int)
    (chunk_data : Option libewf_chunk_data) (chunk_data_offset : Int)
    (element_data_offset : Int) (element_value unpacked : libewf_chunk_data) (result : Int)
    (h_located : get_chunk_data_by_offset_lookup segment_table delta_chunks_range_list offset =
      .found element_data_offset (some element_value))
    (h_unpack : ext.libewf_chunk_data_unpack element_value media_values.chunk_size
      io_handle.compression_method = (result, unpacked))
    (h_failed : result ≠ 1) :
    libewf_chunk_table_get_chunk_data_by_offset ext chunk_table chunk_index io_handle
        media_values segment_table delta_chunks_range_list offset chunk_data
        chunk_data_offset =
      ⟨-1, chunk_table, some unpacked, element_data_offset⟩ := by
  unfold libewf_chunk_table_get_chunk_data_by_offset
  simp only [h_located, h_unpack]
  rw [if_pos h_failed]

theorem get_chunk_data_create_failed (ext : externals) (chunk_table : libewf_chunk_table)
    (chunk_index : Nat) (io_handle : libewf_io_handle) (media_values : libewf_media_values)
    (segment_table : libewf_segment_table)
    (delta_chunks_range_list : Option libfdata_range_list) (offset : Int)
    (chunk_data : Option libewf_chunk_data) (chunk_data_offset : Int)
    (result : Int) (created : Option libewf_chunk_data)
    (h_missing : get_chunk_data_by_offset_lookup segment_table delta_chunks_range_list offset =
      .no_element)
    (h_created : ext.libewf_chunk_data_initialize_clear_data chunk_data
      (missing_chunk_data_size chunk_index media_values) = (result, created))
    (h_failed : result ≠ 1 ∨ created = none) :
    (libewf_chunk_table_get_chunk_data_by_offset ext chunk_table chunk_index io_handle
        media_values segment_table delta_chunks_range_list offset chunk_data
        chunk_data_offset).result = -1 := by
  unfold libewf_chunk_table_get_chunk_data_by_offset
  simp only [h_missing, h_created]
  by_cases h : result = 1
  · rcases h_failed with h_f | h_f
    · exact absurd h h_f
    · subst h_f
      rw [if_neg (by simp [h])]
  · rw [if_pos h]

theorem get_chunk_data_created (ext : externals) (chunk_table : libewf_chunk_table)
    (chunk_index : Nat) (io_handle : libewf_io_handle) (media_values : libewf_media_values)
    (segment_table : libewf_segment_table)
    (delta_chunks_range_list : Option libfdata_range_list) (offset : Int)
    (chunk_data : Option libewf_chunk_data) (chunk_data_offset : Int)
    (new_chunk : libewf_chunk_data)
    (h_missing : get_chunk_data_by_offset_lookup segment_table delta_chunks_range_list offset =
      .no_element)
    (h_created : ext.libewf_chunk_data_initialize_clear_data chunk_data
      (missing_chunk_data_size chunk_index media_values) = (1, some new_chunk)) :
    libewf_chunk_table_get_chunk_data_by_offset ext chunk_table chunk_index io_handle
        media_values segment_table delta_chunks_range_list offset chunk_data
        chunk_data_offset =
      get_chunk_data_by_offset_add_checksum_error ext chunk_table media_values
        { new_chunk with
          data_size := (missing_chunk_data_size chunk_index media_values)
          range_flags := new_chunk.range_flags ||| ext.LIBEWF_RANGE_FLAG_IS_CORRUPTED }
        chunk_data_offset (missing_chunk_offset chunk_index media_values) := by
  unfold libewf_chunk_table_get_chunk_data_by_offset
  simp only [h_missing, h_created]
  rw [if_neg (by simp)]

theorem add_checksum_error_cases (ext : externals) (chunk_table : libewf_chunk_table)
    (media_values : libewf_media_values) (chunk_data : libewf_chunk_data)
    (chunk_data_offset chunk_offset : Int) :
    (get_chunk_data_by_offset_add_checksum_error ext chunk_table media_values chunk_data
        chunk_data_offset chunk_offset).chunk_data = some chunk_data ∧
    (get_chunk_data_by_offset_add_checksum_error ext chunk_table media_values chunk_data
        chunk_data_offset chunk_offset).chunk_data_offset = chunk_data_offset ∧
    (chunk_data.range_flags &&& ext.LIBEWF_RANGE_FLAG_IS_CORRUPTED ≠ 0 →
      (get_chunk_data_by_offset_add_checksum_error ext chunk_table media_values chunk_data
        chunk_data_offset chunk_offset).chunk_table.checksum_errors =
        (ext.libcdata_range_list_insert_range chunk_table.checksum_errors
          (checksum_error_start_sector media_values chunk_offset)
          (checksum_error_number_of_sectors media_values chunk_offset)).2) := by
  by_cases h : chunk_data.range_flags &&& ext.LIBEWF_RANGE_FLAG_IS_CORRUPTED = 0
  · rw [add_checksum_error_intact _ _ _ _ _ _ h]
    exact ⟨rfl, rfl, fun h2 => absurd h h2⟩
  · rw [add_checksum_error_corrupted _ _ _ _ _ _ h]
    exact ⟨rfl, rfl, fun _ => rfl⟩

/-- A successful call that hands back a chunk flagged as corrupted has passed
the sector range of `corrupted_chunk_offset` to the range list. -/
theorem recorded_checksum_error (ext : externals) (chunk_table : libewf_chunk_table)
    (chunk_index : Nat) (io_handle : libewf_io_handle) (media_values : libewf_media_values)
    (segment_table : libewf_segment_table)
    (delta_chunks_range_list : Option libfdata_range_list) (offset : Int)
    (chunk_data : Option libewf_chunk_data) (chunk_data_offset : Int)
    (returned : libewf_chunk_data)
    (h_result : (libewf_chunk_table_get_chunk_data_by_offset ext chunk_table chunk_index
      io_handle media_values segment_table delta_chunks_range_list offset chunk_data
      chunk_data_offset).result = 1)
    (h_returned : (libewf_chunk_table_get_chunk_data_by_offset ext chunk_table chunk_index
      io_handle media_values segment_table delta_chunks_range_list offset chunk_data
      chunk_data_offset).chunk_data = some returned)
    (h_corrupted : returned.range_flags &&& ext.LIBEWF_RANGE_FLAG_IS_CORRUPTED ≠ 0) :
    (libewf_chunk_table_get_chunk_data_by_offset ext chunk_table chunk_index io_handle
        media_values segment_table delta_chunks_range_list offset chunk_data
        chunk_data_offset).chunk_table.checksum_errors =
      (ext.libcdata_range_list_insert_range chunk_table.checksum_errors
        (checksum_error_start_sector media_values
          (corrupted_chunk_offset
            (get_chunk_data_by_offset_lookup segment_table delta_chunks_range_list offset)
            chunk_index media_values offset))
        (checksum_error_number_of_sectors media_values
          (corrupted_chunk_offset
            (get_chunk_data_by_offset_lookup segment_table delta_chunks_range_list offset)
            chunk_index media_values offset))).2 := by
  cases h_l : get_chunk_data_by_offset_lookup segment_table delta_chunks_range_list offset with
  | error =>
    rw [get_chunk_data_lookup_error _ _ _ _ _ _ _ _ _ _ h_l] at h_result
    exact absurd h_result (by simp)
  | found eo value =>
    cases value with
    | none =>
      rw [get_chunk_data_located_null _ _ _ _ _ _ _ _ _ _ _ h_l] at h_result
      exact absurd h_result (by simp)
    | some v =>
      rcases h_u : ext.libewf_chunk_data_unpack v media_values.chunk_size
        io_handle.compression_method with ⟨result, unpacked⟩
      by_cases h_r : result = 1
      · subst h_r
        by_cases h_c : unpacked.range_flags &&& ext.LIBEWF_RANGE_FLAG_IS_CORRUPTED = 0
        · rw [get_chunk_data_located_intact _ _ _ _ _ _ _ _ _ _ _ _ _ h_l h_u h_c]
            at h_returned
          rw [← Option.some.inj h_returned] at h_corrupted
          exact absurd h_c h_corrupted
        · rw [get_chunk_data_located_corrupted _ _ _ _ _ _ _ _ _ _ _ _ _ h_l h_u h_c]
          rfl
      · rw [get_chunk_data_unpack_failed _ _ _ _ _ _ _ _ _ _ _ _ _ _ h_l h_u h_r] at h_result
        exact absurd h_result (by simp)
  | no_element =>
    rcases h_n : ext.libewf_chunk_data_initialize_clear_data chunk_data
      (missing_chunk_data_size chunk_index media_values) with ⟨result, created⟩
    by_cases h_r : result = 1
    · subst h_r
      cases created with
      | none =>
        rw [get_chunk_data_create_failed _ _ _ _ _ _ _ _ _ _ _ _ h_l h_n (Or.inr rfl)]
          at h_result
        exact absurd h_result (by simp)
      | some new_chunk =>
        rw [get_chunk_data_created _ _ _ _ _ _ _ _ _ _ _ h_l h_n] at h_returned ⊢
        rw [(add_checksum_error_cases ext chunk_table media_values _ chunk_data_offset
          (missing_chunk_offset chunk_index media_values)).1] at h_returned
        refine (add_checksum_error_cases ext chunk_table media_values _ chunk_data_offset
          (missing_chunk_offset chunk_index media_values)).2.2 ?_
        rw [Option.some.inj h_returned]
        exact h_corrupted
    · rw [get_chunk_data_create_failed _ _ _ _ _ _ _ _ _ _ _ _ h_l h_n (Or.inl h_r)]
        at h_result
      exact absurd h_result (by simp)

/-! ## Machine arithmetic -/

theorem to_int64_of_bounds (x : Int) (h_low : -(2 ^ 63) ≤ x) (h_high : x < 2 ^ 63) :
    to_int64 x = x := by
  unfold to_int64
  omega

theorem to_uint64_of_bounds (x : Int) (h_low : 0 ≤ x) (h_high : x < 2 ^ 64) :
    (to_uint64 x : Int) = x := by
  unfold to_uint64
  omega

theorem to_uint64_natCast (n : Nat) (h : n < 2 ^ 64) : to_uint64 (n : Int) = n := by
  have := to_uint64_of_bounds (n : Int) (by omega) (by omega)
  omega

theorem missing_chunk_offset_of_bounds (chunk_index : Nat) (media_values : libewf_media_values)
    (h : chunk_index * media_values.chunk_size < 2 ^ 63) :
    missing_chunk_offset chunk_index media_values =
      ((chunk_index * media_values.chunk_size : Nat) : Int) := by
  unfold missing_chunk_offset
  rcases Nat.eq_zero_or_pos media_values.chunk_size with h_zero | h_pos
  · rw [h_zero]
    simp only [Nat.cast_zero, mul_zero]
    exact to_int64_of_bounds 0 (by omega) (by omega)
  · have h_index : chunk_index < 2 ^ 63 :=
      lt_of_le_of_lt (Nat.le_mul_of_pos_right chunk_index h_pos) h
    rw [to_int64_of_bounds (chunk_index : Int) (by omega) (by omega)]
    rw [← Nat.cast_mul]
    exact to_int64_of_bounds _ (by omega) (by omega)

theorem start_sector_of_chunk (media_values : libewf_media_values) (chunk_index : Nat)
    (h_bytes : 0 < media_values.bytes_per_sector)
    (h_chunk_size : media_values.chunk_size =
      media_values.sectors_per_chunk * media_values.bytes_per_sector)
    (h_index : chunk_index * media_values.chunk_size < 2 ^ 63) :
    checksum_error_start_sector media_values
        ((chunk_index * media_values.chunk_size : Nat) : Int) =
      chunk_index * media_values.sectors_per_chunk := by
  unfold checksum_error_start_sector
  have h_quotient : Int.tdiv ((chunk_index * media_values.chunk_size : Nat) : Int)
      (media_values.bytes_per_sector : Int) =
      ((chunk_index * media_values.sectors_per_chunk : Nat) : Int) := by
    rw [h_chunk_size, ← Nat.mul_assoc, Nat.cast_mul]
    exact Int.mul_tdiv_cancel _ (by omega)
  rw [h_quotient]
  apply to_uint64_natCast
  have h_le : chunk_index * media_values.sectors_per_chunk ≤
      chunk_index * media_values.chunk_size := by
    rw [h_chunk_size, ← Nat.mul_assoc]
    exact Nat.le_mul_of_pos_right _ h_bytes
  omega

theorem number_of_sectors_within_media (media_values : libewf_media_values)
    (chunk_offset : Int)
    (h_width : media_values.number_of_sectors + media_values.sectors_per_chunk < 2 ^ 64)
    (h_start : checksum_error_start_sector media_values chunk_offset ≤
      media_values.number_of_sectors) :
    checksum_error_number_of_sectors media_values chunk_offset =
      min media_values.sectors_per_chunk
        (media_values.number_of_sectors -
          checksum_error_start_sector media_values chunk_offset) := by
  unfold checksum_error_number_of_sectors
  generalize checksum_error_start_sector media_values chunk_offset = start_sector at *
  have h_sum : to_uint64 ((start_sector : Int) + (media_values.sectors_per_chunk : Int)) =
      start_sector + media_values.sectors_per_chunk := by
    rw [← Nat.cast_add]
    exact to_uint64_natCast _ (by omega)
  have h_difference : to_uint64 ((media_values.number_of_sectors : Int) - (start_sector : Int)) =
      media_values.number_of_sectors - start_sector := by
    rw [← Nat.cast_sub h_start]
    exact to_uint64_natCast _ (by omega)
  rw [h_sum, h_difference]
  split <;> omega

/-! ## memory_set -/

theorem memory_set_length (buffer : List Nat) (value size : Nat) :
    (memory_set buffer value size).length = buffer.length := by
  unfold memory_set
  simp only [List.length_append, List.length_replicate, List.length_drop]
  omega

theorem memory_set_take (buffer : List Nat) (value size : Nat) :
    (memory_set buffer value size).take size = List.replicate (min size buffer.length) value := by
  unfold memory_set
  rw [List.take_append_eq_append_take]
  simp only [List.length_replicate, List.take_replicate]
  have h : size - min size buffer.length = 0 ∨ buffer.length ≤ size := by omega
  rcases h with h | h
  · rw [h]
    simp
  · rw [List.drop_eq_nil_of_le h]
    simp

theorem memory_set_drop (buffer : List Nat) (value size : Nat) :
    (memory_set buffer value size).drop size = buffer.drop size := by
  unfold memory_set
  rw [List.drop_append_eq_append_drop]
  simp only [List.length_replicate, List.drop_replicate]
  have h : size - min size buffer.length = 0 ∨ buffer.length ≤ size := by omega
  rcases h with h | h
  · rw [h]
    have h2 : min size buffer.length - size = 0 := by omega
    rw [h2]
    simp
  · rw [List.drop_eq_nil_of_le h]
    have h2 : min size buffer.length - size = 0 := by omega
    rw [h2]
    simp

/-! ## Claims about `libewf_chunk_table_get_chunk_data_by_offset` -/

/-- C1: when a chunk is located (in the delta chunks range list or in a chunks
list), unpacking it succeeds and leaves it flagged as corrupted, and the
insertion in the checksum errors range list succeeds, the call returns 1, the
chunk handed back is still flagged as corrupted, and the checksum errors are
the list produced by inserting the sector range of that chunk. -/
theorem C1_corrupted_chunk_is_returned (ext : externals) (chunk_table : libewf_chunk_table)
    (chunk_index : Nat) (io_handle : libewf_io_handle) (media_values : libewf_media_values)
    (segment_table : libewf_segment_table)
    (delta_chunks_range_list : Option libfdata_range_list) (offset : Int)
    (chunk_data : Option libewf_chunk_data) (chunk_data_offset : Int)
    (element_data_offset : Int) (element_value unpacked : libewf_chunk_data)
    (checksum_errors : libcdata_range_list)
    (h_located : get_chunk_data_by_offset_lookup segment_table delta_chunks_range_list offset =
      .found element_data_offset (some element_value))
    (h_unpack : ext.libewf_chunk_data_unpack element_value media_values.chunk_size
      io_handle.compression_method = (1, unpacked))
    (h_corrupted : unpacked.range_flags &&& ext.LIBEWF_RANGE_FLAG_IS_CORRUPTED ≠ 0)
    (h_insert : ext.libcdata_range_list_insert_range chunk_table.checksum_errors
      (checksum_error_start_sector media_values (to_int64 (offset - element_data_offset)))
      (checksum_error_number_of_sectors media_values
        (to_int64 (offset - element_data_offset))) = (1, checksum_errors)) :
    ∃ returned,
      libewf_chunk_table_get_chunk_data_by_offset ext chunk_table chunk_index io_handle
          media_values segment_table delta_chunks_range_list offset chunk_data
          chunk_data_offset =
        ⟨1, { chunk_table with checksum_errors := checksum_errors }, some returned,
          element_data_offset⟩ ∧
      returned.range_flags = unpacked.range_flags ∧
      returned.range_flags &&& ext.LIBEWF_RANGE_FLAG_IS_CORRUPTED ≠ 0 := by
  refine ⟨_, ?_, zeroed_range_flags io_handle unpacked, ?_⟩
  · rw [get_chunk_data_located_corrupted ext chunk_table chunk_index io_handle media_values
      segment_table delta_chunks_range_list offset chunk_data chunk_data_offset
      element_data_offset element_value unpacked h_located h_unpack h_corrupted, h_insert]
    rfl
  · rw [zeroed_range_flags io_handle unpacked]
    exact h_corrupted

/-- C1, on a chunk of the second chunk of the example media: located in the
chunks list, unpacked as corrupted, read with `zero_on_error` set. -/
theorem C1_corrupted_chunk_is_returned_witness :
    get_chunk_data_by_offset_lookup (example_segment_table 32768 (example_chunk 0x400)) none
        32868 = .found 100 (some (example_chunk 0x400)) ∧
    example_externals.libewf_chunk_data_unpack (example_chunk 0x400) 32768 0 =
      (1, example_chunk 0x400) ∧
    (example_chunk 0x400).range_flags &&& example_externals.LIBEWF_RANGE_FLAG_IS_CORRUPTED ≠ 0 ∧
    example_externals.libcdata_range_list_insert_range [] 64 64 = (1, [⟨64, 64⟩]) ∧
    ∃ returned,
      libewf_chunk_table_get_chunk_data_by_offset example_externals example_chunk_table 1
          ⟨0, 1⟩ example_media_values (example_segment_table 32768 (example_chunk 0x400)) none
          32868 none 0 =
        ⟨1, { example_chunk_table with checksum_errors := [⟨64, 64⟩] }, some returned, 100⟩ ∧
      returned.range_flags = (example_chunk 0x400).range_flags ∧
      returned.range_flags &&& example_externals.LIBEWF_RANGE_FLAG_IS_CORRUPTED ≠ 0 :=
  ⟨by with_unfolding_all rfl, by rfl, by decide, by rfl,
    C1_corrupted_chunk_is_returned example_externals example_chunk_table 1 ⟨0, 1⟩
      example_media_values (example_segment_table 32768 (example_chunk 0x400)) none 32868 none 0
      100 (example_chunk 0x400) (example_chunk 0x400) [⟨64, 64⟩] (by with_unfolding_all rfl)
      (by rfl) (by decide) (by with_unfolding_all rfl)⟩

/-- C2, as stated, fails: a chunk located at offset 32868 with data offset 100
is read with `chunk_index` 5; the call succeeds and the checksum error starts
at sector (32868 - 100) / 512 = 64, not at 5 * 64. -/
theorem C2_start_sector_counterexample :
    (libewf_chunk_table_get_chunk_data_by_offset example_externals example_chunk_table 5
        ⟨0, 1⟩ example_media_values (example_segment_table 32768 (example_chunk 0x400)) none
        32868 none 0).result = 1 ∧
    (libewf_chunk_table_get_chunk_data_by_offset example_externals example_chunk_table 5
        ⟨0, 1⟩ example_media_values (example_segment_table 32768 (example_chunk 0x400)) none
        32868 none 0).chunk_table.checksum_errors = [⟨64, 64⟩] ∧
    (64 : Nat) ≠ 5 * example_media_values.sectors_per_chunk := by
  refine ⟨?_, ?_, by decide⟩
  · rw [get_chunk_data_located_corrupted example_externals example_chunk_table 5 ⟨0, 1⟩
      example_media_values (example_segment_table 32768 (example_chunk 0x400)) none 32868 none 0
      100 (example_chunk 0x400) (example_chunk 0x400) (by with_unfolding_all rfl) (by rfl)
      (by decide)]
    with_unfolding_all rfl
  · rw [get_chunk_data_located_corrupted example_externals example_chunk_table 5 ⟨0, 1⟩
      example_media_values (example_segment_table 32768 (example_chunk 0x400)) none 32868 none 0
      100 (example_chunk 0x400) (example_chunk 0x400) (by with_unfolding_all rfl) (by rfl)
      (by decide)]
    with_unfolding_all rfl

/-- C2, amended: for a successful call that hands back a chunk flagged as
corrupted, the range passed to the checksum errors range list starts at the
sector of the chunk offset, which is `offset - *chunk_data_offset` for a
located chunk and `chunk_index * chunk_size` for a chunk that is in no list,
divided by `bytes_per_sector`.  That start sector is `chunk_index *
sectors_per_chunk` when the chunk size is `sectors_per_chunk *
bytes_per_sector` with a non-zero sector size, `chunk_index * chunk_size` fits
an `off64_t`, and a located chunk starts at `chunk_index * chunk_size`. -/
theorem C2_start_sector_of_checksum_error (ext : externals)
    (chunk_table : libewf_chunk_table) (chunk_index : Nat) (io_handle : libewf_io_handle)
    (media_values : libewf_media_values) (segment_table : libewf_segment_table)
    (delta_chunks_range_list : Option libfdata_range_list) (offset : Int)
    (chunk_data : Option libewf_chunk_data) (chunk_data_offset : Int)
    (returned : libewf_chunk_data)
    (h_result : (libewf_chunk_table_get_chunk_data_by_offset ext chunk_table chunk_index
      io_handle media_values segment_table delta_chunks_range_list offset chunk_data
      chunk_data_offset).result = 1)
    (h_returned : (libewf_chunk_table_get_chunk_data_by_offset ext chunk_table chunk_index
      io_handle media_values segment_table delta_chunks_range_list offset chunk_data
      chunk_data_offset).chunk_data = some returned)
    (h_corrupted : returned.range_flags &&& ext.LIBEWF_RANGE_FLAG_IS_CORRUPTED ≠ 0) :
    (libewf_chunk_table_get_chunk_data_by_offset ext chunk_table chunk_index io_handle
        media_values segment_table delta_chunks_range_list offset chunk_data
        chunk_data_offset).chunk_table.checksum_errors =
      (ext.libcdata_range_list_insert_range chunk_table.checksum_errors
        (checksum_error_start_sector media_values
          (corrupted_chunk_offset
            (get_chunk_data_by_offset_lookup segment_table delta_chunks_range_list offset)
            chunk_index media_values offset))
        (checksum_error_number_of_sectors media_values
          (corrupted_chunk_offset
            (get_chunk_data_by_offset_lookup segment_table delta_chunks_range_list offset)
            chunk_index media_values offset))).2 ∧
    (0 < media_values.bytes_per_sector →
      media_values.chunk_size =
        media_values.sectors_per_chunk * media_values.bytes_per_sector →
      chunk_index * media_values.chunk_size < 2 ^ 63 →
      (∀ element_data_offset element_value,
        get_chunk_data_by_offset_lookup segment_table delta_chunks_range_list offset =
          .found element_data_offset element_value →
        offset - element_data_offset =
          ((chunk_index * media_values.chunk_size : Nat) : Int)) →
      checksum_error_start_sector media_values
          (corrupted_chunk_offset
            (get_chunk_data_by_offset_lookup segment_table delta_chunks_range_list offset)
            chunk_index media_values offset) =
        chunk_index * media_values.sectors_per_chunk) := by
  refine ⟨recorded_checksum_error ext chunk_table chunk_index io_handle media_values
    segment_table delta_chunks_range_list offset chunk_data chunk_data_offset returned h_result
    h_returned h_corrupted, ?_⟩
  intro h_bytes h_chunk_size h_index h_aligned
  have h_offset : corrupted_chunk_offset
      (get_chunk_data_by_offset_lookup segment_table delta_chunks_range_list offset)
      chunk_index media_values offset =
      ((chunk_index * media_values.chunk_size : Nat) : Int) := by
    cases h_l : get_chunk_data_by_offset_lookup segment_table delta_chunks_range_list offset with
    | error => exact missing_chunk_offset_of_bounds chunk_index media_values h_index
    | no_element => exact missing_chunk_offset_of_bounds chunk_index media_values h_index
    | found element_data_offset element_value =>
      show to_int64 (offset - element_data_offset) = _
      rw [h_aligned element_data_offset element_value h_l]
      exact to_int64_of_bounds _ (by omega) (by omega)
  rw [h_offset, start_sector_of_chunk media_values chunk_index h_bytes h_chunk_size h_index]

/-- C2, amended, on the second chunk of the example media, located in the
chunks list and unpacked as corrupted. -/
theorem C2_start_sector_of_checksum_error_witness :
    ((libewf_chunk_table_get_chunk_data_by_offset example_externals example_chunk_table 1
        ⟨0, 0⟩ example_media_values (example_segment_table 32768 (example_chunk 0x400)) none
        32868 none 0).result = 1 ∧
      (libewf_chunk_table_get_chunk_data_by_offset example_externals example_chunk_table 1
        ⟨0, 0⟩ example_media_values (example_segment_table 32768 (example_chunk 0x400)) none
        32868 none 0).chunk_data = some (example_chunk 0x400) ∧
      (example_chunk 0x400).range_flags &&&
        example_externals.LIBEWF_RANGE_FLAG_IS_CORRUPTED ≠ 0 ∧
      0 < example_media_values.bytes_per_sector ∧
      example_media_values.chunk_size =
        example_media_values.sectors_per_chunk * example_media_values.bytes_per_sector ∧
      1 * example_media_values.chunk_size < 2 ^ 63 ∧
      (∀ element_data_offset element_value,
        get_chunk_data_by_offset_lookup (example_segment_table 32768 (example_chunk 0x400))
            none 32868 = .found element_data_offset element_value →
        (32868 : Int) - element_data_offset =
          ((1 * example_media_values.chunk_size : Nat) : Int))) ∧
    (libewf_chunk_table_get_chunk_data_by_offset example_externals example_chunk_table 1
        ⟨0, 0⟩ example_media_values (example_segment_table 32768 (example_chunk 0x400)) none
        32868 none 0).chunk_table.checksum_errors = [⟨64, 64⟩] ∧
    checksum_error_start_sector example_media_values
        (corrupted_chunk_offset
          (get_chunk_data_by_offset_lookup (example_segment_table 32768 (example_chunk 0x400))
            none 32868)
          1 example_media_values 32868) =
      1 * example_media_values.sectors_per_chunk :=
  have h_aligned : ∀ element_data_offset element_value,
      get_chunk_data_by_offset_lookup (example_segment_table 32768 (example_chunk 0x400)) none
          32868 = .found element_data_offset element_value →
      (32868 : Int) - element_data_offset =
        ((1 * example_media_values.chunk_size : Nat) : Int) := by
    intro element_data_offset element_value h
    have h_lookup : get_chunk_data_by_offset_lookup
        (example_segment_table 32768 (example_chunk 0x400)) none 32868 =
        .found 100 (some (example_chunk 0x400)) := by with_unfolding_all rfl
    rw [h_lookup] at h
    injection h with h_offset _
    rw [← h_offset]
    decide
  have h := C2_start_sector_of_checksum_error example_externals example_chunk_table 1 ⟨0, 0⟩
    example_media_values (example_segment_table 32768 (example_chunk 0x400)) none 32868 none 0
    (example_chunk 0x400) (by with_unfolding_all rfl) (by with_unfolding_all rfl) (by decide)
  ⟨⟨by with_unfolding_all rfl, by with_unfolding_all rfl, by decide, by decide, by decide,
      by decide, h_aligned⟩,
    h.1.trans (by with_unfolding_all rfl),
    h.2 (by decide) (by decide) (by decide) h_aligned⟩

/-- C4, as stated, fails.  A chunk located at the offsets 98304 to 131071 and
read at offset 98404 with `chunk_index` 3 leaves the data offset 100 written by
the list lookup in `*chunk_data_offset`, not 3 * 32768.  A read of chunk 3 that
finds no chunk in any list succeeds and leaves `*chunk_data_offset` as it was
on entry (here 0). -/
theorem C4_chunk_data_offset_counterexample :
    libewf_chunk_table_get_chunk_data_by_offset example_externals example_chunk_table 3
        ⟨0, 1⟩ example_media_values (example_segment_table 98304 (example_chunk 0)) none
        98404 none 0 = ⟨1, example_chunk_table, some (example_chunk 0), 100⟩ ∧
    (libewf_chunk_table_get_chunk_data_by_offset example_externals example_chunk_table 3
        ⟨0, 1⟩ example_media_values empty_segment_table none 98304 none 0).result = 1 ∧
    (libewf_chunk_table_get_chunk_data_by_offset example_externals example_chunk_table 3
        ⟨0, 1⟩ example_media_values empty_segment_table none 98304 none
        0).chunk_data_offset = 0 ∧
    (100 : Int) ≠ 3 * example_media_values.chunk_size ∧
    (0 : Int) ≠ 3 * example_media_values.chunk_size := by
  refine ⟨?_, ?_, ?_, by decide, by decide⟩
  · exact get_chunk_data_located_intact example_externals example_chunk_table 3 ⟨0, 1⟩
      example_media_values (example_segment_table 98304 (example_chunk 0)) none 98404 none 0
      100 (example_chunk 0) (example_chunk 0) (by with_unfolding_all rfl) (by rfl) (by decide)
  · rw [get_chunk_data_created example_externals example_chunk_table 3 ⟨0, 1⟩
      example_media_values empty_segment_table none 98304 none 0 _ (by rfl) (by rfl)]
    rw [add_checksum_error_corrupted example_externals example_chunk_table
      example_media_values _ 0 (missing_chunk_offset 3 example_media_values) (by decide)]
    rfl
  · rw [get_chunk_data_created example_externals example_chunk_table 3 ⟨0, 1⟩
      example_media_values empty_segment_table none 98304 none 0 _ (by rfl) (by rfl)]
    exact (add_checksum_error_cases example_externals example_chunk_table
      example_media_values _ 0 (missing_chunk_offset 3 example_media_values)).2.1

/-- C4, amended: whenever a chunk is located (in the delta chunks range list or
in a chunks list), the value left in `*chunk_data_offset` is the element data
offset written by the list lookup, whatever `chunk_index` is. -/
theorem C4_chunk_data_offset_of_located_chunk (ext : externals)
    (chunk_table : libewf_chunk_table) (chunk_index : Nat) (io_handle : libewf_io_handle)
    (media_values : libewf_media_values) (segment_table : libewf_segment_table)
    (delta_chunks_range_list : Option libfdata_range_list) (offset : Int)
    (chunk_data : Option libewf_chunk_data) (chunk_data_offset : Int)
    (element_data_offset : Int) (element_value : Option libewf_chunk_data)
    (h_located : get_chunk_data_by_offset_lookup segment_table delta_chunks_range_list offset =
      .found element_data_offset element_value) :
    (libewf_chunk_table_get_chunk_data_by_offset ext chunk_table chunk_index io_handle
        media_values segment_table delta_chunks_range_list offset chunk_data
        chunk_data_offset).chunk_data_offset = element_data_offset := by
  cases element_value with
  | none =>
    rw [get_chunk_data_located_null ext chunk_table chunk_index io_handle media_values
      segment_table delta_chunks_range_list offset chunk_data chunk_data_offset
      element_data_offset h_located]
  | some value =>
    rcases h_u : ext.libewf_chunk_data_unpack value media_values.chunk_size
      io_handle.compression_method with ⟨result, unpacked⟩
    by_cases h_r : result = 1
    · subst h_r
      by_cases h_c : unpacked.range_flags &&& ext.LIBEWF_RANGE_FLAG_IS_CORRUPTED = 0
      · rw [get_chunk_data_located_intact ext chunk_table chunk_index io_handle media_values
          segment_table delta_chunks_range_list offset chunk_data chunk_data_offset
          element_data_offset value unpacked h_located h_u h_c]
      · rw [get_chunk_data_located_corrupted ext chunk_table chunk_index io_handle
          media_values segment_table delta_chunks_range_list offset chunk_data
          chunk_data_offset element_data_offset value unpacked h_located h_u h_c]
    · rw [get_chunk_data_unpack_failed ext chunk_table chunk_index io_handle media_values
        segment_table delta_chunks_range_list offset chunk_data chunk_data_offset
        element_data_offset value unpacked result h_located h_u h_r]

/-- C4, amended, on a read at offset 98404 of the chunk located at 98304. -/
theorem C4_chunk_data_offset_of_located_chunk_witness :
    get_chunk_data_by_offset_lookup (example_segment_table 98304 (example_chunk 0)) none
        98404 = .found 100 (some (example_chunk 0)) ∧
    (libewf_chunk_table_get_chunk_data_by_offset example_externals example_chunk_table 3
        ⟨0, 1⟩ example_media_values (example_segment_table 98304 (example_chunk 0)) none
        98404 none 0).chunk_data_offset = 100 :=
  ⟨by with_unfolding_all rfl,
    C4_chunk_data_offset_of_located_chunk example_externals example_chunk_table 3 ⟨0, 1⟩
      example_media_values (example_segment_table 98304 (example_chunk 0)) none 98404 none 0
      100 (some (example_chunk 0)) (by with_unfolding_all rfl)⟩

/-- C5: for a located chunk that unpacks as corrupted, the chunk handed back is
the unpacked chunk with, when `zero_on_error` is non-zero, its first
`data_size` data bytes set to zero (flags, sizes and the rest of the buffer
unchanged), and the unpacked chunk itself when `zero_on_error` is zero. -/
theorem C5_zero_on_error (ext : externals) (chunk_table : libewf_chunk_table)
    (chunk_index : Nat) (io_handle : libewf_io_handle) (media_values : libewf_media_values)
    (segment_table : libewf_segment_table)
    (delta_chunks_range_list : Option libfdata_range_list) (offset : Int)
    (chunk_data : Option libewf_chunk_data) (chunk_data_offset : Int)
    (element_data_offset : Int) (element_value unpacked : libewf_chunk_data)
    (h_located : get_chunk_data_by_offset_lookup segment_table delta_chunks_range_list offset =
      .found element_data_offset (some element_value))
    (h_unpack : ext.libewf_chunk_data_unpack element_value media_values.chunk_size
      io_handle.compression_method = (1, unpacked))
    (h_corrupted : unpacked.range_flags &&& ext.LIBEWF_RANGE_FLAG_IS_CORRUPTED ≠ 0) :
    (io_handle.zero_on_error ≠ 0 →
      ∃ returned,
        (libewf_chunk_table_get_chunk_data_by_offset ext chunk_table chunk_index io_handle
          media_values segment_table delta_chunks_range_list offset chunk_data
          chunk_data_offset).chunk_data = some returned ∧
        returned = { unpacked with data := returned.data } ∧
        returned.data.length = unpacked.data.length ∧
        (∀ byte ∈ returned.data.take returned.data_size, byte = 0) ∧
        (returned.data.take returned.data_size).length =
          min returned.data_size unpacked.data.length ∧
        returned.data.drop returned.data_size = unpacked.data.drop unpacked.data_size) ∧
    (io_handle.zero_on_error = 0 →
      (libewf_chunk_table_get_chunk_data_by_offset ext chunk_table chunk_index io_handle
        media_values segment_table delta_chunks_range_list offset chunk_data
        chunk_data_offset).chunk_data = some unpacked) := by
  rw [get_chunk_data_located_corrupted ext chunk_table chunk_index io_handle media_values
    segment_table delta_chunks_range_list offset chunk_data chunk_data_offset
    element_data_offset element_value unpacked h_located h_unpack h_corrupted]
  constructor
  · intro h_zero
    refine ⟨{ unpacked with data := memory_set unpacked.data 0 unpacked.data_size }, ?_, rfl,
      memory_set_length _ _ _, ?_, ?_, memory_set_drop _ _ _⟩
    · show some (if io_handle.zero_on_error ≠ 0 then _ else _) = _
      rw [if_pos h_zero]
    · intro byte h_byte
      show byte = 0
      have h_take : byte ∈ List.replicate (min unpacked.data_size unpacked.data.length) 0 := by
        rw [← memory_set_take]
        exact h_byte
      exact (List.mem_replicate.mp h_take).2
    · show ((memory_set unpacked.data 0 unpacked.data_size).take unpacked.data_size).length = _
      rw [memory_set_take, List.length_replicate]
  · intro h_zero
    show some (if io_handle.zero_on_error ≠ 0 then _ else _) = _
    rw [if_neg (by simp [h_zero])]

/-- C5, on the corrupted chunk of the example, read once with `zero_on_error`
set and once with `zero_on_error` clear. -/
theorem C5_zero_on_error_witness :
    (get_chunk_data_by_offset_lookup (example_segment_table 32768 (example_chunk 0x400)) none
        32868 = .found 100 (some (example_chunk 0x400)) ∧
      example_externals.libewf_chunk_data_unpack (example_chunk 0x400) 32768 0 =
        (1, example_chunk 0x400) ∧
      (example_chunk 0x400).range_flags &&&
        example_externals.LIBEWF_RANGE_FLAG_IS_CORRUPTED ≠ 0 ∧
      (1 : Nat) ≠ 0 ∧ (0 : Nat) = 0) ∧
    (∃ returned,
      (libewf_chunk_table_get_chunk_data_by_offset example_externals example_chunk_table 1
        ⟨0, 1⟩ example_media_values (example_segment_table 32768 (example_chunk 0x400)) none
        32868 none 0).chunk_data = some returned ∧
      returned = { example_chunk 0x400 with data := returned.data } ∧
      returned.data.length = (example_chunk 0x400).data.length ∧
      (∀ byte ∈ returned.data.take returned.data_size, byte = 0) ∧
      (returned.data.take returned.data_size).length =
        min returned.data_size (example_chunk 0x400).data.length ∧
      returned.data.drop returned.data_size =
        (example_chunk 0x400).data.drop (example_chunk 0x400).data_size) ∧
    (libewf_chunk_table_get_chunk_data_by_offset example_externals example_chunk_table 1
      ⟨0, 0⟩ example_media_values (example_segment_table 32768 (example_chunk 0x400)) none
      32868 none 0).chunk_data = some (example_chunk 0x400) :=
  ⟨⟨by with_unfolding_all rfl, by rfl, by decide, by decide, by decide⟩,
    (C5_zero_on_error example_externals example_chunk_table 1 ⟨0, 1⟩ example_media_values
      (example_segment_table 32768 (example_chunk 0x400)) none 32868 none 0 100
      (example_chunk 0x400) (example_chunk 0x400) (by with_unfolding_all rfl) (by rfl)
      (by decide)).1 (by decide),
    (C5_zero_on_error example_externals example_chunk_table 1 ⟨0, 0⟩ example_media_values
      (example_segment_table 32768 (example_chunk 0x400)) none 32868 none 0 100
      (example_chunk 0x400) (example_chunk 0x400) (by with_unfolding_all rfl) (by rfl)
      (by decide)).2 (by decide)⟩

theorem missing_chunk_data_size_inside_media (chunk_index : Nat)
    (media_values : libewf_media_values)
    (h_chunk_size : media_values.chunk_size < 2 ^ 32)
    (h_media_size : media_values.media_size < 2 ^ 63)
    (h_inside : chunk_index * media_values.chunk_size ≤ media_values.media_size) :
    missing_chunk_data_size chunk_index media_values =
      if chunk_index * media_values.chunk_size + media_values.chunk_size ≤
          media_values.media_size then
        media_values.chunk_size
      else
        media_values.media_size - chunk_index * media_values.chunk_size := by
  unfold missing_chunk_data_size
  rw [missing_chunk_offset_of_bounds chunk_index media_values (by omega)]
  generalize chunk_index * media_values.chunk_size = chunk_offset at *
  have h_sum : to_uint64 ((chunk_offset : Int) + (media_values.chunk_size : Int)) =
      chunk_offset + media_values.chunk_size := by
    rw [← Nat.cast_add]
    exact to_uint64_natCast _ (by omega)
  have h_difference : to_uint64 ((media_values.media_size : Int) - (chunk_offset : Int)) =
      media_values.media_size - chunk_offset := by
    rw [← Nat.cast_sub h_inside]
    exact to_uint64_natCast _ (by omega)
  rw [h_sum, h_difference]
  split <;> split <;> omega

/-- The result of a call that finds the chunk in no list, with the chunk
creation and the range list of the specification. -/
theorem get_chunk_data_missing_spec (is_corrupted is_delta : Nat)
    (unpack : libewf_chunk_data → Nat → Nat → Int × libewf_chunk_data)
    (chunk_table : libewf_chunk_table) (chunk_index : Nat) (io_handle : libewf_io_handle)
    (media_values : libewf_media_values) (segment_table : libewf_segment_table)
    (delta_chunks_range_list : Option libfdata_range_list) (offset : Int)
    (chunk_data : Option libewf_chunk_data) (chunk_data_offset : Int)
    (h_flag : 0 < is_corrupted)
    (h_missing : get_chunk_data_by_offset_lookup segment_table delta_chunks_range_list offset =
      .no_element) :
    libewf_chunk_table_get_chunk_data_by_offset (spec_externals is_corrupted is_delta unpack)
        chunk_table chunk_index io_handle media_values segment_table delta_chunks_range_list
        offset chunk_data chunk_data_offset =
      ⟨1,
        { chunk_table with
          checksum_errors :=
            range_list_merge chunk_table.checksum_errors
              (checksum_error_start_sector media_values
                (missing_chunk_offset chunk_index media_values))
              (checksum_error_number_of_sectors media_values
                (missing_chunk_offset chunk_index media_values)) },
        some
          { allocated_data_size := missing_chunk_data_size chunk_index media_values
            data := List.replicate (missing_chunk_data_size chunk_index media_values) 0
            data_size := missing_chunk_data_size chunk_index media_values
            compressed_data := none
            compressed_data_offset := 0
            compressed_data_size := 0
            padding_size := 0
            range_flags := 0 ||| is_corrupted
            checksum := 0
            flags := 0
            chunk_io_flags := 0 },
        chunk_data_offset⟩ := by
  rw [get_chunk_data_missing (spec_externals is_corrupted is_delta unpack) chunk_table
    chunk_index io_handle media_values segment_table delta_chunks_range_list offset
    chunk_data chunk_data_offset _ h_missing rfl h_flag]
  rfl

/-- The start sector of a chunk that is in no list and starts at a byte offset
below 2^63: the byte offset divided by the number of bytes per sector. -/
theorem start_sector_of_missing_chunk (chunk_index : Nat) (media_values : libewf_media_values)
    (h_offset : chunk_index * media_values.chunk_size < 2 ^ 63) :
    checksum_error_start_sector media_values (missing_chunk_offset chunk_index media_values) =
      chunk_index * media_values.chunk_size / media_values.bytes_per_sector := by
  rw [missing_chunk_offset_of_bounds chunk_index media_values h_offset]
  unfold checksum_error_start_sector
  rw [← Int.ofNat_tdiv]
  apply to_uint64_natCast
  have h_le : chunk_index * media_values.chunk_size / media_values.bytes_per_sector ≤
      chunk_index * media_values.chunk_size := Nat.div_le_self _ _
  omega

/-- C6: when neither the delta chunks range list nor the chunks lists hold an
element for the offset, and the chunk starts inside the media, the call asks
for a new chunk of `chunk_size` bytes, or of the `media_size - chunk_index *
chunk_size` bytes left in the media, and inserts the sectors of that chunk into
the checksum errors.  When the creation succeeds with a buffer of zero bytes
and the insertion succeeds, the call returns 1 and hands back that chunk with
its zero bytes, the data size asked for and the flag
`LIBEWF_RANGE_FLAG_IS_CORRUPTED` set, whatever `zero_on_error` is, and the
checksum errors are what the insertion left. -/
theorem C6_missing_chunk_is_synthesized (ext : externals) (chunk_table : libewf_chunk_table)
    (chunk_index : Nat) (io_handle : libewf_io_handle) (media_values : libewf_media_values)
    (segment_table : libewf_segment_table)
    (delta_chunks_range_list : Option libfdata_range_list) (offset : Int)
    (chunk_data : Option libewf_chunk_data) (chunk_data_offset : Int)
    (new_chunk : libewf_chunk_data) (checksum_errors : libcdata_range_list)
    (h_missing : get_chunk_data_by_offset_lookup segment_table delta_chunks_range_list offset =
      .no_element)
    (h_flag : 0 < ext.LIBEWF_RANGE_FLAG_IS_CORRUPTED)
    (h_chunk_size : media_values.chunk_size < 2 ^ 32)
    (h_media_size : media_values.media_size < 2 ^ 63)
    (h_inside : chunk_index * media_values.chunk_size ≤ media_values.media_size)
    (h_start : chunk_index * media_values.chunk_size / media_values.bytes_per_sector ≤
      media_values.number_of_sectors)
    (h_width : media_values.number_of_sectors + media_values.sectors_per_chunk < 2 ^ 64)
    (h_created : ext.libewf_chunk_data_initialize_clear_data chunk_data
      (if chunk_index * media_values.chunk_size + media_values.chunk_size ≤
          media_values.media_size then media_values.chunk_size
        else media_values.media_size - chunk_index * media_values.chunk_size) =
      (1, some new_chunk))
    (h_zero : new_chunk.data =
      List.replicate
        (if chunk_index * media_values.chunk_size + media_values.chunk_size ≤
            media_values.media_size then media_values.chunk_size
          else media_values.media_size - chunk_index * media_values.chunk_size) 0)
    (h_insert : ext.libcdata_range_list_insert_range chunk_table.checksum_errors
      (chunk_index * media_values.chunk_size / media_values.bytes_per_sector)
      (min media_values.sectors_per_chunk
        (media_values.number_of_sectors -
          chunk_index * media_values.chunk_size / media_values.bytes_per_sector)) =
      (1, checksum_errors)) :
    ∃ returned : libewf_chunk_data,
      libewf_chunk_table_get_chunk_data_by_offset ext chunk_table chunk_index io_handle
          media_values segment_table delta_chunks_range_list offset chunk_data
          chunk_data_offset =
        ⟨1, { chunk_table with checksum_errors := checksum_errors }, some returned,
          chunk_data_offset⟩ ∧
      returned =
        { new_chunk with
          data_size :=
            if chunk_index * media_values.chunk_size + media_values.chunk_size ≤
                media_values.media_size then media_values.chunk_size
            else media_values.media_size - chunk_index * media_values.chunk_size
          range_flags := new_chunk.range_flags ||| ext.LIBEWF_RANGE_FLAG_IS_CORRUPTED } ∧
      returned.data =
        List.replicate
          (if chunk_index * media_values.chunk_size + media_values.chunk_size ≤
              media_values.media_size then media_values.chunk_size
            else media_values.media_size - chunk_index * media_values.chunk_size) 0 ∧
      returned.data.length = returned.data_size ∧
      (∀ byte ∈ returned.data, byte = 0) ∧
      returned.range_flags &&& ext.LIBEWF_RANGE_FLAG_IS_CORRUPTED ≠ 0 ∧
      ∀ other_io_handle : libewf_io_handle,
        libewf_chunk_table_get_chunk_data_by_offset ext chunk_table chunk_index
            other_io_handle media_values segment_table delta_chunks_range_list offset
            chunk_data chunk_data_offset =
          ⟨1, { chunk_table with checksum_errors := checksum_errors }, some returned,
            chunk_data_offset⟩ := by
  have h_size := missing_chunk_data_size_inside_media chunk_index media_values h_chunk_size
    h_media_size h_inside
  have h_sector := start_sector_of_missing_chunk chunk_index media_values (by omega)
  have h_number := number_of_sectors_within_media media_values
    (missing_chunk_offset chunk_index media_values) h_width (by rw [h_sector]; exact h_start)
  rw [h_sector] at h_number
  have h_call : ∀ any_io_handle : libewf_io_handle,
      libewf_chunk_table_get_chunk_data_by_offset ext chunk_table chunk_index any_io_handle
          media_values segment_table delta_chunks_range_list offset chunk_data
          chunk_data_offset =
        ⟨1, { chunk_table with checksum_errors := checksum_errors },
          some
            { new_chunk with
              data_size :=
                if chunk_index * media_values.chunk_size + media_values.chunk_size ≤
                    media_values.media_size then media_values.chunk_size
                else media_values.media_size - chunk_index * media_values.chunk_size
              range_flags := new_chunk.range_flags ||| ext.LIBEWF_RANGE_FLAG_IS_CORRUPTED },
          chunk_data_offset⟩ := by
    intro any_io_handle
    rw [get_chunk_data_missing ext chunk_table chunk_index any_io_handle media_values
      segment_table delta_chunks_range_list offset chunk_data chunk_data_offset new_chunk
      h_missing (by rw [h_size]; exact h_created) h_flag, h_sector, h_number, h_insert, h_size]
    rfl
  refine ⟨_, h_call io_handle, rfl, h_zero, ?_, ?_,
    lor_land_self_ne_zero new_chunk.range_flags _ h_flag, h_call⟩
  · show new_chunk.data.length = _
    rw [h_zero, List.length_replicate]
  · intro byte h_byte
    have h_mem : byte ∈ new_chunk.data := h_byte
    rw [h_zero] at h_mem
    exact (List.mem_replicate.mp h_mem).2

/-- C6, on the tail chunk of the example media, which is in no list: with the
chunk creation and the range list of the specification the call returns 1, the
chunk handed back has 1696 zero bytes and the flag 0x400, whether
`zero_on_error` is set or not, and the checksum errors hold the 4 sectors from
192. -/
theorem C6_missing_chunk_is_synthesized_witness :
    (get_chunk_data_by_offset_lookup empty_segment_table none 98304 = .no_element ∧
      0 < example_externals.LIBEWF_RANGE_FLAG_IS_CORRUPTED ∧
      example_media_values.chunk_size < 2 ^ 32 ∧ example_media_values.media_size < 2 ^ 63 ∧
      3 * example_media_values.chunk_size ≤ example_media_values.media_size ∧
      3 * example_media_values.chunk_size / example_media_values.bytes_per_sector ≤
        example_media_values.number_of_sectors ∧
      example_media_values.number_of_sectors + example_media_values.sectors_per_chunk <
        2 ^ 64) ∧
    (example_externals.libewf_chunk_data_initialize_clear_data none 1696 =
        (1, some ⟨1696, List.replicate 1696 0, 1696, none, 0, 0, 0, 0, 0, 0, 0⟩) ∧
      example_externals.libcdata_range_list_insert_range [] 192 4 = (1, [⟨192, 4⟩])) ∧
    libewf_chunk_table_get_chunk_data_by_offset example_externals example_chunk_table 3
        ⟨0, 1⟩ example_media_values empty_segment_table none 98304 none 0 =
      ⟨1, { example_chunk_table with checksum_errors := [⟨192, 4⟩] },
        some ⟨1696, List.replicate 1696 0, 1696, none, 0, 0, 0, 0x400, 0, 0, 0⟩, 0⟩ ∧
    libewf_chunk_table_get_chunk_data_by_offset example_externals example_chunk_table 3
        ⟨0, 0⟩ example_media_values empty_segment_table none 98304 none 0 =
      ⟨1, { example_chunk_table with checksum_errors := [⟨192, 4⟩] },
        some ⟨1696, List.replicate 1696 0, 1696, none, 0, 0, 0, 0x400, 0, 0, 0⟩, 0⟩ :=
  have h_created : example_externals.libewf_chunk_data_initialize_clear_data none 1696 =
      (1, some ⟨1696, List.replicate 1696 0, 1696, none, 0, 0, 0, 0, 0, 0, 0⟩) := rfl
  have h_insert : example_externals.libcdata_range_list_insert_range [] 192 4 =
      (1, [⟨192, 4⟩]) := rfl
  have h := C6_missing_chunk_is_synthesized example_externals example_chunk_table 3 ⟨0, 1⟩
    example_media_values empty_segment_table none 98304 none 0
    ⟨1696, List.replicate 1696 0, 1696, none, 0, 0, 0, 0, 0, 0, 0⟩ [⟨192, 4⟩] (by rfl)
    (by decide) (by decide) (by decide) (by decide) (by decide) (by decide) h_created rfl
    h_insert
  ⟨⟨by rfl, by decide, by decide, by decide, by decide, by decide, by decide⟩,
    ⟨h_created, h_insert⟩,
    h.elim fun returned h_returned => by rw [h_returned.1, h_returned.2.1]; rfl,
    h.elim fun returned h_returned => by rw [h_returned.2.2.2.2.2.2 ⟨0, 0⟩, h_returned.2.1]; rfl⟩

/-- The result of a call is determined by the outcome of the lookup. -/
theorem get_chunk_data_by_offset_congr (ext : externals) (chunk_table : libewf_chunk_table)
    (chunk_index : Nat) (io_handle : libewf_io_handle) (media_values : libewf_media_values)
    (segment_table other_segment_table : libewf_segment_table)
    (delta_chunks_range_list other_range_list : Option libfdata_range_list) (offset : Int)
    (chunk_data : Option libewf_chunk_data) (chunk_data_offset : Int)
    (h : get_chunk_data_by_offset_lookup segment_table delta_chunks_range_list offset =
      get_chunk_data_by_offset_lookup other_segment_table other_range_list offset) :
    libewf_chunk_table_get_chunk_data_by_offset ext chunk_table chunk_index io_handle
        media_values segment_table delta_chunks_range_list offset chunk_data
        chunk_data_offset =
      libewf_chunk_table_get_chunk_data_by_offset ext chunk_table chunk_index io_handle
        media_values other_segment_table other_range_list offset chunk_data
        chunk_data_offset := by
  unfold libewf_chunk_table_get_chunk_data_by_offset
  rw [h]

theorem lookup_delta_found (segment_table : libewf_segment_table)
    (range_list : libfdata_range_list) (offset : Int) (element_data_offset : Int)
    (element_value : Option libewf_chunk_data)
    (h : range_list.get_element_value_at_offset offset =
      .found element_data_offset element_value) :
    get_chunk_data_by_offset_lookup segment_table (some range_list) offset =
      .found element_data_offset element_value := by
  unfold get_chunk_data_by_offset_lookup
  simp only [h]

theorem lookup_delta_no_element (segment_table : libewf_segment_table)
    (range_list : libfdata_range_list) (offset : Int)
    (h : range_list.get_element_value_at_offset offset = .no_element) :
    get_chunk_data_by_offset_lookup segment_table (some range_list) offset =
      get_chunk_data_by_offset_lookup segment_table none offset := by
  unfold get_chunk_data_by_offset_lookup
  simp only [h]

theorem lookup_primary (segment_table : libewf_segment_table) (offset : Int)
    (chunks_list : libfdata_list)
    (h_result : (libewf_chunk_table_get_segment_file_chunk_group_by_offset segment_table
      offset).result = 1)
    (h_list : (libewf_chunk_table_get_segment_file_chunk_group_by_offset segment_table
      offset).chunks_list = some chunks_list) :
    get_chunk_data_by_offset_lookup segment_table none offset =
      chunks_list.get_element_value_at_offset
        (libewf_chunk_table_get_segment_file_chunk_group_by_offset segment_table
          offset).chunk_group_data_offset := by
  unfold get_chunk_data_by_offset_lookup
  simp only [h_result, h_list]
  rfl

/-- C8: when the lookup in the delta chunks range list finds a chunk at the
offset, the call hands back that chunk as unpack leaves it (zeroed when it is
flagged as corrupted and `zero_on_error` is set), with the data offset of the
delta element, and its whole result is the same for every segment table: the
chunk groups and chunks lists have no part in it.  When there is no delta
chunks range list, or its lookup finds no element, the call hands back in the
same way the chunk that the chunks list of the segment file chunk group holds
at the chunk group data offset. -/
theorem C8_delta_precedence (ext : externals) (chunk_table : libewf_chunk_table)
    (chunk_index : Nat) (io_handle : libewf_io_handle) (media_values : libewf_media_values)
    (segment_table : libewf_segment_table) (range_list : libfdata_range_list) (offset : Int)
    (chunk_data : Option libewf_chunk_data) (chunk_data_offset : Int) :
    (∀ (element_data_offset : Int) (element_value unpacked : libewf_chunk_data),
      range_list.get_element_value_at_offset offset =
        .found element_data_offset (some element_value) →
      ext.libewf_chunk_data_unpack element_value media_values.chunk_size
        io_handle.compression_method = (1, unpacked) →
      (unpacked.range_flags &&& ext.LIBEWF_RANGE_FLAG_IS_CORRUPTED = 0 →
        libewf_chunk_table_get_chunk_data_by_offset ext chunk_table chunk_index io_handle
            media_values segment_table (some range_list) offset chunk_data
            chunk_data_offset =
          ⟨1, chunk_table, some unpacked, element_data_offset⟩) ∧
      (unpacked.range_flags &&& ext.LIBEWF_RANGE_FLAG_IS_CORRUPTED ≠ 0 →
        (libewf_chunk_table_get_chunk_data_by_offset ext chunk_table chunk_index io_handle
            media_values segment_table (some range_list) offset chunk_data
            chunk_data_offset).chunk_data =
          some (if io_handle.zero_on_error ≠ 0 then
              { unpacked with data := memory_set unpacked.data 0 unpacked.data_size }
            else unpacked) ∧
        (libewf_chunk_table_get_chunk_data_by_offset ext chunk_table chunk_index io_handle
            media_values segment_table (some range_list) offset chunk_data
            chunk_data_offset).chunk_data_offset = element_data_offset ∧
        (libewf_chunk_table_get_chunk_data_by_offset ext chunk_table chunk_index io_handle
            media_values segment_table (some range_list) offset chunk_data
            chunk_data_offset).chunk_table.checksum_errors =
          (ext.libcdata_range_list_insert_range chunk_table.checksum_errors
            (checksum_error_start_sector media_values
              (to_int64 (offset - element_data_offset)))
            (checksum_error_number_of_sectors media_values
              (to_int64 (offset - element_data_offset)))).2 ∧
        ((libewf_chunk_table_get_chunk_data_by_offset ext chunk_table chunk_index io_handle
            media_values segment_table (some range_list) offset chunk_data
            chunk_data_offset).result = 1 ↔
          (ext.libcdata_range_list_insert_range chunk_table.checksum_errors
            (checksum_error_start_sector media_values
              (to_int64 (offset - element_data_offset)))
            (checksum_error_number_of_sectors media_values
              (to_int64 (offset - element_data_offset)))).1 = 1)) ∧
      ∀ other_segment_table : libewf_segment_table,
        libewf_chunk_table_get_chunk_data_by_offset ext chunk_table chunk_index io_handle
            media_values other_segment_table (some range_list) offset chunk_data
            chunk_data_offset =
          libewf_chunk_table_get_chunk_data_by_offset ext chunk_table chunk_index io_handle
            media_values segment_table (some range_list) offset chunk_data
            chunk_data_offset) ∧
    (∀ (delta_chunks_range_list : Option libfdata_range_list) (chunks_list : libfdata_list)
        (element_data_offset : Int) (element_value unpacked : libewf_chunk_data),
      (delta_chunks_range_list = none ∨
        (delta_chunks_range_list = some range_list ∧
          range_list.get_element_value_at_offset offset = .no_element)) →
      (libewf_chunk_table_get_segment_file_chunk_group_by_offset segment_table
        offset).result = 1 →
      (libewf_chunk_table_get_segment_file_chunk_group_by_offset segment_table
        offset).chunks_list = some chunks_list →
      chunks_list.get_element_value_at_offset
          (libewf_chunk_table_get_segment_file_chunk_group_by_offset segment_table
            offset).chunk_group_data_offset =
        .found element_data_offset (some element_value) →
      ext.libewf_chunk_data_unpack element_value media_values.chunk_size
        io_handle.compression_method = (1, unpacked) →
      (unpacked.range_flags &&& ext.LIBEWF_RANGE_FLAG_IS_CORRUPTED = 0 →
        libewf_chunk_table_get_chunk_data_by_offset ext chunk_table chunk_index io_handle
            media_values segment_table delta_chunks_range_list offset chunk_data
            chunk_data_offset =
          ⟨1, chunk_table, some unpacked, element_data_offset⟩) ∧
      (unpacked.range_flags &&& ext.LIBEWF_RANGE_FLAG_IS_CORRUPTED ≠ 0 →
        (libewf_chunk_table_get_chunk_data_by_offset ext chunk_table chunk_index io_handle
            media_values segment_table delta_chunks_range_list offset chunk_data
            chunk_data_offset).chunk_data =
          some (if io_handle.zero_on_error ≠ 0 then
              { unpacked with data := memory_set unpacked.data 0 unpacked.data_size }
            else unpacked) ∧
        (libewf_chunk_table_get_chunk_data_by_offset ext chunk_table chunk_index io_handle
            media_values segment_table delta_chunks_range_list offset chunk_data
            chunk_data_offset).chunk_data_offset = element_data_offset ∧
        (libewf_chunk_table_get_chunk_data_by_offset ext chunk_table chunk_index io_handle
            media_values segment_table delta_chunks_range_list offset chunk_data
            chunk_data_offset).chunk_table.checksum_errors =
          (ext.libcdata_range_list_insert_range chunk_table.checksum_errors
            (checksum_error_start_sector media_values
              (to_int64 (offset - element_data_offset)))
            (checksum_error_number_of_sectors media_values
              (to_int64 (offset - element_data_offset)))).2 ∧
        ((libewf_chunk_table_get_chunk_data_by_offset ext chunk_table chunk_index io_handle
            media_values segment_table delta_chunks_range_list offset chunk_data
            chunk_data_offset).result = 1 ↔
          (ext.libcdata_range_list_insert_range chunk_table.checksum_errors
            (checksum_error_start_sector media_values
              (to_int64 (offset - element_data_offset)))
            (checksum_error_number_of_sectors media_values
              (to_int64 (offset - element_data_offset)))).1 = 1))) := by
  refine ⟨?_, ?_⟩
  · intro element_data_offset element_value unpacked h_hit h_unpack
    have h_located := lookup_delta_found segment_table range_list offset element_data_offset
      (some element_value) h_hit
    refine ⟨fun h_intact => ?_, fun h_corrupted => ?_, fun other_segment_table => ?_⟩
    · exact get_chunk_data_located_intact ext chunk_table chunk_index io_handle media_values
        segment_table (some range_list) offset chunk_data chunk_data_offset
        element_data_offset element_value unpacked h_located h_unpack h_intact
    · rw [get_chunk_data_located_corrupted ext chunk_table chunk_index io_handle media_values
        segment_table (some range_list) offset chunk_data chunk_data_offset
        element_data_offset element_value unpacked h_located h_unpack h_corrupted]
      refine ⟨rfl, rfl, rfl, ?_⟩
      by_cases h_r : (ext.libcdata_range_list_insert_range chunk_table.checksum_errors
          (checksum_error_start_sector media_values (to_int64 (offset - element_data_offset)))
          (checksum_error_number_of_sectors media_values
            (to_int64 (offset - element_data_offset)))).1 = 1
      · simp [h_r]
      · simp [h_r]
    · apply get_chunk_data_by_offset_congr
      rw [h_located, lookup_delta_found other_segment_table range_list offset
        element_data_offset (some element_value) h_hit]
  · intro delta_chunks_range_list chunks_list element_data_offset element_value unpacked
      h_delta h_result h_list h_element h_unpack
    have h_primary : get_chunk_data_by_offset_lookup segment_table none offset =
        .found element_data_offset (some element_value) := by
      rw [lookup_primary segment_table offset chunks_list h_result h_list]
      exact h_element
    have h_located : get_chunk_data_by_offset_lookup segment_table delta_chunks_range_list
        offset = .found element_data_offset (some element_value) := by
      rcases h_delta with h_none | ⟨h_some, h_miss⟩
      · rw [h_none]
        exact h_primary
      · rw [h_some, lookup_delta_no_element segment_table range_list offset h_miss]
        exact h_primary
    refine ⟨fun h_intact => ?_, fun h_corrupted => ?_⟩
    · exact get_chunk_data_located_intact ext chunk_table chunk_index io_handle media_values
        segment_table delta_chunks_range_list offset chunk_data chunk_data_offset
        element_data_offset element_value unpacked h_located h_unpack h_intact
    · rw [get_chunk_data_located_corrupted ext chunk_table chunk_index io_handle media_values
        segment_table delta_chunks_range_list offset chunk_data chunk_data_offset
        element_data_offset element_value unpacked h_located h_unpack h_corrupted]
      refine ⟨rfl, rfl, rfl, ?_⟩
      by_cases h_r : (ext.libcdata_range_list_insert_range chunk_table.checksum_errors
          (checksum_error_start_sector media_values (to_int64 (offset - element_data_offset)))
          (checksum_error_number_of_sectors media_values
            (to_int64 (offset - element_data_offset)))).1 = 1
      · simp [h_r]
      · simp [h_r]

/-- C8, on a delta chunk of bytes 0xab at the offsets 32768 to 65535 that
shadows a corrupted chunk of the chunks list: a read at 32868 hands back the
delta chunk with data offset 100 and leaves the checksum errors empty, also
with a segment table that holds nothing; a read at 98404, where the delta
chunks range list holds nothing, hands back the corrupted chunk of the chunks
list, zeroed. -/
theorem C8_delta_precedence_witness :
    ((example_delta_list 32768 (example_chunk 0)).get_element_value_at_offset 32868 =
        .found 100 (some (example_chunk 0)) ∧
      example_externals.libewf_chunk_data_unpack (example_chunk 0) 32768 0 =
        (1, example_chunk 0) ∧
      (example_chunk 0).range_flags &&& example_externals.LIBEWF_RANGE_FLAG_IS_CORRUPTED = 0 ∧
      libewf_chunk_table_get_chunk_data_by_offset example_externals example_chunk_table 1
          ⟨0, 1⟩ example_media_values (example_segment_table 32768 (example_chunk 0x400))
          (some (example_delta_list 32768 (example_chunk 0))) 32868 none 0 =
        ⟨1, example_chunk_table, some (example_chunk 0), 100⟩ ∧
      libewf_chunk_table_get_chunk_data_by_offset example_externals example_chunk_table 1
          ⟨0, 1⟩ example_media_values empty_segment_table
          (some (example_delta_list 32768 (example_chunk 0))) 32868 none 0 =
        libewf_chunk_table_get_chunk_data_by_offset example_externals example_chunk_table 1
          ⟨0, 1⟩ example_media_values (example_segment_table 32768 (example_chunk 0x400))
          (some (example_delta_list 32768 (example_chunk 0))) 32868 none 0) ∧
    ((example_delta_list 32768 (example_chunk 0)).get_element_value_at_offset 98404 =
        .no_element ∧
      (libewf_chunk_table_get_segment_file_chunk_group_by_offset
        (example_segment_table 98304 (example_chunk 0x400)) 98404).result = 1 ∧
      (example_chunk 0x400).range_flags &&&
        example_externals.LIBEWF_RANGE_FLAG_IS_CORRUPTED ≠ 0 ∧
      (libewf_chunk_table_get_chunk_data_by_offset example_externals example_chunk_table 3
          ⟨0, 1⟩ example_media_values (example_segment_table 98304 (example_chunk 0x400))
          (some (example_delta_list 32768 (example_chunk 0))) 98404 none 0).chunk_data =
        some example_zeroed_chunk ∧
      (libewf_chunk_table_get_chunk_data_by_offset example_externals example_chunk_table 3
          ⟨0, 1⟩ example_media_values (example_segment_table 98304 (example_chunk 0x400))
          (some (example_delta_list 32768 (example_chunk 0))) 98404 none 0).chunk_data_offset =
        100) :=
  have h_hit : (example_delta_list 32768 (example_chunk 0)).get_element_value_at_offset 32868 =
      .found 100 (some (example_chunk 0)) := by with_unfolding_all rfl
  have h_miss : (example_delta_list 32768 (example_chunk 0)).get_element_value_at_offset 98404 =
      .no_element := by with_unfolding_all rfl
  have h_intact : (example_chunk 0).range_flags &&&
      example_externals.LIBEWF_RANGE_FLAG_IS_CORRUPTED = 0 := by decide
  have h_corrupted : (example_chunk 0x400).range_flags &&&
      example_externals.LIBEWF_RANGE_FLAG_IS_CORRUPTED ≠ 0 := by decide
  have h_result : (libewf_chunk_table_get_segment_file_chunk_group_by_offset
      (example_segment_table 98304 (example_chunk 0x400)) 98404).result = 1 := by
    with_unfolding_all rfl
  have h_delta := (C8_delta_precedence example_externals example_chunk_table 1 ⟨0, 1⟩
    example_media_values (example_segment_table 32768 (example_chunk 0x400))
    (example_delta_list 32768 (example_chunk 0)) 32868 none 0).1 100 (example_chunk 0)
    (example_chunk 0) h_hit rfl
  have h_primary := ((C8_delta_precedence example_externals example_chunk_table 3 ⟨0, 1⟩
    example_media_values (example_segment_table 98304 (example_chunk 0x400))
    (example_delta_list 32768 (example_chunk 0)) 98404 none 0).2
    (some (example_delta_list 32768 (example_chunk 0))) _ 100 (example_chunk 0x400)
    (example_chunk 0x400) (Or.inr ⟨rfl, h_miss⟩) h_result (by with_unfolding_all rfl)
    (by with_unfolding_all rfl) rfl).2 h_corrupted
  ⟨⟨h_hit, rfl, h_intact, h_delta.1 h_intact, h_delta.2.2 empty_segment_table⟩,
    h_miss, h_result, h_corrupted, h_primary.1.trans (by with_unfolding_all rfl),
    h_primary.2.1⟩

/-! ## The merging range list -/

theorem range_list_merge_start_lower_bound (range_list : libcdata_range_list) :
    ∀ (range_start range_size bound : Nat), bound < range_start →
      (∀ range ∈ range_list, bound < range.start) →
      ∀ range ∈ range_list_merge range_list range_start range_size, bound < range.start := by
  induction range_list with
  | nil =>
    intro range_start range_size bound h_new _ range h_mem
    simp only [range_list_merge, List.mem_singleton] at h_mem
    rw [h_mem]
    exact h_new
  | cons head rest ih =>
    intro range_start range_size bound h_new h_old range h_mem
    have h_head : bound < head.start := h_old head (List.mem_cons_self _ _)
    have h_rest : ∀ range ∈ rest, bound < range.start :=
      fun range h => h_old range (List.mem_cons_of_mem _ h)
    unfold range_list_merge at h_mem
    split at h_mem
    · rcases List.mem_cons.mp h_mem with h | h
      · rw [h]
        exact h_new
      · exact h_old range h
    · split at h_mem
      · rcases List.mem_cons.mp h_mem with h | h
        · rw [h]
          exact h_head
        · exact ih range_start range_size bound h_new h_rest range h
      · exact ih _ _ bound (by omega) h_rest range h_mem

theorem range_list_merge_separated (range_list : libcdata_range_list) :
    ∀ (range_start range_size : Nat), separated range_list →
      separated (range_list_merge range_list range_start range_size) := by
  induction range_list with
  | nil =>
    intro range_start range_size _
    simp [range_list_merge, separated]
  | cons head rest ih =>
    intro range_start range_size h
    unfold separated at h
    rw [List.pairwise_cons] at h
    unfold range_list_merge
    split
    · rename_i h_before
      unfold separated
      rw [List.pairwise_cons, List.pairwise_cons]
      refine ⟨?_, h.1, h.2⟩
      intro range h_mem
      rcases List.mem_cons.mp h_mem with h_eq | h_in
      · rw [h_eq]
        exact h_before
      · have := h.1 range h_in
        show range_start + range_size < range.start
        omega
    · split
      · rename_i h_after
        unfold separated
        rw [List.pairwise_cons]
        refine ⟨?_, ih range_start range_size h.2⟩
        intro range h_mem
        exact range_list_merge_start_lower_bound rest range_start range_size
          (head.start + head.size) h_after h.1 range h_mem
      · exact ih _ _ h.2

theorem covers_nil (sector : Nat) : ¬ covers [] sector := by
  unfold covers
  simp

theorem covers_cons (head : libcdata_range_list_value) (rest : libcdata_range_list)
    (sector : Nat) :
    covers (head :: rest) sector ↔
      (head.start ≤ sector ∧ sector < head.start + head.size) ∨ covers rest sector := by
  unfold covers
  simp only [List.exists_mem_cons_iff]

theorem covers_append (first second : libcdata_range_list) (sector : Nat) :
    covers (first ++ second) sector ↔ covers first sector ∨ covers second sector := by
  unfold covers
  simp only [List.mem_append]
  constructor
  · rintro ⟨range, h_mem | h_mem, h⟩
    · exact Or.inl ⟨range, h_mem, h⟩
    · exact Or.inr ⟨range, h_mem, h⟩
  · rintro (⟨range, h_mem, h⟩ | ⟨range, h_mem, h⟩)
    · exact ⟨range, Or.inl h_mem, h⟩
    · exact ⟨range, Or.inr h_mem, h⟩

theorem range_list_merge_covers (range_list : libcdata_range_list) :
    ∀ (range_start range_size sector : Nat),
      covers (range_list_merge range_list range_start range_size) sector ↔
        covers range_list sector ∨ (range_start ≤ sector ∧ sector < range_start + range_size) := by
  induction range_list with
  | nil =>
    intro range_start range_size sector
    unfold range_list_merge
    rw [covers_cons]
    have := covers_nil sector
    tauto
  | cons head rest ih =>
    intro range_start range_size sector
    unfold range_list_merge
    split
    · rw [covers_cons]
      tauto
    · split
      · rw [covers_cons, ih, covers_cons]
        tauto
      · rw [ih, covers_cons]
        constructor
        · rintro (h | h)
          · exact Or.inl (Or.inr h)
          · by_cases h_new : range_start ≤ sector ∧ sector < range_start + range_size
            · exact Or.inr h_new
            · refine Or.inl (Or.inl ?_)
              omega
        · rintro ((h | h) | h)
          · refine Or.inr ?_
            omega
          · exact Or.inl h
          · refine Or.inr ?_
            omega

theorem range_list_merge_idempotent (range_list : libcdata_range_list) :
    ∀ (range_start range_size inner_start inner_size : Nat),
      range_start ≤ inner_start → inner_start + inner_size ≤ range_start + range_size →
      range_list_merge (range_list_merge range_list range_start range_size) inner_start
          inner_size =
        range_list_merge range_list range_start range_size := by
  induction range_list with
  | nil =>
    intro range_start range_size inner_start inner_size h_low h_high
    simp only [range_list_merge]
    rw [if_neg (by omega), if_neg (by omega)]
    have h_min : min inner_start range_start = range_start := by omega
    have h_max : max (inner_start + inner_size) (range_start + range_size) - range_start =
        range_size := by omega
    rw [h_min, h_max]
  | cons head rest ih =>
    intro range_start range_size inner_start inner_size h_low h_high
    by_cases h_before : range_start + range_size < head.start
    · have h_first : range_list_merge (head :: rest) range_start range_size =
          ⟨range_start, range_size⟩ :: head :: rest := by
        rw [range_list_merge, if_pos h_before]
      rw [h_first, range_list_merge]
      rw [if_neg (by show ¬ inner_start + inner_size < range_start; omega),
        if_neg (by show ¬ range_start + range_size < inner_start; omega)]
      have h_min : min inner_start range_start = range_start := by omega
      have h_max : max (inner_start + inner_size) (range_start + range_size) - range_start =
          range_size := by omega
      show range_list_merge (head :: rest) (min inner_start range_start)
        (max (inner_start + inner_size) (range_start + range_size) -
          min inner_start range_start) = _
      rw [h_min, h_max, range_list_merge, if_pos h_before]
    · by_cases h_after : head.start + head.size < range_start
      · have h_first : range_list_merge (head :: rest) range_start range_size =
            head :: range_list_merge rest range_start range_size := by
          rw [range_list_merge, if_neg h_before, if_pos h_after]
        rw [h_first, range_list_merge, if_neg (by omega), if_pos (by omega),
          ih range_start range_size inner_start inner_size h_low h_high]
      · have h_first : range_list_merge (head :: rest) range_start range_size =
            range_list_merge rest (min range_start head.start)
              (max (range_start + range_size) (head.start + head.size) -
                min range_start head.start) := by
          rw [range_list_merge, if_neg h_before, if_neg h_after]
        rw [h_first]
        exact ih _ _ inner_start inner_size (by omega) (by omega)

/-! ## Effect of the calls on the checksum errors -/

/-- A call either leaves the checksum errors as they are, whatever the range
list insertion is, or passes the sector range of the corrupted chunk to it. -/
theorem get_chunk_data_table_effect (ext : externals) (chunk_index : Nat)
    (io_handle : libewf_io_handle) (media_values : libewf_media_values)
    (segment_table : libewf_segment_table)
    (delta_chunks_range_list : Option libfdata_range_list) (offset : Int)
    (chunk_data : Option libewf_chunk_data) (chunk_data_offset : Int) :
    (∀ (insert_range : libcdata_range_list → Nat → Nat → Int × libcdata_range_list)
        (chunk_table : libewf_chunk_table),
      (libewf_chunk_table_get_chunk_data_by_offset
          { ext with libcdata_range_list_insert_range := insert_range } chunk_table
          chunk_index io_handle media_values segment_table delta_chunks_range_list offset
          chunk_data chunk_data_offset).chunk_table.checksum_errors =
        chunk_table.checksum_errors) ∨
    (∀ (insert_range : libcdata_range_list → Nat → Nat → Int × libcdata_range_list)
        (chunk_table : libewf_chunk_table),
      (libewf_chunk_table_get_chunk_data_by_offset
          { ext with libcdata_range_list_insert_range := insert_range } chunk_table
          chunk_index io_handle media_values segment_table delta_chunks_range_list offset
          chunk_data chunk_data_offset).chunk_table.checksum_errors =
        (insert_range chunk_table.checksum_errors
          (checksum_error_start_sector media_values
            (corrupted_chunk_offset
              (get_chunk_data_by_offset_lookup segment_table delta_chunks_range_list offset)
              chunk_index media_values offset))
          (checksum_error_number_of_sectors media_values
            (corrupted_chunk_offset
              (get_chunk_data_by_offset_lookup segment_table delta_chunks_range_list offset)
              chunk_index media_values offset))).2) := by
  cases h_l : get_chunk_data_by_offset_lookup segment_table delta_chunks_range_list offset with
  | error =>
    refine Or.inl (fun insert_range chunk_table => ?_)
    rw [get_chunk_data_lookup_error _ chunk_table chunk_index io_handle media_values
      segment_table delta_chunks_range_list offset chunk_data chunk_data_offset h_l]
  | found eo value =>
    cases value with
    | none =>
      refine Or.inl (fun insert_range chunk_table => ?_)
      rw [get_chunk_data_located_null _ chunk_table chunk_index io_handle media_values
        segment_table delta_chunks_range_list offset chunk_data chunk_data_offset eo h_l]
    | some v =>
      rcases h_u : ext.libewf_chunk_data_unpack v media_values.chunk_size
        io_handle.compression_method with ⟨result, unpacked⟩
      by_cases h_r : result = 1
      · subst h_r
        by_cases h_c : unpacked.range_flags &&& ext.LIBEWF_RANGE_FLAG_IS_CORRUPTED = 0
        · refine Or.inl (fun insert_range chunk_table => ?_)
          rw [get_chunk_data_located_intact
            { ext with libcdata_range_list_insert_range := insert_range } chunk_table
            chunk_index io_handle media_values segment_table delta_chunks_range_list offset
            chunk_data chunk_data_offset eo v unpacked h_l h_u h_c]
        · refine Or.inr (fun insert_range chunk_table => ?_)
          rw [get_chunk_data_located_corrupted
            { ext with libcdata_range_list_insert_range := insert_range } chunk_table
            chunk_index io_handle media_values segment_table delta_chunks_range_list offset
            chunk_data chunk_data_offset eo v unpacked h_l h_u h_c]
          rfl
      · refine Or.inl (fun insert_range chunk_table => ?_)
        rw [get_chunk_data_unpack_failed
          { ext with libcdata_range_list_insert_range := insert_range } chunk_table
          chunk_index io_handle media_values segment_table delta_chunks_range_list offset
          chunk_data chunk_data_offset eo v unpacked result h_l h_u h_r]
  | no_element =>
    rcases h_n : ext.libewf_chunk_data_initialize_clear_data chunk_data
      (missing_chunk_data_size chunk_index media_values) with ⟨result, created⟩
    by_cases h_r : result = 1
    · subst h_r
      cases created with
      | none =>
        refine Or.inl (fun insert_range chunk_table => ?_)
        have h_call : libewf_chunk_table_get_chunk_data_by_offset
            { ext with libcdata_range_list_insert_range := insert_range } chunk_table
            chunk_index io_handle media_values segment_table delta_chunks_range_list offset
            chunk_data chunk_data_offset = ⟨-1, chunk_table, none, chunk_data_offset⟩ := by
          unfold libewf_chunk_table_get_chunk_data_by_offset
          simp only [h_l, h_n]
          rw [if_neg (by simp)]
        rw [h_call]
      | some new_chunk =>
        by_cases h_c : (new_chunk.range_flags ||| ext.LIBEWF_RANGE_FLAG_IS_CORRUPTED) &&&
            ext.LIBEWF_RANGE_FLAG_IS_CORRUPTED = 0
        · refine Or.inl (fun insert_range chunk_table => ?_)
          rw [get_chunk_data_created
            { ext with libcdata_range_list_insert_range := insert_range } chunk_table
            chunk_index io_handle media_values segment_table delta_chunks_range_list offset
            chunk_data chunk_data_offset new_chunk h_l h_n,
            add_checksum_error_intact
              { ext with libcdata_range_list_insert_range := insert_range } chunk_table
              media_values _ chunk_data_offset (missing_chunk_offset chunk_index media_values)
              h_c]
        · refine Or.inr (fun insert_range chunk_table => ?_)
          rw [get_chunk_data_created
            { ext with libcdata_range_list_insert_range := insert_range } chunk_table
            chunk_index io_handle media_values segment_table delta_chunks_range_list offset
            chunk_data chunk_data_offset new_chunk h_l h_n,
            add_checksum_error_corrupted
              { ext with libcdata_range_list_insert_range := insert_range } chunk_table
              media_values _ chunk_data_offset (missing_chunk_offset chunk_index media_values)
              h_c]
          rfl
    · refine Or.inl (fun insert_range chunk_table => ?_)
      have h_call : libewf_chunk_table_get_chunk_data_by_offset
          { ext with libcdata_range_list_insert_range := insert_range } chunk_table
          chunk_index io_handle media_values segment_table delta_chunks_range_list offset
          chunk_data chunk_data_offset = ⟨-1, chunk_table, created, chunk_data_offset⟩ := by
        unfold libewf_chunk_table_get_chunk_data_by_offset
        simp only [h_l, h_n]
        rw [if_pos h_r]
      rw [h_call]

theorem append_checksum_error_table (ext : externals) (chunk_table : libewf_chunk_table)
    (start_sector number_of_sectors : Nat) :
    (libewf_chunk_table_append_checksum_error ext chunk_table start_sector
        number_of_sectors).2.checksum_errors =
      (ext.libcdata_range_list_insert_range chunk_table.checksum_errors start_sector
        number_of_sectors).2 := by
  unfold libewf_chunk_table_append_checksum_error
  rcases h : ext.libcdata_range_list_insert_range chunk_table.checksum_errors start_sector
    number_of_sectors with ⟨result, checksum_errors⟩
  by_cases h_r : result = 1
  · simp only [h_r, ne_eq, not_true_eq_false, if_false]
  · simp only [h_r, ne_eq, not_false_eq_true, if_true]

theorem spec_externals_insert_range (is_corrupted is_delta : Nat)
    (unpack : libewf_chunk_data → Nat → Nat → Int × libewf_chunk_data) :
    { spec_externals is_corrupted is_delta unpack with
      libcdata_range_list_insert_range := libcdata_range_list_insert_range } =
      spec_externals is_corrupted is_delta unpack := rfl

theorem recording_externals_insert_range (ext : externals) :
    { ext with
      libcdata_range_list_insert_range := fun range_list range_start range_size =>
        (1, range_list ++ [⟨range_start, range_size⟩]) } = recording_externals ext := rfl

/-- One call merges at most one range into the checksum errors, and the
recording range list appends exactly that range. -/
theorem run_call_effect (is_corrupted is_delta : Nat)
    (unpack : libewf_chunk_data → Nat → Nat → Int × libewf_chunk_data)
    (call : chunk_table_call) :
    ∃ ranges : libcdata_range_list, ranges.length ≤ 1 ∧
      ∀ chunk_table : libewf_chunk_table,
        (run_call (spec_externals is_corrupted is_delta unpack) chunk_table
            call).checksum_errors =
          ranges.foldl (fun range_list range => range_list_merge range_list range.start
            range.size) chunk_table.checksum_errors ∧
        (run_call (recording_externals (spec_externals is_corrupted is_delta unpack))
            chunk_table call).checksum_errors = chunk_table.checksum_errors ++ ranges := by
  cases call with
  | append_checksum_error start_sector number_of_sectors =>
    refine ⟨[⟨start_sector, number_of_sectors⟩], le_refl _, fun chunk_table => ⟨?_, ?_⟩⟩
    · show (libewf_chunk_table_append_checksum_error _ chunk_table start_sector
        number_of_sectors).2.checksum_errors = _
      rw [append_checksum_error_table]
      rfl
    · show (libewf_chunk_table_append_checksum_error _ chunk_table start_sector
        number_of_sectors).2.checksum_errors = _
      rw [append_checksum_error_table]
      rfl
  | get_chunk_data_by_offset chunk_index io_handle media_values segment_table
      delta_chunks_range_list offset chunk_data chunk_data_offset =>
    rcases get_chunk_data_table_effect (spec_externals is_corrupted is_delta unpack)
      chunk_index io_handle media_values segment_table delta_chunks_range_list offset
      chunk_data chunk_data_offset with h | h
    · refine ⟨[], Nat.zero_le _, fun chunk_table => ⟨?_, ?_⟩⟩
      · have h_spec := h libcdata_range_list_insert_range chunk_table
        rw [spec_externals_insert_range] at h_spec
        exact h_spec
      · have h_rec := h (fun range_list range_start range_size =>
          (1, range_list ++ [⟨range_start, range_size⟩])) chunk_table
        rw [recording_externals_insert_range] at h_rec
        rw [List.append_nil]
        exact h_rec
    · refine ⟨[⟨checksum_error_start_sector media_values
          (corrupted_chunk_offset
            (get_chunk_data_by_offset_lookup segment_table delta_chunks_range_list offset)
            chunk_index media_values offset),
        checksum_error_number_of_sectors media_values
          (corrupted_chunk_offset
            (get_chunk_data_by_offset_lookup segment_table delta_chunks_range_list offset)
            chunk_index media_values offset)⟩], le_refl _, fun chunk_table => ⟨?_, ?_⟩⟩
      · have h_spec := h libcdata_range_list_insert_range chunk_table
        rw [spec_externals_insert_range] at h_spec
        exact h_spec
      · have h_rec := h (fun range_list range_start range_size =>
          (1, range_list ++ [⟨range_start, range_size⟩])) chunk_table
        rw [recording_externals_insert_range] at h_rec
        exact h_rec

theorem run_calls_effect (is_corrupted is_delta : Nat)
    (unpack : libewf_chunk_data → Nat → Nat → Int × libewf_chunk_data)
    (calls : List chunk_table_call) :
    ∃ ranges : libcdata_range_list, ranges.length ≤ calls.length ∧
      ∀ chunk_table : libewf_chunk_table,
        (run_calls (spec_externals is_corrupted is_delta unpack) chunk_table
            calls).checksum_errors =
          ranges.foldl (fun range_list range => range_list_merge range_list range.start
            range.size) chunk_table.checksum_errors ∧
        (run_calls (recording_externals (spec_externals is_corrupted is_delta unpack))
            chunk_table calls).checksum_errors = chunk_table.checksum_errors ++ ranges := by
  induction calls with
  | nil => exact ⟨[], le_refl _, fun chunk_table => ⟨rfl, (List.append_nil _).symm⟩⟩
  | cons call rest ih =>
    obtain ⟨first, h_first_length, h_first⟩ := run_call_effect is_corrupted is_delta unpack call
    obtain ⟨others, h_others_length, h_others⟩ := ih
    refine ⟨first ++ others, ?_, fun chunk_table => ⟨?_, ?_⟩⟩
    · rw [List.length_append, List.length_cons]
      omega
    · show (run_calls _ (run_call _ chunk_table call) rest).checksum_errors = _
      rw [(h_others _).1, (h_first chunk_table).1, List.foldl_append]
    · show (run_calls _ (run_call _ chunk_table call) rest).checksum_errors = _
      rw [(h_others _).2, (h_first chunk_table).2, List.append_assoc]

theorem foldl_merge_separated (ranges : libcdata_range_list) :
    ∀ range_list : libcdata_range_list, separated range_list →
      separated (ranges.foldl (fun range_list range => range_list_merge range_list range.start
        range.size) range_list) := by
  induction ranges with
  | nil => exact fun _ h => h
  | cons range rest ih =>
    intro range_list h
    exact ih _ (range_list_merge_separated range_list range.start range.size h)

theorem foldl_merge_covers (ranges : libcdata_range_list) :
    ∀ (range_list : libcdata_range_list) (sector : Nat),
      covers (ranges.foldl (fun range_list range => range_list_merge range_list range.start
        range.size) range_list) sector ↔ covers range_list sector ∨ covers ranges sector := by
  induction ranges with
  | nil =>
    intro range_list sector
    have := covers_nil sector
    simp only [List.foldl_nil]
    tauto
  | cons range rest ih =>
    intro range_list sector
    rw [List.foldl_cons, ih, range_list_merge_covers, covers_cons]
    tauto

theorem foldl_merge_length (ranges : libcdata_range_list) :
    ∀ range_list : libcdata_range_list,
      (ranges.foldl (fun range_list range => range_list_merge range_list range.start
        range.size) range_list).length ≤ range_list.length + ranges.length := by
  have h_merge : ∀ (range_list : libcdata_range_list) (range_start range_size : Nat),
      (range_list_merge range_list range_start range_size).length ≤ range_list.length + 1 := by
    intro range_list
    induction range_list with
    | nil => intro _ _; simp [range_list_merge]
    | cons head rest ih =>
      intro range_start range_size
      unfold range_list_merge
      split
      · simp
      · split
        · have := ih range_start range_size
          simp only [List.length_cons]
          omega
        · have := ih (min range_start head.start)
            (max (range_start + range_size) (head.start + head.size) -
              min range_start head.start)
          simp only [List.length_cons]
          omega
  induction ranges with
  | nil => intro range_list; simp
  | cons range rest ih =>
    intro range_list
    have h1 := ih (range_list_merge range_list range.start range.size)
    have h2 := h_merge range_list range.start range.size
    simp only [List.foldl_cons, List.length_cons]
    omega

theorem memory_set_idempotent (buffer : List Nat) (value size : Nat) :
    memory_set (memory_set buffer value size) value size = memory_set buffer value size := by
  have h_drop := memory_set_drop buffer value size
  have h_length := memory_set_length buffer value size
  rw [memory_set.eq_1 (memory_set buffer value size), h_drop, h_length]
  rfl

/-- The result of a call that locates a chunk which unpacks as corrupted, with
the range list of the specification. -/
theorem get_chunk_data_located_corrupted_spec (is_corrupted is_delta : Nat)
    (unpack : libewf_chunk_data → Nat → Nat → Int × libewf_chunk_data)
    (chunk_table : libewf_chunk_table) (chunk_index : Nat) (io_handle : libewf_io_handle)
    (media_values : libewf_media_values) (segment_table : libewf_segment_table)
    (delta_chunks_range_list : Option libfdata_range_list) (offset : Int)
    (chunk_data : Option libewf_chunk_data) (chunk_data_offset : Int)
    (element_data_offset : Int) (element_value unpacked : libewf_chunk_data)
    (h_located : get_chunk_data_by_offset_lookup segment_table delta_chunks_range_list offset =
      .found element_data_offset (some element_value))
    (h_unpack : unpack element_value media_values.chunk_size io_handle.compression_method =
      (1, unpacked))
    (h_corrupted : unpacked.range_flags &&& is_corrupted ≠ 0) :
    libewf_chunk_table_get_chunk_data_by_offset (spec_externals is_corrupted is_delta unpack)
        chunk_table chunk_index io_handle media_values segment_table delta_chunks_range_list
        offset chunk_data chunk_data_offset =
      ⟨1,
        { chunk_table with
          checksum_errors :=
            range_list_merge chunk_table.checksum_errors
              (checksum_error_start_sector media_values
                (to_int64 (offset - element_data_offset)))
              (checksum_error_number_of_sectors media_values
                (to_int64 (offset - element_data_offset))) },
        some (if io_handle.zero_on_error ≠ 0 then
            { unpacked with data := memory_set unpacked.data 0 unpacked.data_size }
          else unpacked),
        element_data_offset⟩ := by
  rw [get_chunk_data_located_corrupted (spec_externals is_corrupted is_delta unpack)
    chunk_table chunk_index io_handle media_values segment_table delta_chunks_range_list
    offset chunk_data chunk_data_offset element_data_offset element_value unpacked h_located
    h_unpack h_corrupted]
  rfl

theorem land_zero_eq_zero (flags : Nat) : flags &&& 0 = 0 := by
  simp

/-- C9: with the range list of the specification and `zero_on_error` set, after
a successful read that handed back a chunk flagged as corrupted, a second read
of the same offset (same chunk index, media values and IO handle), whose lookup
yields what the first lookup yielded or yields the chunk handed back by the
first read on which unpack takes no action, returns 1, leaves the checksum
errors as the first read left them, and hands back the same chunk, whose first
`data_size` data bytes are zero. -/
theorem C9_second_read_of_corrupted_chunk (is_corrupted is_delta : Nat)
    (unpack : libewf_chunk_data → Nat → Nat → Int × libewf_chunk_data)
    (chunk_table : libewf_chunk_table) (chunk_index : Nat) (io_handle : libewf_io_handle)
    (media_values : libewf_media_values)
    (segment_table second_segment_table : libewf_segment_table)
    (delta_chunks_range_list second_range_list : Option libfdata_range_list) (offset : Int)
    (chunk_data second_chunk_data : Option libewf_chunk_data)
    (chunk_data_offset second_chunk_data_offset : Int)
    (returned : libewf_chunk_data)
    (h_zero : io_handle.zero_on_error ≠ 0)
    (h_result : (libewf_chunk_table_get_chunk_data_by_offset
      (spec_externals is_corrupted is_delta unpack) chunk_table chunk_index io_handle
      media_values segment_table delta_chunks_range_list offset chunk_data
      chunk_data_offset).result = 1)
    (h_returned : (libewf_chunk_table_get_chunk_data_by_offset
      (spec_externals is_corrupted is_delta unpack) chunk_table chunk_index io_handle
      media_values segment_table delta_chunks_range_list offset chunk_data
      chunk_data_offset).chunk_data = some returned)
    (h_corrupted : returned.range_flags &&& is_corrupted ≠ 0)
    (h_second :
      get_chunk_data_by_offset_lookup second_segment_table second_range_list offset =
        get_chunk_data_by_offset_lookup segment_table delta_chunks_range_list offset ∨
      ∃ element_data_offset element_value,
        get_chunk_data_by_offset_lookup segment_table delta_chunks_range_list offset =
          .found element_data_offset (some element_value) ∧
        get_chunk_data_by_offset_lookup second_segment_table second_range_list offset =
          .found element_data_offset (some returned) ∧
        unpack returned media_values.chunk_size io_handle.compression_method =
          (1, returned)) :
    (libewf_chunk_table_get_chunk_data_by_offset (spec_externals is_corrupted is_delta unpack)
      (libewf_chunk_table_get_chunk_data_by_offset
        (spec_externals is_corrupted is_delta unpack) chunk_table chunk_index io_handle
        media_values segment_table delta_chunks_range_list offset chunk_data
        chunk_data_offset).chunk_table
      chunk_index io_handle media_values second_segment_table second_range_list offset
      second_chunk_data second_chunk_data_offset).result = 1 ∧
    (libewf_chunk_table_get_chunk_data_by_offset (spec_externals is_corrupted is_delta unpack)
      (libewf_chunk_table_get_chunk_data_by_offset
        (spec_externals is_corrupted is_delta unpack) chunk_table chunk_index io_handle
        media_values segment_table delta_chunks_range_list offset chunk_data
        chunk_data_offset).chunk_table
      chunk_index io_handle media_values second_segment_table second_range_list offset
      second_chunk_data second_chunk_data_offset).chunk_table =
      (libewf_chunk_table_get_chunk_data_by_offset
        (spec_externals is_corrupted is_delta unpack) chunk_table chunk_index io_handle
        media_values segment_table delta_chunks_range_list offset chunk_data
        chunk_data_offset).chunk_table ∧
    (libewf_chunk_table_get_chunk_data_by_offset (spec_externals is_corrupted is_delta unpack)
      (libewf_chunk_table_get_chunk_data_by_offset
        (spec_externals is_corrupted is_delta unpack) chunk_table chunk_index io_handle
        media_values segment_table delta_chunks_range_list offset chunk_data
        chunk_data_offset).chunk_table
      chunk_index io_handle media_values second_segment_table second_range_list offset
      second_chunk_data second_chunk_data_offset).chunk_data = some returned ∧
    (∀ byte ∈ returned.data.take returned.data_size, byte = 0) := by
  have h_flag : 0 < is_corrupted := by
    rcases Nat.eq_zero_or_pos is_corrupted with h | h
    · rw [h] at h_corrupted
      exact absurd (land_zero_eq_zero returned.range_flags) h_corrupted
    · exact h
  have h_same := range_list_merge_idempotent chunk_table.checksum_errors
  cases h_l : get_chunk_data_by_offset_lookup segment_table delta_chunks_range_list offset with
  | error =>
    rw [get_chunk_data_lookup_error _ chunk_table chunk_index io_handle media_values
      segment_table delta_chunks_range_list offset chunk_data chunk_data_offset h_l]
      at h_result
    exact absurd h_result (by simp)
  | found eo value =>
    cases value with
    | none =>
      rw [get_chunk_data_located_null _ chunk_table chunk_index io_handle media_values
        segment_table delta_chunks_range_list offset chunk_data chunk_data_offset eo h_l]
        at h_result
      exact absurd h_result (by simp)
    | some v =>
      rcases h_u : unpack v media_values.chunk_size io_handle.compression_method with
        ⟨result, unpacked⟩
      by_cases h_r : result = 1
      · subst h_r
        by_cases h_c : unpacked.range_flags &&& is_corrupted = 0
        · rw [get_chunk_data_located_intact (spec_externals is_corrupted is_delta unpack)
            chunk_table chunk_index io_handle media_values segment_table
            delta_chunks_range_list offset chunk_data chunk_data_offset eo v unpacked h_l h_u
            h_c] at h_returned
          rw [← Option.some.inj h_returned] at h_corrupted
          exact absurd h_c h_corrupted
        · have h_first := get_chunk_data_located_corrupted_spec is_corrupted is_delta unpack
            chunk_table chunk_index io_handle media_values segment_table
            delta_chunks_range_list offset chunk_data chunk_data_offset eo v unpacked h_l h_u
            h_c
          rw [h_first, if_pos h_zero] at h_returned
          have h_eq : { unpacked with
              data := memory_set unpacked.data 0 unpacked.data_size } = returned :=
            Option.some.inj h_returned
          have h_zeroes : ∀ byte ∈ returned.data.take returned.data_size, byte = 0 := by
            intro byte h_byte
            rw [← h_eq] at h_byte
            have h_take : byte ∈
                List.replicate (min unpacked.data_size unpacked.data.length) 0 := by
              rw [← memory_set_take]
              exact h_byte
            exact (List.mem_replicate.mp h_take).2
          rw [h_first]
          have h_finish : ∀ value second_unpacked : libewf_chunk_data,
              get_chunk_data_by_offset_lookup second_segment_table second_range_list offset =
                .found eo (some value) →
              unpack value media_values.chunk_size io_handle.compression_method =
                (1, second_unpacked) →
              second_unpacked.range_flags &&& is_corrupted ≠ 0 →
              { second_unpacked with
                data := memory_set second_unpacked.data 0 second_unpacked.data_size } =
                returned →
              libewf_chunk_table_get_chunk_data_by_offset
                  (spec_externals is_corrupted is_delta unpack)
                  { chunk_table with
                    checksum_errors :=
                      range_list_merge chunk_table.checksum_errors
                        (checksum_error_start_sector media_values (to_int64 (offset - eo)))
                        (checksum_error_number_of_sectors media_values
                          (to_int64 (offset - eo))) }
                  chunk_index io_handle media_values second_segment_table second_range_list
                  offset second_chunk_data second_chunk_data_offset =
                ⟨1,
                  { chunk_table with
                    checksum_errors :=
                      range_list_merge chunk_table.checksum_errors
                        (checksum_error_start_sector media_values (to_int64 (offset - eo)))
                        (checksum_error_number_of_sectors media_values
                          (to_int64 (offset - eo))) },
                  some returned, eo⟩ := by
            intro value second_unpacked h_l2 h_u2 h_c2 h_eq2
            rw [get_chunk_data_located_corrupted_spec is_corrupted is_delta unpack _
              chunk_index io_handle media_values second_segment_table second_range_list offset
              second_chunk_data second_chunk_data_offset eo value second_unpacked h_l2 h_u2
              h_c2]
            have h_chunk : (if io_handle.zero_on_error ≠ 0 then
                { second_unpacked with
                  data := memory_set second_unpacked.data 0 second_unpacked.data_size }
                else second_unpacked) = returned := by
              rw [if_pos h_zero]
              exact h_eq2
            rw [h_chunk]
            show chunk_data_by_offset.mk 1 (libewf_chunk_table.mk _ _) _ _ = _
            rw [h_same _ _ _ _ (le_refl _) (le_refl _)]
          have h_second_call : libewf_chunk_table_get_chunk_data_by_offset
              (spec_externals is_corrupted is_delta unpack)
              { chunk_table with
                checksum_errors :=
                  range_list_merge chunk_table.checksum_errors
                    (checksum_error_start_sector media_values (to_int64 (offset - eo)))
                    (checksum_error_number_of_sectors media_values
                      (to_int64 (offset - eo))) }
              chunk_index io_handle media_values second_segment_table second_range_list
              offset second_chunk_data second_chunk_data_offset =
            ⟨1,
              { chunk_table with
                checksum_errors :=
                  range_list_merge chunk_table.checksum_errors
                    (checksum_error_start_sector media_values (to_int64 (offset - eo)))
                    (checksum_error_number_of_sectors media_values
                      (to_int64 (offset - eo))) },
              some returned, eo⟩ := by
            rcases h_second with h_again | ⟨eo2, v2, h_first_lookup, h_cached, h_noop⟩
            · exact h_finish v unpacked (by rw [h_again, h_l]) h_u h_c h_eq
            · rw [h_l] at h_first_lookup
              injection h_first_lookup with h_eo _
              subst h_eo
              refine h_finish returned returned h_cached h_noop h_corrupted ?_
              rw [← h_eq]
              show { unpacked with
                data := memory_set (memory_set unpacked.data 0 unpacked.data_size) 0
                  unpacked.data_size } = _
              rw [memory_set_idempotent]
          exact ⟨by rw [h_second_call], by rw [h_second_call], by rw [h_second_call],
            h_zeroes⟩
      · rw [get_chunk_data_unpack_failed (spec_externals is_corrupted is_delta unpack)
          chunk_table chunk_index io_handle media_values segment_table
          delta_chunks_range_list offset chunk_data chunk_data_offset eo v unpacked result h_l
          h_u h_r] at h_result
        exact absurd h_result (by simp)
  | no_element =>
    have h_first := get_chunk_data_missing_spec is_corrupted is_delta unpack chunk_table
      chunk_index io_handle media_values segment_table delta_chunks_range_list offset
      chunk_data chunk_data_offset h_flag h_l
    have h_l2 : get_chunk_data_by_offset_lookup second_segment_table second_range_list
        offset = .no_element := by
      rcases h_second with h_again | ⟨eo2, v2, h_first_lookup, _, _⟩
      · rw [h_again, h_l]
      · rw [h_l] at h_first_lookup
        exact absurd h_first_lookup (by simp)
    rw [h_first] at h_returned
    have h_eq := Option.some.inj h_returned
    rw [h_first]
    rw [get_chunk_data_missing_spec is_corrupted is_delta unpack _ chunk_index io_handle
      media_values second_segment_table second_range_list offset second_chunk_data
      second_chunk_data_offset h_flag h_l2]
    refine ⟨rfl, ?_, h_returned, ?_⟩
    · show libewf_chunk_table.mk _ _ = libewf_chunk_table.mk _ _
      rw [h_same _ _ _ _ (le_refl _) (le_refl _)]
    · intro byte h_byte
      rw [← h_eq] at h_byte
      exact (List.mem_replicate.mp (List.mem_of_mem_take h_byte)).2

/-- C9, on the corrupted chunk of the example: the second read finds, in the
chunks list, the zeroed chunk that the first read handed back. -/
theorem C9_second_read_of_corrupted_chunk_witness :
    ((1 : Nat) ≠ 0 ∧
      (libewf_chunk_table_get_chunk_data_by_offset example_externals example_chunk_table 1
        ⟨0, 1⟩ example_media_values (example_segment_table 32768 (example_chunk 0x400)) none
        32868 none 0).result = 1 ∧
      (libewf_chunk_table_get_chunk_data_by_offset example_externals example_chunk_table 1
        ⟨0, 1⟩ example_media_values (example_segment_table 32768 (example_chunk 0x400)) none
        32868 none 0).chunk_data = some example_zeroed_chunk ∧
      example_zeroed_chunk.range_flags &&& 0x400 ≠ 0 ∧
      get_chunk_data_by_offset_lookup (example_segment_table 32768 (example_chunk 0x400)) none
        32868 = .found 100 (some (example_chunk 0x400)) ∧
      get_chunk_data_by_offset_lookup (example_segment_table 32768 example_zeroed_chunk) none
        32868 = .found 100 (some example_zeroed_chunk) ∧
      example_unpack example_zeroed_chunk 32768 0 = (1, example_zeroed_chunk)) ∧
    (libewf_chunk_table_get_chunk_data_by_offset example_externals
      (libewf_chunk_table_get_chunk_data_by_offset example_externals example_chunk_table 1
        ⟨0, 1⟩ example_media_values (example_segment_table 32768 (example_chunk 0x400)) none
        32868 none 0).chunk_table
      1 ⟨0, 1⟩ example_media_values (example_segment_table 32768 example_zeroed_chunk) none
      32868 none 0).result = 1 ∧
    (libewf_chunk_table_get_chunk_data_by_offset example_externals
      (libewf_chunk_table_get_chunk_data_by_offset example_externals example_chunk_table 1
        ⟨0, 1⟩ example_media_values (example_segment_table 32768 (example_chunk 0x400)) none
        32868 none 0).chunk_table
      1 ⟨0, 1⟩ example_media_values (example_segment_table 32768 example_zeroed_chunk) none
      32868 none 0).chunk_table =
      (libewf_chunk_table_get_chunk_data_by_offset example_externals example_chunk_table 1
        ⟨0, 1⟩ example_media_values (example_segment_table 32768 (example_chunk 0x400)) none
        32868 none 0).chunk_table ∧
    (libewf_chunk_table_get_chunk_data_by_offset example_externals
      (libewf_chunk_table_get_chunk_data_by_offset example_externals example_chunk_table 1
        ⟨0, 1⟩ example_media_values (example_segment_table 32768 (example_chunk 0x400)) none
        32868 none 0).chunk_table
      1 ⟨0, 1⟩ example_media_values (example_segment_table 32768 example_zeroed_chunk) none
      32868 none 0).chunk_data = some example_zeroed_chunk ∧
    (∀ byte ∈ example_zeroed_chunk.data.take example_zeroed_chunk.data_size, byte = 0) :=
  have h_first := get_chunk_data_located_corrupted_spec 0x400 0x800 example_unpack
    example_chunk_table 1 ⟨0, 1⟩ example_media_values
    (example_segment_table 32768 (example_chunk 0x400)) none 32868 none 0 100
    (example_chunk 0x400) (example_chunk 0x400) (by with_unfolding_all rfl) (by rfl)
    (by decide)
  have h_result : (libewf_chunk_table_get_chunk_data_by_offset example_externals
      example_chunk_table 1 ⟨0, 1⟩ example_media_values
      (example_segment_table 32768 (example_chunk 0x400)) none 32868 none 0).result = 1 := by
    rw [example_externals, h_first]
  have h_returned : (libewf_chunk_table_get_chunk_data_by_offset example_externals
      example_chunk_table 1 ⟨0, 1⟩ example_media_values
      (example_segment_table 32768 (example_chunk 0x400)) none 32868 none 0).chunk_data =
      some example_zeroed_chunk := by
    rw [example_externals, h_first]
    rfl
  have h_lookup : get_chunk_data_by_offset_lookup
      (example_segment_table 32768 (example_chunk 0x400)) none 32868 =
      .found 100 (some (example_chunk 0x400)) := by with_unfolding_all rfl
  have h_cached : get_chunk_data_by_offset_lookup
      (example_segment_table 32768 example_zeroed_chunk) none 32868 =
      .found 100 (some example_zeroed_chunk) := by with_unfolding_all rfl
  ⟨⟨by decide, h_result, h_returned, by decide, h_lookup, h_cached, rfl⟩,
    C9_second_read_of_corrupted_chunk 0x400 0x800 example_unpack example_chunk_table 1 ⟨0, 1⟩
      example_media_values (example_segment_table 32768 (example_chunk 0x400))
      (example_segment_table 32768 example_zeroed_chunk) none none 32868 none none 0 0
      example_zeroed_chunk (by decide) h_result h_returned (by decide)
      (Or.inr ⟨100, example_chunk 0x400, h_lookup, h_cached, rfl⟩)⟩

/-! ## Reading the checksum errors back -/

theorem to_int32_of_bounds (x : Int) (h_low : -(2 ^ 31) ≤ x) (h_high : x < 2 ^ 31) :
    to_int32 x = x := by
  unfold to_int32
  omega

theorem get_number_of_checksum_errors_eq (chunk_table : libewf_chunk_table) :
    libewf_chunk_table_get_number_of_checksum_errors chunk_table =
      (1, chunk_table.checksum_errors.length) := by
  unfold libewf_chunk_table_get_number_of_checksum_errors
    libcdata_range_list_get_number_of_elements
  simp

theorem get_range_by_index_eq (range_list : libcdata_range_list) (element_index : Nat)
    (h_index : element_index < range_list.length) :
    libcdata_range_list_get_range_by_index range_list (element_index : Int) =
      (1, (range_list.get ⟨element_index, h_index⟩).start,
        (range_list.get ⟨element_index, h_index⟩).size) := by
  unfold libcdata_range_list_get_range_by_index
  have h_sign : ¬ ((element_index : Int) < 0) := by omega
  rw [if_neg h_sign, Int.toNat_ofNat, List.get?_eq_get h_index]

theorem get_checksum_error_eq (chunk_table : libewf_chunk_table) (error_index : Nat)
    (h_index : error_index < chunk_table.checksum_errors.length)
    (h_int : error_index < 2 ^ 31) :
    libewf_chunk_table_get_checksum_error chunk_table error_index =
      (1, (chunk_table.checksum_errors.get ⟨error_index, h_index⟩).start,
        (chunk_table.checksum_errors.get ⟨error_index, h_index⟩).size) := by
  have h_cast : to_int32 (error_index : Int) = (error_index : Int) :=
    to_int32_of_bounds (error_index : Int) (by omega) (by omega)
  unfold libewf_chunk_table_get_checksum_error
  rw [h_cast, get_range_by_index_eq chunk_table.checksum_errors error_index h_index]
  rfl

theorem reported_iff_covers (chunk_table : libewf_chunk_table)
    (h_length : chunk_table.checksum_errors.length < 2 ^ 31) (sector : Nat) :
    reported chunk_table sector ↔ covers chunk_table.checksum_errors sector := by
  unfold reported covers
  rw [get_number_of_checksum_errors_eq]
  constructor
  · rintro ⟨error_index, start_sector, number_of_sectors, h_index, h_get, h_low, h_high⟩
    have h_index : error_index < chunk_table.checksum_errors.length := h_index
    rw [get_checksum_error_eq chunk_table error_index h_index (by omega)] at h_get
    injection h_get with _ h_range
    injection h_range with h_start h_size
    refine ⟨chunk_table.checksum_errors.get ⟨error_index, h_index⟩, List.get_mem _ _ _, ?_, ?_⟩
    · rw [h_start]
      exact h_low
    · rw [h_start, h_size]
      exact h_high
  · rintro ⟨range, h_mem, h_low, h_high⟩
    obtain ⟨⟨error_index, h_index⟩, h_get⟩ := List.get_of_mem h_mem
    refine ⟨error_index, range.start, range.size, h_index, ?_, h_low, h_high⟩
    rw [get_checksum_error_eq chunk_table error_index h_index (by omega), h_get]

/-- C10: starting from a new chunk table, after any sequence (of fewer than
2^31 calls) of `libewf_chunk_table_append_checksum_error` and
`libewf_chunk_table_get_chunk_data_by_offset`, with the merging range list of
the specification: the number of checksum errors is retrieved; every index
below it yields a range; a range at a lower index ends strictly before a range
at a higher index starts (the ranges are pairwise disjoint, not adjacent, in
strictly ascending order of start sector); and a sector lies in a reported
range exactly when it lies in one of the ranges that the calls passed to the
range list. -/
theorem C10_checksum_errors_are_merged (is_corrupted is_delta : Nat)
    (unpack : libewf_chunk_data → Nat → Nat → Int × libewf_chunk_data)
    (io_handle : libewf_io_handle) (calls : List chunk_table_call)
    (h_calls : calls.length < 2 ^ 31) :
    (libewf_chunk_table_get_number_of_checksum_errors
      (run_calls (spec_externals is_corrupted is_delta unpack)
        ( libewf_chunk_table_initialize io_handle).2 calls)).1 = 1 ∧
    (∀ lower upper : Nat, lower < upper →
      upper < (libewf_chunk_table_get_number_of_checksum_errors
        (run_calls (spec_externals is_corrupted is_delta unpack)
          ( libewf_chunk_table_initialize io_handle).2 calls)).2 →
      ∃ lower_start lower_size upper_start upper_size,
        libewf_chunk_table_get_checksum_error
          (run_calls (spec_externals is_corrupted is_delta unpack)
            ( libewf_chunk_table_initialize io_handle).2 calls) lower =
          (1, lower_start, lower_size) ∧
        libewf_chunk_table_get_checksum_error
          (run_calls (spec_externals is_corrupted is_delta unpack)
            ( libewf_chunk_table_initialize io_handle).2 calls) upper =
          (1, upper_start, upper_size) ∧
        lower_start + lower_size < upper_start ∧ lower_start < upper_start) ∧
    (∀ sector : Nat,
      reported
        (run_calls (spec_externals is_corrupted is_delta unpack)
          ( libewf_chunk_table_initialize io_handle).2 calls) sector ↔
      covers
        (run_calls (recording_externals (spec_externals is_corrupted is_delta unpack))
          ( libewf_chunk_table_initialize io_handle).2 calls).checksum_errors sector) := by
  obtain ⟨ranges, h_ranges_length, h_effect⟩ :=
    run_calls_effect is_corrupted is_delta unpack calls
  have h_spec := (h_effect ( libewf_chunk_table_initialize io_handle).2).1
  have h_record := (h_effect ( libewf_chunk_table_initialize io_handle).2).2
  have h_empty : ( libewf_chunk_table_initialize io_handle).2.checksum_errors = [] := rfl
  rw [h_empty] at h_spec h_record
  rw [List.nil_append] at h_record
  have h_separated : separated
      (run_calls (spec_externals is_corrupted is_delta unpack)
        ( libewf_chunk_table_initialize io_handle).2 calls).checksum_errors := by
    rw [h_spec]
    exact foldl_merge_separated ranges [] List.Pairwise.nil
  have h_length : (run_calls (spec_externals is_corrupted is_delta unpack)
      ( libewf_chunk_table_initialize io_handle).2 calls).checksum_errors.length < 2 ^ 31 := by
    rw [h_spec]
    have := foldl_merge_length ranges []
    simp only [List.length_nil] at this
    omega
  refine ⟨by rw [get_number_of_checksum_errors_eq], ?_, ?_⟩
  · intro lower upper h_order h_upper
    rw [get_number_of_checksum_errors_eq] at h_upper
    have h_upper : upper < (run_calls (spec_externals is_corrupted is_delta unpack)
        ( libewf_chunk_table_initialize io_handle).2 calls).checksum_errors.length := h_upper
    have h_lower : lower < (run_calls (spec_externals is_corrupted is_delta unpack)
        ( libewf_chunk_table_initialize io_handle).2 calls).checksum_errors.length := by omega
    have h_rel := (List.pairwise_iff_get.mp h_separated) ⟨lower, h_lower⟩ ⟨upper, h_upper⟩
      h_order
    refine ⟨_, _, _, _, get_checksum_error_eq _ lower h_lower (by omega),
      get_checksum_error_eq _ upper h_upper (by omega), h_rel, ?_⟩
    omega
  · intro sector
    rw [reported_iff_covers _ h_length, h_spec, h_record, foldl_merge_covers]
    have := covers_nil sector
    tauto

/-- C10, on the example sequence of calls, which leaves the two checksum errors
(0, 15) and (64, 64). -/
theorem C10_checksum_errors_are_merged_witness :
    (example_calls.length < 2 ^ 31 ∧
      (run_calls example_externals example_chunk_table example_calls).checksum_errors =
        [⟨0, 15⟩, ⟨64, 64⟩] ∧
      (run_calls (recording_externals example_externals) example_chunk_table
        example_calls).checksum_errors =
        [⟨10, 5⟩, ⟨0, 3⟩, ⟨64, 64⟩, ⟨3, 7⟩, ⟨64, 64⟩]) ∧
    (libewf_chunk_table_get_number_of_checksum_errors
      (run_calls example_externals example_chunk_table example_calls)).1 = 1 ∧
    (∀ lower upper : Nat, lower < upper →
      upper < (libewf_chunk_table_get_number_of_checksum_errors
        (run_calls example_externals example_chunk_table example_calls)).2 →
      ∃ lower_start lower_size upper_start upper_size,
        libewf_chunk_table_get_checksum_error
          (run_calls example_externals example_chunk_table example_calls) lower =
          (1, lower_start, lower_size) ∧
        libewf_chunk_table_get_checksum_error
          (run_calls example_externals example_chunk_table example_calls) upper =
          (1, upper_start, upper_size) ∧
        lower_start + lower_size < upper_start ∧ lower_start < upper_start) ∧
    (∀ sector : Nat,
      reported (run_calls example_externals example_chunk_table example_calls) sector ↔
      covers
        (run_calls (recording_externals example_externals) example_chunk_table
          example_calls).checksum_errors sector) :=
  ⟨⟨by decide, by with_unfolding_all rfl, by with_unfolding_all rfl⟩,
    C10_checksum_errors_are_merged 0x400 0x800 example_unpack ⟨0, 1⟩ example_calls
      (by decide)⟩

/-! ## The checksum errors change only for a corrupted chunk -/

/-- A successful call hands back the same chunk whatever the range list
insertion is, and the chunk table afterwards is the table before when the chunk
is not flagged as corrupted, and the table with the sector range of the chunk
inserted when it is. -/
theorem get_chunk_data_insertion (ext : externals) (chunk_table : libewf_chunk_table)
    (chunk_index : Nat) (io_handle : libewf_io_handle) (media_values : libewf_media_values)
    (segment_table : libewf_segment_table)
    (delta_chunks_range_list : Option libfdata_range_list) (offset : Int)
    (chunk_data : Option libewf_chunk_data) (chunk_data_offset : Int)
    (returned : libewf_chunk_data)
    (h_result : (libewf_chunk_table_get_chunk_data_by_offset ext chunk_table chunk_index
      io_handle media_values segment_table delta_chunks_range_list offset chunk_data
      chunk_data_offset).result = 1)
    (h_returned : (libewf_chunk_table_get_chunk_data_by_offset ext chunk_table chunk_index
      io_handle media_values segment_table delta_chunks_range_list offset chunk_data
      chunk_data_offset).chunk_data = some returned)
    (insert_range : libcdata_range_list → Nat → Nat → Int × libcdata_range_list) :
    (libewf_chunk_table_get_chunk_data_by_offset
        { ext with libcdata_range_list_insert_range := insert_range } chunk_table chunk_index
        io_handle media_values segment_table delta_chunks_range_list offset chunk_data
        chunk_data_offset).chunk_data = some returned ∧
    (libewf_chunk_table_get_chunk_data_by_offset
        { ext with libcdata_range_list_insert_range := insert_range } chunk_table chunk_index
        io_handle media_values segment_table delta_chunks_range_list offset chunk_data
        chunk_data_offset).chunk_table =
      if returned.range_flags &&& ext.LIBEWF_RANGE_FLAG_IS_CORRUPTED ≠ 0 then
        { chunk_table with
          checksum_errors :=
            (insert_range chunk_table.checksum_errors
              (checksum_error_start_sector media_values
                (corrupted_chunk_offset
                  (get_chunk_data_by_offset_lookup segment_table delta_chunks_range_list offset)
                  chunk_index media_values offset))
              (checksum_error_number_of_sectors media_values
                (corrupted_chunk_offset
                  (get_chunk_data_by_offset_lookup segment_table delta_chunks_range_list offset)
                  chunk_index media_values offset))).2 }
      else chunk_table := by
  cases h_l : get_chunk_data_by_offset_lookup segment_table delta_chunks_range_list offset with
  | error =>
    rw [get_chunk_data_lookup_error ext chunk_table chunk_index io_handle media_values
      segment_table delta_chunks_range_list offset chunk_data chunk_data_offset h_l] at h_result
    exact absurd h_result (by simp)
  | found eo value =>
    cases value with
    | none =>
      rw [get_chunk_data_located_null ext chunk_table chunk_index io_handle media_values
        segment_table delta_chunks_range_list offset chunk_data chunk_data_offset eo h_l]
        at h_result
      exact absurd h_result (by simp)
    | some v =>
      rcases h_u : ext.libewf_chunk_data_unpack v media_values.chunk_size
        io_handle.compression_method with ⟨result, unpacked⟩
      by_cases h_r : result = 1
      · subst h_r
        by_cases h_c : unpacked.range_flags &&& ext.LIBEWF_RANGE_FLAG_IS_CORRUPTED = 0
        · rw [get_chunk_data_located_intact ext chunk_table chunk_index io_handle media_values
            segment_table delta_chunks_range_list offset chunk_data chunk_data_offset eo v
            unpacked h_l h_u h_c] at h_returned
          have h_eq : unpacked = returned := Option.some.inj h_returned
          subst h_eq
          rw [get_chunk_data_located_intact
            { ext with libcdata_range_list_insert_range := insert_range } chunk_table
            chunk_index io_handle media_values segment_table delta_chunks_range_list offset
            chunk_data chunk_data_offset eo v unpacked h_l h_u h_c]
          refine ⟨rfl, ?_⟩
          rw [if_neg (not_not.mpr h_c)]
        · rw [get_chunk_data_located_corrupted ext chunk_table chunk_index io_handle
            media_values segment_table delta_chunks_range_list offset chunk_data
            chunk_data_offset eo v unpacked h_l h_u h_c] at h_returned
          have h_eq := Option.some.inj h_returned
          have h_flags : returned.range_flags = unpacked.range_flags := by
            rw [← h_eq]
            exact zeroed_range_flags io_handle unpacked
          rw [get_chunk_data_located_corrupted
            { ext with libcdata_range_list_insert_range := insert_range } chunk_table
            chunk_index io_handle media_values segment_table delta_chunks_range_list offset
            chunk_data chunk_data_offset eo v unpacked h_l h_u h_c]
          refine ⟨h_returned, ?_⟩
          rw [h_flags, if_pos h_c]
          rfl
      · rw [get_chunk_data_unpack_failed ext chunk_table chunk_index io_handle media_values
          segment_table delta_chunks_range_list offset chunk_data chunk_data_offset eo v
          unpacked result h_l h_u h_r] at h_result
        exact absurd h_result (by simp)
  | no_element =>
    rcases h_n : ext.libewf_chunk_data_initialize_clear_data chunk_data
      (missing_chunk_data_size chunk_index media_values) with ⟨result, created⟩
    by_cases h_r : result = 1
    · subst h_r
      cases created with
      | none =>
        rw [get_chunk_data_create_failed ext chunk_table chunk_index io_handle media_values
          segment_table delta_chunks_range_list offset chunk_data chunk_data_offset 1 none h_l
          h_n (Or.inr rfl)] at h_result
        exact absurd h_result (by simp)
      | some new_chunk =>
        rw [get_chunk_data_created ext chunk_table chunk_index io_handle media_values
          segment_table delta_chunks_range_list offset chunk_data chunk_data_offset new_chunk
          h_l h_n,
          (add_checksum_error_cases ext chunk_table media_values _ chunk_data_offset
            (missing_chunk_offset chunk_index media_values)).1] at h_returned
        have h_eq := Option.some.inj h_returned
        have h_flags : returned.range_flags =
            new_chunk.range_flags ||| ext.LIBEWF_RANGE_FLAG_IS_CORRUPTED := by
          rw [← h_eq]
        rw [get_chunk_data_created
          { ext with libcdata_range_list_insert_range := insert_range } chunk_table
          chunk_index io_handle media_values segment_table delta_chunks_range_list offset
          chunk_data chunk_data_offset new_chunk h_l h_n]
        by_cases h_c : (new_chunk.range_flags ||| ext.LIBEWF_RANGE_FLAG_IS_CORRUPTED) &&&
            ext.LIBEWF_RANGE_FLAG_IS_CORRUPTED = 0
        · rw [add_checksum_error_intact
            { ext with libcdata_range_list_insert_range := insert_range } chunk_table
            media_values _ chunk_data_offset (missing_chunk_offset chunk_index media_values)
            h_c]
          refine ⟨h_returned, ?_⟩
          rw [h_flags, if_neg (not_not.mpr h_c)]
        · rw [add_checksum_error_corrupted
            { ext with libcdata_range_list_insert_range := insert_range } chunk_table
            media_values _ chunk_data_offset (missing_chunk_offset chunk_index media_values)
            h_c]
          refine ⟨h_returned, ?_⟩
          rw [h_flags, if_pos h_c]
          rfl
    · rw [get_chunk_data_create_failed ext chunk_table chunk_index io_handle media_values
        segment_table delta_chunks_range_list offset chunk_data chunk_data_offset result
        created h_l h_n (Or.inl h_r)] at h_result
      exact absurd h_result (by simp)

/-- C11, as stated, fails, with the merging range list of the specification:
the checksum errors already hold the sectors 64 to 127 of the second chunk of
the example media; a read of that chunk succeeds and hands back a chunk flagged
as corrupted, and the checksum errors are the same afterwards. -/
theorem C11_corrupted_read_without_change_counterexample :
    (libewf_chunk_table_get_chunk_data_by_offset example_externals ⟨⟨0, 0⟩, [⟨64, 64⟩]⟩ 1
        ⟨0, 0⟩ example_media_values (example_segment_table 32768 (example_chunk 0x400)) none
        32868 none 0).result = 1 ∧
    (libewf_chunk_table_get_chunk_data_by_offset example_externals ⟨⟨0, 0⟩, [⟨64, 64⟩]⟩ 1
        ⟨0, 0⟩ example_media_values (example_segment_table 32768 (example_chunk 0x400)) none
        32868 none 0).chunk_data = some (example_chunk 0x400) ∧
    (example_chunk 0x400).range_flags &&& example_externals.LIBEWF_RANGE_FLAG_IS_CORRUPTED ≠ 0 ∧
    (libewf_chunk_table_get_chunk_data_by_offset example_externals ⟨⟨0, 0⟩, [⟨64, 64⟩]⟩ 1
        ⟨0, 0⟩ example_media_values (example_segment_table 32768 (example_chunk 0x400)) none
        32868 none 0).chunk_table.checksum_errors = [⟨64, 64⟩] ∧
    ¬ ((libewf_chunk_table_get_chunk_data_by_offset example_externals ⟨⟨0, 0⟩, [⟨64, 64⟩]⟩ 1
          ⟨0, 0⟩ example_media_values (example_segment_table 32768 (example_chunk 0x400)) none
          32868 none 0).chunk_table.checksum_errors ≠
          (⟨⟨0, 0⟩, [⟨64, 64⟩]⟩ : libewf_chunk_table).checksum_errors ↔
        (example_chunk 0x400).range_flags &&&
          example_externals.LIBEWF_RANGE_FLAG_IS_CORRUPTED ≠ 0) := by
  have h_errors : (libewf_chunk_table_get_chunk_data_by_offset example_externals
      ⟨⟨0, 0⟩, [⟨64, 64⟩]⟩ 1 ⟨0, 0⟩ example_media_values
      (example_segment_table 32768 (example_chunk 0x400)) none 32868 none
      0).chunk_table.checksum_errors = [⟨64, 64⟩] := by with_unfolding_all rfl
  have h_corrupted : (example_chunk 0x400).range_flags &&&
      example_externals.LIBEWF_RANGE_FLAG_IS_CORRUPTED ≠ 0 := by decide
  refine ⟨by with_unfolding_all rfl, by with_unfolding_all rfl, h_corrupted, h_errors, ?_⟩
  intro h
  exact h.mpr h_corrupted h_errors

/-- C11, amended: a successful call of
`libewf_chunk_table_get_chunk_data_by_offset` changes the checksum errors only
if the chunk it hands back is flagged as corrupted.  When the chunk is not
flagged, the chunk table is the same afterwards: the same number of checksum
errors and the same range at every index.  When it is flagged, the checksum
errors are what `libcdata_range_list_insert_range` made of them when it was
passed the sector range of the chunk, which for a list that already holds that
range may be the same list. -/
theorem C11_checksum_errors_change_only_if_corrupted (ext : externals)
    (chunk_table : libewf_chunk_table) (chunk_index : Nat) (io_handle : libewf_io_handle)
    (media_values : libewf_media_values) (segment_table : libewf_segment_table)
    (delta_chunks_range_list : Option libfdata_range_list) (offset : Int)
    (chunk_data : Option libewf_chunk_data) (chunk_data_offset : Int)
    (returned : libewf_chunk_data)
    (h_result : (libewf_chunk_table_get_chunk_data_by_offset ext chunk_table chunk_index
      io_handle media_values segment_table delta_chunks_range_list offset chunk_data
      chunk_data_offset).result = 1)
    (h_returned : (libewf_chunk_table_get_chunk_data_by_offset ext chunk_table chunk_index
      io_handle media_values segment_table delta_chunks_range_list offset chunk_data
      chunk_data_offset).chunk_data = some returned) :
    (returned.range_flags &&& ext.LIBEWF_RANGE_FLAG_IS_CORRUPTED = 0 →
      (libewf_chunk_table_get_chunk_data_by_offset ext chunk_table chunk_index io_handle
        media_values segment_table delta_chunks_range_list offset chunk_data
        chunk_data_offset).chunk_table = chunk_table ∧
      libewf_chunk_table_get_number_of_checksum_errors
          (libewf_chunk_table_get_chunk_data_by_offset ext chunk_table chunk_index io_handle
            media_values segment_table delta_chunks_range_list offset chunk_data
            chunk_data_offset).chunk_table =
        libewf_chunk_table_get_number_of_checksum_errors chunk_table ∧
      ∀ error_index : Nat,
        libewf_chunk_table_get_checksum_error
            (libewf_chunk_table_get_chunk_data_by_offset ext chunk_table chunk_index io_handle
              media_values segment_table delta_chunks_range_list offset chunk_data
              chunk_data_offset).chunk_table error_index =
          libewf_chunk_table_get_checksum_error chunk_table error_index) ∧
    (returned.range_flags &&& ext.LIBEWF_RANGE_FLAG_IS_CORRUPTED ≠ 0 →
      (libewf_chunk_table_get_chunk_data_by_offset ext chunk_table chunk_index io_handle
        media_values segment_table delta_chunks_range_list offset chunk_data
        chunk_data_offset).chunk_table.checksum_errors =
      (ext.libcdata_range_list_insert_range chunk_table.checksum_errors
        (checksum_error_start_sector media_values
          (corrupted_chunk_offset
            (get_chunk_data_by_offset_lookup segment_table delta_chunks_range_list offset)
            chunk_index media_values offset))
        (checksum_error_number_of_sectors media_values
          (corrupted_chunk_offset
            (get_chunk_data_by_offset_lookup segment_table delta_chunks_range_list offset)
            chunk_index media_values offset))).2) ∧
    ((libewf_chunk_table_get_chunk_data_by_offset ext chunk_table chunk_index io_handle
        media_values segment_table delta_chunks_range_list offset chunk_data
        chunk_data_offset).chunk_table.checksum_errors ≠ chunk_table.checksum_errors →
      returned.range_flags &&& ext.LIBEWF_RANGE_FLAG_IS_CORRUPTED ≠ 0) := by
  have h_same := (get_chunk_data_insertion ext chunk_table chunk_index io_handle media_values
    segment_table delta_chunks_range_list offset chunk_data chunk_data_offset returned
    h_result h_returned ext.libcdata_range_list_insert_range).2
  have h_intact_table : returned.range_flags &&& ext.LIBEWF_RANGE_FLAG_IS_CORRUPTED = 0 →
      (libewf_chunk_table_get_chunk_data_by_offset ext chunk_table chunk_index
        io_handle media_values segment_table delta_chunks_range_list offset chunk_data
        chunk_data_offset).chunk_table = chunk_table := by
    intro h_intact
    rw [if_neg (not_not.mpr h_intact)] at h_same
    exact h_same
  refine ⟨?_, ?_, ?_⟩
  · intro h_intact
    rw [h_intact_table h_intact]
    exact ⟨rfl, rfl, fun _ => rfl⟩
  · intro h_corrupted
    rw [if_pos h_corrupted] at h_same
    exact congrArg libewf_chunk_table.checksum_errors h_same
  · intro h_changed h_intact
    exact h_changed (congrArg libewf_chunk_table.checksum_errors (h_intact_table h_intact))

/-- C11, amended, on two reads of the second chunk of the example media with
the checksum error (0, 3) in the table: the read of the chunk that is not
flagged leaves the table as it is, the read of the chunk flagged as corrupted
adds the sectors 64 to 127. -/
theorem C11_checksum_errors_change_only_if_corrupted_witness :
    ((libewf_chunk_table_get_chunk_data_by_offset example_externals ⟨⟨0, 1⟩, [⟨0, 3⟩]⟩ 1
        ⟨0, 1⟩ example_media_values (example_segment_table 32768 (example_chunk 0)) none
        32868 none 0).result = 1 ∧
      (libewf_chunk_table_get_chunk_data_by_offset example_externals ⟨⟨0, 1⟩, [⟨0, 3⟩]⟩ 1
        ⟨0, 1⟩ example_media_values (example_segment_table 32768 (example_chunk 0)) none
        32868 none 0).chunk_data = some (example_chunk 0) ∧
      (example_chunk 0).range_flags &&& example_externals.LIBEWF_RANGE_FLAG_IS_CORRUPTED = 0 ∧
      (libewf_chunk_table_get_chunk_data_by_offset example_externals ⟨⟨0, 1⟩, [⟨0, 3⟩]⟩ 1
        ⟨0, 1⟩ example_media_values (example_segment_table 32768 (example_chunk 0)) none
        32868 none 0).chunk_table = ⟨⟨0, 1⟩, [⟨0, 3⟩]⟩) ∧
    ((libewf_chunk_table_get_chunk_data_by_offset example_externals ⟨⟨0, 1⟩, [⟨0, 3⟩]⟩ 1
        ⟨0, 0⟩ example_media_values (example_segment_table 32768 (example_chunk 0x400)) none
        32868 none 0).result = 1 ∧
      (libewf_chunk_table_get_chunk_data_by_offset example_externals ⟨⟨0, 1⟩, [⟨0, 3⟩]⟩ 1
        ⟨0, 0⟩ example_media_values (example_segment_table 32768 (example_chunk 0x400)) none
        32868 none 0).chunk_data = some (example_chunk 0x400) ∧
      (example_chunk 0x400).range_flags &&&
        example_externals.LIBEWF_RANGE_FLAG_IS_CORRUPTED ≠ 0 ∧
      (libewf_chunk_table_get_chunk_data_by_offset example_externals ⟨⟨0, 1⟩, [⟨0, 3⟩]⟩ 1
        ⟨0, 0⟩ example_media_values (example_segment_table 32768 (example_chunk 0x400)) none
        32868 none 0).chunk_table.checksum_errors = [⟨0, 3⟩, ⟨64, 64⟩]) :=
  have h_result : (libewf_chunk_table_get_chunk_data_by_offset example_externals
      ⟨⟨0, 1⟩, [⟨0, 3⟩]⟩ 1 ⟨0, 1⟩ example_media_values
      (example_segment_table 32768 (example_chunk 0)) none 32868 none 0).result = 1 := by
    with_unfolding_all rfl
  have h_returned : (libewf_chunk_table_get_chunk_data_by_offset example_externals
      ⟨⟨0, 1⟩, [⟨0, 3⟩]⟩ 1 ⟨0, 1⟩ example_media_values
      (example_segment_table 32768 (example_chunk 0)) none 32868 none 0).chunk_data =
      some (example_chunk 0) := by
    with_unfolding_all rfl
  have h_intact : (example_chunk 0).range_flags &&&
      example_externals.LIBEWF_RANGE_FLAG_IS_CORRUPTED = 0 := by decide
  have h_result2 : (libewf_chunk_table_get_chunk_data_by_offset example_externals
      ⟨⟨0, 1⟩, [⟨0, 3⟩]⟩ 1 ⟨0, 0⟩ example_media_values
      (example_segment_table 32768 (example_chunk 0x400)) none 32868 none 0).result = 1 := by
    with_unfolding_all rfl
  have h_returned2 : (libewf_chunk_table_get_chunk_data_by_offset example_externals
      ⟨⟨0, 1⟩, [⟨0, 3⟩]⟩ 1 ⟨0, 0⟩ example_media_values
      (example_segment_table 32768 (example_chunk 0x400)) none 32868 none 0).chunk_data =
      some (example_chunk 0x400) := by
    with_unfolding_all rfl
  have h_corrupted : (example_chunk 0x400).range_flags &&&
      example_externals.LIBEWF_RANGE_FLAG_IS_CORRUPTED ≠ 0 := by decide
  ⟨⟨h_result, h_returned, h_intact,
      ((C11_checksum_errors_change_only_if_corrupted example_externals ⟨⟨0, 1⟩, [⟨0, 3⟩]⟩ 1
        ⟨0, 1⟩ example_media_values (example_segment_table 32768 (example_chunk 0)) none 32868
        none 0 (example_chunk 0) h_result h_returned).1 h_intact).1⟩,
    h_result2, h_returned2, h_corrupted,
    ((C11_checksum_errors_change_only_if_corrupted example_externals ⟨⟨0, 1⟩, [⟨0, 3⟩]⟩ 1
      ⟨0, 0⟩ example_media_values (example_segment_table 32768 (example_chunk 0x400)) none
      32868 none 0 (example_chunk 0x400) h_result2 h_returned2).2.1 h_corrupted).trans
      (by with_unfolding_all rfl)⟩

/-! ## Shape of the result of `libewf_chunk_table_set_chunk_data_by_offset` on each path -/

theorem set_chunk_data_delta (ext : externals) (fdata : libfdata_externals)
    (chunk_table : libewf_chunk_table) (chunk_index : Nat)
    (segment_table : libewf_segment_table)
    (delta_chunks_range_list : Option libfdata_range_list) (offset : Int)
    (chunk_data : libewf_chunk_data)
    (h_delta : chunk_data.range_flags &&& ext.LIBEWF_RANGE_FLAG_IS_DELTA ≠ 0) :
    libewf_chunk_table_set_chunk_data_by_offset ext fdata chunk_table chunk_index
        segment_table delta_chunks_range_list offset chunk_data =
      ⟨if (fdata.libfdata_range_list_set_element_value_at_offset delta_chunks_range_list
            offset chunk_data fdata.LIBFDATA_LIST_ELEMENT_VALUE_FLAG_MANAGED).1 ≠ 1
          then -1 else 1,
        chunk_table,
        (fdata.libfdata_range_list_set_element_value_at_offset delta_chunks_range_list offset
          chunk_data fdata.LIBFDATA_LIST_ELEMENT_VALUE_FLAG_MANAGED).2,
        none⟩ := by
  unfold libewf_chunk_table_set_chunk_data_by_offset
  rw [if_pos h_delta]
  rcases fdata.libfdata_range_list_set_element_value_at_offset delta_chunks_range_list offset
    chunk_data fdata.LIBFDATA_LIST_ELEMENT_VALUE_FLAG_MANAGED with ⟨result, range_list⟩
  by_cases h_r : result = 1
  · simp only [h_r, ne_eq, not_true_eq_false, if_false]
  · simp only [h_r, ne_eq, not_false_eq_true, if_true]

theorem set_chunk_data_primary (ext : externals) (fdata : libfdata_externals)
    (chunk_table : libewf_chunk_table) (chunk_index : Nat)
    (segment_table : libewf_segment_table)
    (delta_chunks_range_list : Option libfdata_range_list) (offset : Int)
    (chunk_data : libewf_chunk_data) (chunks_list : libfdata_list)
    (h_primary : chunk_data.range_flags &&& ext.LIBEWF_RANGE_FLAG_IS_DELTA = 0)
    (h_result : (libewf_chunk_table_get_segment_file_chunk_group_by_offset segment_table
      offset).result = 1)
    (h_list : (libewf_chunk_table_get_segment_file_chunk_group_by_offset segment_table
      offset).chunks_list = some chunks_list) :
    libewf_chunk_table_set_chunk_data_by_offset ext fdata chunk_table chunk_index
        segment_table delta_chunks_range_list offset chunk_data =
      ⟨if (fdata.libfdata_list_set_element_value_at_offset chunks_list
            (libewf_chunk_table_get_segment_file_chunk_group_by_offset segment_table
              offset).chunk_group_data_offset chunk_data
            fdata.LIBFDATA_LIST_ELEMENT_VALUE_FLAG_MANAGED).1 ≠ 1
          then -1 else 1,
        chunk_table, delta_chunks_range_list,
        some (fdata.libfdata_list_set_element_value_at_offset chunks_list
          (libewf_chunk_table_get_segment_file_chunk_group_by_offset segment_table
            offset).chunk_group_data_offset chunk_data
          fdata.LIBFDATA_LIST_ELEMENT_VALUE_FLAG_MANAGED).2⟩ := by
  unfold libewf_chunk_table_set_chunk_data_by_offset
  rw [if_neg (not_not.mpr h_primary)]
  rcases h_set : fdata.libfdata_list_set_element_value_at_offset chunks_list
    (libewf_chunk_table_get_segment_file_chunk_group_by_offset segment_table
      offset).chunk_group_data_offset chunk_data
    fdata.LIBFDATA_LIST_ELEMENT_VALUE_FLAG_MANAGED with ⟨result, written⟩
  simp only [h_result, h_list, h_set, ne_eq, not_true_eq_false, if_false]
  split <;> rfl

theorem set_chunk_data_unresolved (ext : externals) (fdata : libfdata_externals)
    (chunk_table : libewf_chunk_table) (chunk_index : Nat)
    (segment_table : libewf_segment_table)
    (delta_chunks_range_list : Option libfdata_range_list) (offset : Int)
    (chunk_data : libewf_chunk_data)
    (h_primary : chunk_data.range_flags &&& ext.LIBEWF_RANGE_FLAG_IS_DELTA = 0)
    (h_unresolved :
      (libewf_chunk_table_get_segment_file_chunk_group_by_offset segment_table
        offset).result ≠ 1 ∨
      (libewf_chunk_table_get_segment_file_chunk_group_by_offset segment_table
        offset).chunks_list = none) :
    libewf_chunk_table_set_chunk_data_by_offset ext fdata chunk_table chunk_index
        segment_table delta_chunks_range_list offset chunk_data =
      ⟨-1, chunk_table, delta_chunks_range_list, none⟩ := by
  unfold libewf_chunk_table_set_chunk_data_by_offset
  rw [if_neg (not_not.mpr h_primary)]
  by_cases h_r : (libewf_chunk_table_get_segment_file_chunk_group_by_offset segment_table
      offset).result = 1
  · rcases h_unresolved with h | h
    · exact absurd h_r h
    · simp only [h_r, h, ne_eq, not_true_eq_false, if_false]
  · simp only [h_r, ne_eq, not_false_eq_true, if_true]

/-! ## Claims about `libewf_chunk_table_set_chunk_data_by_offset` -/

/-- C12: `libewf_chunk_table_set_chunk_data_by_offset` routes by the flag
`LIBEWF_RANGE_FLAG_IS_DELTA` of the chunk.  With the flag set, the chunk is
set in the delta chunks range list at the offset with the flag
`LIBFDATA_LIST_ELEMENT_VALUE_FLAG_MANAGED`, no chunks list is written, and the
outcome is the same for every segment table.  With the flag clear and a chunks
list resolved for the offset, the chunk is set in that chunks list at the
chunk group data offset with the same element value flag, and the delta chunks
range list is left as it is.  In both cases the call returns 1 exactly when
the libfdata function returned 1, and the chunk table is left as it is. -/
theorem C12_set_chunk_data_routes_by_delta_flag (ext : externals) (fdata : libfdata_externals)
    (chunk_table : libewf_chunk_table) (chunk_index : Nat)
    (segment_table : libewf_segment_table)
    (delta_chunks_range_list : Option libfdata_range_list) (offset : Int)
    (chunk_data : libewf_chunk_data) :
    (chunk_data.range_flags &&& ext.LIBEWF_RANGE_FLAG_IS_DELTA ≠ 0 →
      (libewf_chunk_table_set_chunk_data_by_offset ext fdata chunk_table chunk_index
          segment_table delta_chunks_range_list offset chunk_data).delta_chunks_range_list =
        (fdata.libfdata_range_list_set_element_value_at_offset delta_chunks_range_list offset
          chunk_data fdata.LIBFDATA_LIST_ELEMENT_VALUE_FLAG_MANAGED).2 ∧
      (libewf_chunk_table_set_chunk_data_by_offset ext fdata chunk_table chunk_index
          segment_table delta_chunks_range_list offset chunk_data).chunks_list = none ∧
      (libewf_chunk_table_set_chunk_data_by_offset ext fdata chunk_table chunk_index
          segment_table delta_chunks_range_list offset chunk_data).chunk_table =
        chunk_table ∧
      ((libewf_chunk_table_set_chunk_data_by_offset ext fdata chunk_table chunk_index
          segment_table delta_chunks_range_list offset chunk_data).result = 1 ↔
        (fdata.libfdata_range_list_set_element_value_at_offset delta_chunks_range_list offset
          chunk_data fdata.LIBFDATA_LIST_ELEMENT_VALUE_FLAG_MANAGED).1 = 1) ∧
      ∀ other_segment_table : libewf_segment_table,
        libewf_chunk_table_set_chunk_data_by_offset ext fdata chunk_table chunk_index
            other_segment_table delta_chunks_range_list offset chunk_data =
          libewf_chunk_table_set_chunk_data_by_offset ext fdata chunk_table chunk_index
            segment_table delta_chunks_range_list offset chunk_data) ∧
    (chunk_data.range_flags &&& ext.LIBEWF_RANGE_FLAG_IS_DELTA = 0 →
      ∀ chunks_list : libfdata_list,
        (libewf_chunk_table_get_segment_file_chunk_group_by_offset segment_table
          offset).result = 1 →
        (libewf_chunk_table_get_segment_file_chunk_group_by_offset segment_table
          offset).chunks_list = some chunks_list →
        (libewf_chunk_table_set_chunk_data_by_offset ext fdata chunk_table chunk_index
            segment_table delta_chunks_range_list offset chunk_data).chunks_list =
          some (fdata.libfdata_list_set_element_value_at_offset chunks_list
            (libewf_chunk_table_get_segment_file_chunk_group_by_offset segment_table
              offset).chunk_group_data_offset chunk_data
            fdata.LIBFDATA_LIST_ELEMENT_VALUE_FLAG_MANAGED).2 ∧
        (libewf_chunk_table_set_chunk_data_by_offset ext fdata chunk_table chunk_index
            segment_table delta_chunks_range_list offset chunk_data).delta_chunks_range_list =
          delta_chunks_range_list ∧
        (libewf_chunk_table_set_chunk_data_by_offset ext fdata chunk_table chunk_index
            segment_table delta_chunks_range_list offset chunk_data).chunk_table =
          chunk_table ∧
        ((libewf_chunk_table_set_chunk_data_by_offset ext fdata chunk_table chunk_index
            segment_table delta_chunks_range_list offset chunk_data).result = 1 ↔
          (fdata.libfdata_list_set_element_value_at_offset chunks_list
            (libewf_chunk_table_get_segment_file_chunk_group_by_offset segment_table
              offset).chunk_group_data_offset chunk_data
            fdata.LIBFDATA_LIST_ELEMENT_VALUE_FLAG_MANAGED).1 = 1)) := by
  refine ⟨fun h_delta => ?_, fun h_primary chunks_list h_result h_list => ?_⟩
  · have h_other : ∀ other_segment_table : libewf_segment_table,
        libewf_chunk_table_set_chunk_data_by_offset ext fdata chunk_table chunk_index
            other_segment_table delta_chunks_range_list offset chunk_data =
          libewf_chunk_table_set_chunk_data_by_offset ext fdata chunk_table chunk_index
            segment_table delta_chunks_range_list offset chunk_data := by
      intro other_segment_table
      rw [set_chunk_data_delta ext fdata chunk_table chunk_index other_segment_table
          delta_chunks_range_list offset chunk_data h_delta,
        set_chunk_data_delta ext fdata chunk_table chunk_index segment_table
          delta_chunks_range_list offset chunk_data h_delta]
    rw [set_chunk_data_delta ext fdata chunk_table chunk_index segment_table
      delta_chunks_range_list offset chunk_data h_delta] at h_other ⊢
    refine ⟨rfl, rfl, rfl, ?_, h_other⟩
    by_cases h_r : (fdata.libfdata_range_list_set_element_value_at_offset
        delta_chunks_range_list offset chunk_data
        fdata.LIBFDATA_LIST_ELEMENT_VALUE_FLAG_MANAGED).1 = 1
    · simp [h_r]
    · simp [h_r]
  · rw [set_chunk_data_primary ext fdata chunk_table chunk_index segment_table
      delta_chunks_range_list offset chunk_data chunks_list h_primary h_result h_list]
    refine ⟨rfl, rfl, rfl, ?_⟩
    by_cases h_r : (fdata.libfdata_list_set_element_value_at_offset chunks_list
        (libewf_chunk_table_get_segment_file_chunk_group_by_offset segment_table
          offset).chunk_group_data_offset chunk_data
        fdata.LIBFDATA_LIST_ELEMENT_VALUE_FLAG_MANAGED).1 = 1
    · simp [h_r]
    · simp [h_r]

/-- C12, on the example media: a chunk flagged as delta, set at offset 65536,
is found afterwards in the delta chunks range list and no chunks list is
written, whatever the segment table is; a chunk without the flag, set at offset
32768, is found afterwards in the chunks list of the chunk group and the delta
chunks range list still finds nothing there. -/
theorem C12_set_chunk_data_routes_by_delta_flag_witness :
    ((example_chunk 0x800).range_flags &&& example_externals.LIBEWF_RANGE_FLAG_IS_DELTA ≠ 0 ∧
      (libewf_chunk_table_set_chunk_data_by_offset example_externals example_libfdata
        example_chunk_table 2 empty_segment_table
        (some (example_delta_list 0 (example_chunk 0))) 65536
        (example_chunk 0x800)).result = 1 ∧
      (libewf_chunk_table_set_chunk_data_by_offset example_externals example_libfdata
        example_chunk_table 2 empty_segment_table
        (some (example_delta_list 0 (example_chunk 0))) 65536
        (example_chunk 0x800)).chunks_list = none ∧
      ((libewf_chunk_table_set_chunk_data_by_offset example_externals example_libfdata
        example_chunk_table 2 empty_segment_table
        (some (example_delta_list 0 (example_chunk 0))) 65536
        (example_chunk 0x800)).delta_chunks_range_list.map
          (fun range_list => range_list.get_element_value_at_offset 65536)) =
        some (.found 0 (some (example_chunk 0x800)))) ∧
    ((example_chunk 0).range_flags &&& example_externals.LIBEWF_RANGE_FLAG_IS_DELTA = 0 ∧
      (libewf_chunk_table_get_segment_file_chunk_group_by_offset
        (example_segment_table 0 (example_chunk 0x400)) 32768).result = 1 ∧
      (libewf_chunk_table_set_chunk_data_by_offset example_externals example_libfdata
        example_chunk_table 1 (example_segment_table 0 (example_chunk 0x400)) none 32768
        (example_chunk 0)).result = 1 ∧
      ((libewf_chunk_table_set_chunk_data_by_offset example_externals example_libfdata
        example_chunk_table 1 (example_segment_table 0 (example_chunk 0x400)) none 32768
        (example_chunk 0)).chunks_list.map
          (fun chunks_list => chunks_list.get_element_value_at_offset 32768)) =
        some (.found 0 (some (example_chunk 0))) ∧
      (libewf_chunk_table_set_chunk_data_by_offset example_externals example_libfdata
        example_chunk_table 1 (example_segment_table 0 (example_chunk 0x400)) none 32768
        (example_chunk 0)).delta_chunks_range_list.isNone = true) :=
  have h_delta : (example_chunk 0x800).range_flags &&&
      example_externals.LIBEWF_RANGE_FLAG_IS_DELTA ≠ 0 := by decide
  have h_primary : (example_chunk 0).range_flags &&&
      example_externals.LIBEWF_RANGE_FLAG_IS_DELTA = 0 := by decide
  have h_result : (libewf_chunk_table_get_segment_file_chunk_group_by_offset
      (example_segment_table 0 (example_chunk 0x400)) 32768).result = 1 := by
    with_unfolding_all rfl
  have h_set := (C12_set_chunk_data_routes_by_delta_flag example_externals example_libfdata
    example_chunk_table 2 empty_segment_table (some (example_delta_list 0 (example_chunk 0)))
    65536 (example_chunk 0x800)).1 h_delta
  have h_put := (C12_set_chunk_data_routes_by_delta_flag example_externals example_libfdata
    example_chunk_table 1 (example_segment_table 0 (example_chunk 0x400)) none 32768
    (example_chunk 0)).2 h_primary _ h_result (by with_unfolding_all rfl)
  ⟨⟨h_delta, h_set.2.2.2.1.mpr (by with_unfolding_all rfl), h_set.2.1,
      (congrArg (Option.map fun range_list : libfdata_range_list =>
        range_list.get_element_value_at_offset 65536) h_set.1).trans
        (by with_unfolding_all rfl)⟩,
    h_primary, h_result, h_put.2.2.2.mpr (by with_unfolding_all rfl),
    (congrArg (Option.map fun chunks_list : libfdata_list =>
      chunks_list.get_element_value_at_offset 32768) h_put.1).trans
      (by with_unfolding_all rfl),
    (congrArg Option.isNone h_put.2.1).trans rfl⟩

/-- C18: for a chunk without the flag `LIBEWF_RANGE_FLAG_IS_DELTA`,
`libewf_chunk_table_set_chunk_data_by_offset` returns -1 whenever
`libewf_chunk_table_get_segment_file_chunk_group_by_offset` does not return 1
for the offset or leaves the chunks list NULL; no chunks list is written, and
the delta chunks range list and the chunk table, with its checksum errors, are
left as they are. -/
theorem C18_set_chunk_data_fails_when_unresolved (ext : externals)
    (fdata : libfdata_externals) (chunk_table : libewf_chunk_table) (chunk_index : Nat)
    (segment_table : libewf_segment_table)
    (delta_chunks_range_list : Option libfdata_range_list) (offset : Int)
    (chunk_data : libewf_chunk_data)
    (h_primary : chunk_data.range_flags &&& ext.LIBEWF_RANGE_FLAG_IS_DELTA = 0)
    (h_unresolved :
      (libewf_chunk_table_get_segment_file_chunk_group_by_offset segment_table
        offset).result ≠ 1 ∨
      (libewf_chunk_table_get_segment_file_chunk_group_by_offset segment_table
        offset).chunks_list = none) :
    (libewf_chunk_table_set_chunk_data_by_offset ext fdata chunk_table chunk_index
        segment_table delta_chunks_range_list offset chunk_data).result = -1 ∧
    (libewf_chunk_table_set_chunk_data_by_offset ext fdata chunk_table chunk_index
        segment_table delta_chunks_range_list offset chunk_data).chunks_list = none ∧
    (libewf_chunk_table_set_chunk_data_by_offset ext fdata chunk_table chunk_index
        segment_table delta_chunks_range_list offset chunk_data).delta_chunks_range_list =
      delta_chunks_range_list ∧
    (libewf_chunk_table_set_chunk_data_by_offset ext fdata chunk_table chunk_index
        segment_table delta_chunks_range_list offset chunk_data).chunk_table = chunk_table ∧
    (libewf_chunk_table_set_chunk_data_by_offset ext fdata chunk_table chunk_index
        segment_table delta_chunks_range_list offset chunk_data).chunk_table.checksum_errors =
      chunk_table.checksum_errors := by
  rw [set_chunk_data_unresolved ext fdata chunk_table chunk_index segment_table
    delta_chunks_range_list offset chunk_data h_primary h_unresolved]
  exact ⟨rfl, rfl, rfl, rfl, rfl⟩

/-- C18, on a chunk without the delta flag and a table with the checksum error
(0, 3): at offset 100000 of the example media no segment file is found, and in
a segment file whose chunk group has no chunks list none is resolved; both
calls return -1. -/
theorem C18_set_chunk_data_fails_when_unresolved_witness :
    ((example_chunk 0).range_flags &&& example_externals.LIBEWF_RANGE_FLAG_IS_DELTA = 0 ∧
      (libewf_chunk_table_get_segment_file_chunk_group_by_offset
        (example_segment_table 0 (example_chunk 0x400)) 100000).result = 0 ∧
      (libewf_chunk_table_set_chunk_data_by_offset example_externals example_libfdata
        ⟨⟨0, 1⟩, [⟨0, 3⟩]⟩ 3 (example_segment_table 0 (example_chunk 0x400)) none 100000
        (example_chunk 0)).result = -1 ∧
      (libewf_chunk_table_set_chunk_data_by_offset example_externals example_libfdata
        ⟨⟨0, 1⟩, [⟨0, 3⟩]⟩ 3 (example_segment_table 0 (example_chunk 0x400)) none 100000
        (example_chunk 0)).chunk_table.checksum_errors = [⟨0, 3⟩]) ∧
    ((libewf_chunk_table_get_segment_file_chunk_group_by_offset
        null_chunks_list_segment_table 0).result = -1 ∧
      (libewf_chunk_table_set_chunk_data_by_offset example_externals example_libfdata
        ⟨⟨0, 1⟩, [⟨0, 3⟩]⟩ 0 null_chunks_list_segment_table none 0
        (example_chunk 0)).result = -1 ∧
      (libewf_chunk_table_set_chunk_data_by_offset example_externals example_libfdata
        ⟨⟨0, 1⟩, [⟨0, 3⟩]⟩ 0 null_chunks_list_segment_table none 0
        (example_chunk 0)).chunks_list.isNone = true) :=
  have h_primary : (example_chunk 0).range_flags &&&
      example_externals.LIBEWF_RANGE_FLAG_IS_DELTA = 0 := by decide
  have h_outside : (libewf_chunk_table_get_segment_file_chunk_group_by_offset
      (example_segment_table 0 (example_chunk 0x400)) 100000).result = 0 := by
    with_unfolding_all rfl
  have h_null : (libewf_chunk_table_get_segment_file_chunk_group_by_offset
      null_chunks_list_segment_table 0).result = -1 := by
    with_unfolding_all rfl
  have h_first := C18_set_chunk_data_fails_when_unresolved example_externals example_libfdata
    ⟨⟨0, 1⟩, [⟨0, 3⟩]⟩ 3 (example_segment_table 0 (example_chunk 0x400)) none 100000
    (example_chunk 0) h_primary (Or.inl (by rw [h_outside]; decide))
  have h_second := C18_set_chunk_data_fails_when_unresolved example_externals
    example_libfdata ⟨⟨0, 1⟩, [⟨0, 3⟩]⟩ 0 null_chunks_list_segment_table none 0
    (example_chunk 0) h_primary (Or.inl (by rw [h_null]; decide))
  ⟨⟨h_primary, h_outside, h_first.1, h_first.2.2.2.2⟩,
    h_null, h_second.1, (congrArg Option.isNone h_second.2.1).trans rfl⟩

/-! ## The segment file chunk group and the existence of a chunk -/

theorem chunk_group_without_segment_file (segment_table : libewf_segment_table) (offset : Int)
    (h : segment_table.get_segment_file_at_offset offset = .no_segment_file) :
    libewf_chunk_table_get_segment_file_chunk_group_by_offset segment_table offset =
      ⟨0, 0, 0, none, 0, 0, none⟩ := by
  unfold libewf_chunk_table_get_segment_file_chunk_group_by_offset
  simp only [h]

theorem chunk_group_segment_table_error (segment_table : libewf_segment_table) (offset : Int)
    (h : segment_table.get_segment_file_at_offset offset = .error) :
    libewf_chunk_table_get_segment_file_chunk_group_by_offset segment_table offset =
      ⟨-1, 0, 0, none, 0, 0, none⟩ := by
  unfold libewf_chunk_table_get_segment_file_chunk_group_by_offset
  simp only [h]

theorem chunk_group_segment_file_error (segment_table : libewf_segment_table) (offset : Int)
    (segment_number : Nat) (segment_file_data_offset : Int)
    (segment_file : libewf_segment_file)
    (h_file : segment_table.get_segment_file_at_offset offset =
      .found segment_number segment_file_data_offset segment_file)
    (h_group : segment_file.get_chunk_group_by_offset segment_file_data_offset = .error) :
    libewf_chunk_table_get_segment_file_chunk_group_by_offset segment_table offset =
      ⟨-1, segment_number, segment_file_data_offset, some segment_file, 0, 0, none⟩ := by
  unfold libewf_chunk_table_get_segment_file_chunk_group_by_offset
  simp only [h_file, h_group]

theorem chunk_group_without_chunk_group (segment_table : libewf_segment_table) (offset : Int)
    (segment_number : Nat) (segment_file_data_offset : Int)
    (segment_file : libewf_segment_file)
    (h_file : segment_table.get_segment_file_at_offset offset =
      .found segment_number segment_file_data_offset segment_file)
    (h_group : segment_file.get_chunk_group_by_offset segment_file_data_offset =
      .no_chunk_group) :
    libewf_chunk_table_get_segment_file_chunk_group_by_offset segment_table offset =
      ⟨0, segment_number, segment_file_data_offset, some segment_file, 0, 0, none⟩ := by
  unfold libewf_chunk_table_get_segment_file_chunk_group_by_offset
  simp only [h_file, h_group]

theorem chunk_group_without_chunks_list (segment_table : libewf_segment_table) (offset : Int)
    (segment_number : Nat) (segment_file_data_offset : Int)
    (segment_file : libewf_segment_file) (chunk_groups_list_index : Int)
    (chunk_group_data_offset : Int)
    (h_file : segment_table.get_segment_file_at_offset offset =
      .found segment_number segment_file_data_offset segment_file)
    (h_group : segment_file.get_chunk_group_by_offset segment_file_data_offset =
      .found chunk_groups_list_index chunk_group_data_offset none) :
    libewf_chunk_table_get_segment_file_chunk_group_by_offset segment_table offset =
      ⟨-1, segment_number, segment_file_data_offset, some segment_file,
        chunk_groups_list_index, chunk_group_data_offset, none⟩ := by
  unfold libewf_chunk_table_get_segment_file_chunk_group_by_offset
  simp only [h_file, h_group]

theorem chunk_group_with_chunks_list (segment_table : libewf_segment_table) (offset : Int)
    (segment_number : Nat) (segment_file_data_offset : Int)
    (segment_file : libewf_segment_file) (chunk_groups_list_index : Int)
    (chunk_group_data_offset : Int) (chunks_list : libfdata_list)
    (h_file : segment_table.get_segment_file_at_offset offset =
      .found segment_number segment_file_data_offset segment_file)
    (h_group : segment_file.get_chunk_group_by_offset segment_file_data_offset =
      .found chunk_groups_list_index chunk_group_data_offset (some chunks_list)) :
    libewf_chunk_table_get_segment_file_chunk_group_by_offset segment_table offset =
      ⟨1, segment_number, segment_file_data_offset, some segment_file,
        chunk_groups_list_index, chunk_group_data_offset, some chunks_list⟩ := by
  unfold libewf_chunk_table_get_segment_file_chunk_group_by_offset
  simp only [h_file, h_group]

/-- C14: `libewf_chunk_table_get_segment_file_chunk_group_by_offset` returns 0
when the segment table finds no segment file for the offset, and then no
output of the chunk group lookup is written (the segment file, the chunk
groups list index, the chunk group data offset and the chunks list are as they
were initialised); it returns -1 when the segment table lookup fails and when
the chunk group lookup of the segment file found fails; a chunk group found
with a NULL chunks list gives -1; and whenever it returns 1 the chunks list is
not NULL: it is the chunks list of the chunk group found. -/
theorem C14_segment_file_chunk_group_results (segment_table : libewf_segment_table)
    (offset : Int) :
    (segment_table.get_segment_file_at_offset offset = .no_segment_file →
      libewf_chunk_table_get_segment_file_chunk_group_by_offset segment_table offset =
        ⟨0, 0, 0, none, 0, 0, none⟩) ∧
    (segment_table.get_segment_file_at_offset offset = .error →
      (libewf_chunk_table_get_segment_file_chunk_group_by_offset segment_table
        offset).result = -1) ∧
    (∀ segment_number segment_file_data_offset segment_file,
      segment_table.get_segment_file_at_offset offset =
        .found segment_number segment_file_data_offset segment_file →
      segment_file.get_chunk_group_by_offset segment_file_data_offset = .error →
      (libewf_chunk_table_get_segment_file_chunk_group_by_offset segment_table
        offset).result = -1) ∧
    (∀ segment_number segment_file_data_offset segment_file chunk_groups_list_index
        chunk_group_data_offset,
      segment_table.get_segment_file_at_offset offset =
        .found segment_number segment_file_data_offset segment_file →
      segment_file.get_chunk_group_by_offset segment_file_data_offset =
        .found chunk_groups_list_index chunk_group_data_offset none →
      (libewf_chunk_table_get_segment_file_chunk_group_by_offset segment_table
        offset).result = -1) ∧
    ((libewf_chunk_table_get_segment_file_chunk_group_by_offset segment_table
        offset).result = 1 →
      ∃ segment_number segment_file_data_offset segment_file chunk_groups_list_index
          chunk_group_data_offset chunks_list,
        segment_table.get_segment_file_at_offset offset =
          .found segment_number segment_file_data_offset segment_file ∧
        segment_file.get_chunk_group_by_offset segment_file_data_offset =
          .found chunk_groups_list_index chunk_group_data_offset (some chunks_list) ∧
        (libewf_chunk_table_get_segment_file_chunk_group_by_offset segment_table
          offset).chunks_list = some chunks_list) := by
  refine ⟨fun h => chunk_group_without_segment_file segment_table offset h, fun h => ?_,
    fun segment_number segment_file_data_offset segment_file h_file h_group => ?_,
    fun segment_number segment_file_data_offset segment_file chunk_groups_list_index
      chunk_group_data_offset h_file h_group => ?_,
    fun h_result => ?_⟩
  · rw [chunk_group_segment_table_error segment_table offset h]
  · rw [chunk_group_segment_file_error segment_table offset segment_number
      segment_file_data_offset segment_file h_file h_group]
  · rw [chunk_group_without_chunks_list segment_table offset segment_number
      segment_file_data_offset segment_file chunk_groups_list_index chunk_group_data_offset
      h_file h_group]
  · cases h_file : segment_table.get_segment_file_at_offset offset with
    | error =>
      rw [chunk_group_segment_table_error segment_table offset h_file] at h_result
      exact absurd h_result (by simp)
    | no_segment_file =>
      rw [chunk_group_without_segment_file segment_table offset h_file] at h_result
      exact absurd h_result (by simp)
    | found segment_number segment_file_data_offset segment_file =>
      cases h_group : segment_file.get_chunk_group_by_offset segment_file_data_offset with
      | error =>
        rw [chunk_group_segment_file_error segment_table offset segment_number
          segment_file_data_offset segment_file h_file h_group] at h_result
        exact absurd h_result (by simp)
      | no_chunk_group =>
        rw [chunk_group_without_chunk_group segment_table offset segment_number
          segment_file_data_offset segment_file h_file h_group] at h_result
        exact absurd h_result (by simp)
      | found chunk_groups_list_index chunk_group_data_offset chunks_list =>
        cases chunks_list with
        | none =>
          rw [chunk_group_without_chunks_list segment_table offset segment_number
            segment_file_data_offset segment_file chunk_groups_list_index
            chunk_group_data_offset h_file h_group] at h_result
          exact absurd h_result (by simp)
        | some list =>
          refine ⟨segment_number, segment_file_data_offset, segment_file,
            chunk_groups_list_index, chunk_group_data_offset, list, rfl, h_group, ?_⟩
          rw [chunk_group_with_chunks_list segment_table offset segment_number
            segment_file_data_offset segment_file chunk_groups_list_index
            chunk_group_data_offset list h_file h_group]

/-- C14, on the example media: no segment file is found at offset 100000 and
the result is 0 with no output written; a failing segment table lookup, a
failing chunk group lookup and a chunk group without chunks list give -1; at
offset 32768 the result is 1 and the chunks list is the one of the chunk group
found. -/
theorem C14_segment_file_chunk_group_results_witness :
    ((example_segment_table 0 (example_chunk 0)).get_segment_file_at_offset 100000 =
        .no_segment_file ∧
      libewf_chunk_table_get_segment_file_chunk_group_by_offset
        (example_segment_table 0 (example_chunk 0)) 100000 = ⟨0, 0, 0, none, 0, 0, none⟩) ∧
    (failing_segment_table.get_segment_file_at_offset 0 = .error ∧
      (libewf_chunk_table_get_segment_file_chunk_group_by_offset failing_segment_table
        0).result = -1) ∧
    ((example_chunk_group_segment_table .error).get_segment_file_at_offset 7 =
        .found 1 7 { get_chunk_group_by_offset := fun _ => .error } ∧
      (libewf_chunk_table_get_segment_file_chunk_group_by_offset
        (example_chunk_group_segment_table .error) 7).result = -1) ∧
    ((libewf_chunk_table_get_segment_file_chunk_group_by_offset
        null_chunks_list_segment_table 7).result = -1) ∧
    ((libewf_chunk_table_get_segment_file_chunk_group_by_offset
        (example_segment_table 0 (example_chunk 0)) 32768).result = 1 ∧
      ∃ segment_number segment_file_data_offset segment_file chunk_groups_list_index
          chunk_group_data_offset chunks_list,
        (example_segment_table 0 (example_chunk 0)).get_segment_file_at_offset 32768 =
          .found segment_number segment_file_data_offset segment_file ∧
        segment_file.get_chunk_group_by_offset segment_file_data_offset =
          .found chunk_groups_list_index chunk_group_data_offset (some chunks_list) ∧
        (libewf_chunk_table_get_segment_file_chunk_group_by_offset
          (example_segment_table 0 (example_chunk 0)) 32768).chunks_list =
          some chunks_list) :=
  have h_outside : (example_segment_table 0 (example_chunk 0)).get_segment_file_at_offset
      100000 = .no_segment_file := by with_unfolding_all rfl
  have h_failing : failing_segment_table.get_segment_file_at_offset 0 = .error := rfl
  have h_file : (example_chunk_group_segment_table .error).get_segment_file_at_offset 7 =
      .found 1 7 { get_chunk_group_by_offset := fun _ => .error } := rfl
  have h_inside : (libewf_chunk_table_get_segment_file_chunk_group_by_offset
      (example_segment_table 0 (example_chunk 0)) 32768).result = 1 := by
    with_unfolding_all rfl
  ⟨⟨h_outside,
      (C14_segment_file_chunk_group_results (example_segment_table 0 (example_chunk 0))
        100000).1 h_outside⟩,
    ⟨h_failing, (C14_segment_file_chunk_group_results failing_segment_table 0).2.1 h_failing⟩,
    ⟨h_file,
      (C14_segment_file_chunk_group_results (example_chunk_group_segment_table .error)
        7).2.2.1 1 7 _ h_file rfl⟩,
    (C14_segment_file_chunk_group_results null_chunks_list_segment_table 7).2.2.2.1 1 7
      { get_chunk_group_by_offset := fun segment_file_data_offset =>
          .found 0 segment_file_data_offset none } 0 7 rfl rfl,
    h_inside,
    (C14_segment_file_chunk_group_results (example_segment_table 0 (example_chunk 0))
      32768).2.2.2.2 h_inside⟩

theorem chunk_exists_of_group_error (chunk_table : libewf_chunk_table) (chunk_index : Nat)
    (segment_table : libewf_segment_table) (offset : Int)
    (h : (libewf_chunk_table_get_segment_file_chunk_group_by_offset segment_table
      offset).result = -1) :
    libewf_chunk_table_chunk_exists_for_offset chunk_table chunk_index segment_table offset =
      (-1, chunk_table) := by
  unfold libewf_chunk_table_chunk_exists_for_offset
  simp only [h, if_true]

theorem chunk_exists_of_no_group (chunk_table : libewf_chunk_table) (chunk_index : Nat)
    (segment_table : libewf_segment_table) (offset : Int)
    (h : (libewf_chunk_table_get_segment_file_chunk_group_by_offset segment_table
      offset).result = 0) :
    libewf_chunk_table_chunk_exists_for_offset chunk_table chunk_index segment_table offset =
      (0, chunk_table) := by
  unfold libewf_chunk_table_chunk_exists_for_offset
  simp [h]

theorem chunk_exists_of_group (chunk_table : libewf_chunk_table) (chunk_index : Nat)
    (segment_table : libewf_segment_table) (offset : Int) (chunks_list : libfdata_list)
    (h_result : (libewf_chunk_table_get_segment_file_chunk_group_by_offset segment_table
      offset).result = 1)
    (h_list : (libewf_chunk_table_get_segment_file_chunk_group_by_offset segment_table
      offset).chunks_list = some chunks_list) :
    libewf_chunk_table_chunk_exists_for_offset chunk_table chunk_index segment_table offset =
      match chunks_list.get_list_element_at_offset
        (libewf_chunk_table_get_segment_file_chunk_group_by_offset segment_table
          offset).chunk_group_data_offset with
      | .error => (-1, chunk_table)
      | .no_element => (0, chunk_table)
      | .found _ _ => (1, chunk_table) := by
  unfold libewf_chunk_table_chunk_exists_for_offset
  simp [h_result, h_list]

/-- C15: `libewf_chunk_table_chunk_exists_for_offset` reports a chunk that is
not found as 0, not as an error.  It returns 0 when the segment table finds no
segment file, when the segment file finds no chunk group, and when the chunks
list finds no element at the offset; it returns 1 exactly when the three
lookups find a segment file, a chunk group with its chunks list, and a list
element; it returns -1 exactly when one of the two lookups it calls fails: the
lookup of the segment file chunk group returns -1, or the lookup of the list
element does.  The chunk table, with its checksum errors, is left as it is. -/
theorem C15_chunk_exists_for_offset_results (chunk_table : libewf_chunk_table)
    (chunk_index : Nat) (segment_table : libewf_segment_table) (offset : Int) :
    (libewf_chunk_table_chunk_exists_for_offset chunk_table chunk_index segment_table
        offset).2 = chunk_table ∧
    (segment_table.get_segment_file_at_offset offset = .no_segment_file →
      (libewf_chunk_table_chunk_exists_for_offset chunk_table chunk_index segment_table
        offset).1 = 0) ∧
    (∀ segment_number segment_file_data_offset segment_file,
      segment_table.get_segment_file_at_offset offset =
        .found segment_number segment_file_data_offset segment_file →
      segment_file.get_chunk_group_by_offset segment_file_data_offset = .no_chunk_group →
      (libewf_chunk_table_chunk_exists_for_offset chunk_table chunk_index segment_table
        offset).1 = 0) ∧
    (∀ segment_number segment_file_data_offset segment_file chunk_groups_list_index
        chunk_group_data_offset chunks_list,
      segment_table.get_segment_file_at_offset offset =
        .found segment_number segment_file_data_offset segment_file →
      segment_file.get_chunk_group_by_offset segment_file_data_offset =
        .found chunk_groups_list_index chunk_group_data_offset (some chunks_list) →
      chunks_list.get_list_element_at_offset chunk_group_data_offset = .no_element →
      (libewf_chunk_table_chunk_exists_for_offset chunk_table chunk_index segment_table
        offset).1 = 0) ∧
    ((libewf_chunk_table_chunk_exists_for_offset chunk_table chunk_index segment_table
        offset).1 = 1 ↔
      ∃ segment_number segment_file_data_offset segment_file chunk_groups_list_index
          chunk_group_data_offset chunks_list element_index element_data_offset,
        segment_table.get_segment_file_at_offset offset =
          .found segment_number segment_file_data_offset segment_file ∧
        segment_file.get_chunk_group_by_offset segment_file_data_offset =
          .found chunk_groups_list_index chunk_group_data_offset (some chunks_list) ∧
        chunks_list.get_list_element_at_offset chunk_group_data_offset =
          .found element_index element_data_offset) ∧
    ((libewf_chunk_table_chunk_exists_for_offset chunk_table chunk_index segment_table
        offset).1 = -1 ↔
      (libewf_chunk_table_get_segment_file_chunk_group_by_offset segment_table
        offset).result = -1 ∨
      ∃ chunks_list,
        (libewf_chunk_table_get_segment_file_chunk_group_by_offset segment_table
          offset).result = 1 ∧
        (libewf_chunk_table_get_segment_file_chunk_group_by_offset segment_table
          offset).chunks_list = some chunks_list ∧
        chunks_list.get_list_element_at_offset
          (libewf_chunk_table_get_segment_file_chunk_group_by_offset segment_table
            offset).chunk_group_data_offset = .error) := by
  cases h_file : segment_table.get_segment_file_at_offset offset with
  | error =>
    have h_group := chunk_group_segment_table_error segment_table offset h_file
    rw [chunk_exists_of_group_error chunk_table chunk_index segment_table offset
      (by rw [h_group]), h_group]
    refine ⟨rfl, fun h => ?_, fun _ _ _ h => ?_, fun _ _ _ _ _ _ h => ?_, ⟨fun h => ?_, ?_⟩,
      ⟨fun _ => Or.inl rfl, fun _ => rfl⟩⟩
    · cases h
    · cases h
    · cases h
    · exact absurd h (by simp)
    · rintro ⟨_, _, _, _, _, _, _, _, h, _⟩
      cases h
  | no_segment_file =>
    have h_group := chunk_group_without_segment_file segment_table offset h_file
    rw [chunk_exists_of_no_group chunk_table chunk_index segment_table offset
      (by rw [h_group]), h_group]
    refine ⟨rfl, fun _ => rfl, fun _ _ _ h => ?_, fun _ _ _ _ _ _ h => ?_, ⟨fun h => ?_, ?_⟩,
      ⟨fun h => ?_, ?_⟩⟩
    · cases h
    · cases h
    · exact absurd h (by simp)
    · rintro ⟨_, _, _, _, _, _, _, _, h, _⟩
      cases h
    · exact absurd h (by simp)
    · rintro (h | ⟨_, h, _⟩)
      · exact absurd h (by simp)
      · exact absurd h (by simp)
  | found segment_number segment_file_data_offset segment_file =>
    cases h_lookup : segment_file.get_chunk_group_by_offset segment_file_data_offset with
    | error =>
      have h_group := chunk_group_segment_file_error segment_table offset segment_number
        segment_file_data_offset segment_file h_file h_lookup
      rw [chunk_exists_of_group_error chunk_table chunk_index segment_table offset
        (by rw [h_group]), h_group]
      refine ⟨rfl, fun h => ?_, fun _ _ _ h h_none => ?_, fun _ _ _ _ _ _ h h_found => ?_,
        ⟨fun h => ?_, ?_⟩, ⟨fun _ => Or.inl rfl, fun _ => rfl⟩⟩
      · cases h
      · cases h
        rw [h_lookup] at h_none
        cases h_none
      · cases h
        rw [h_lookup] at h_found
        cases h_found
      · exact absurd h (by simp)
      · rintro ⟨_, _, _, _, _, _, _, _, h, h_found, _⟩
        cases h
        rw [h_lookup] at h_found
        cases h_found
    | no_chunk_group =>
      have h_group := chunk_group_without_chunk_group segment_table offset segment_number
        segment_file_data_offset segment_file h_file h_lookup
      rw [chunk_exists_of_no_group chunk_table chunk_index segment_table offset
        (by rw [h_group]), h_group]
      refine ⟨rfl, fun _ => rfl, fun _ _ _ _ _ => rfl, fun _ _ _ _ _ _ _ _ _ => rfl,
        ⟨fun h => ?_, ?_⟩, ⟨fun h => ?_, ?_⟩⟩
      · exact absurd h (by simp)
      · rintro ⟨_, _, _, _, _, _, _, _, h, h_found, _⟩
        cases h
        rw [h_lookup] at h_found
        cases h_found
      · exact absurd h (by simp)
      · rintro (h | ⟨_, h, _⟩)
        · exact absurd h (by simp)
        · exact absurd h (by simp)
    | found chunk_groups_list_index chunk_group_data_offset chunks_list =>
      cases chunks_list with
      | none =>
        have h_group := chunk_group_without_chunks_list segment_table offset segment_number
          segment_file_data_offset segment_file chunk_groups_list_index
          chunk_group_data_offset h_file h_lookup
        rw [chunk_exists_of_group_error chunk_table chunk_index segment_table offset
          (by rw [h_group]), h_group]
        refine ⟨rfl, fun h => ?_, fun _ _ _ h h_none => ?_, fun _ _ _ _ _ _ h h_found => ?_,
          ⟨fun h => ?_, ?_⟩, ⟨fun _ => Or.inl rfl, fun _ => rfl⟩⟩
        · cases h
        · cases h
          rw [h_lookup] at h_none
          cases h_none
        · cases h
          rw [h_lookup] at h_found
          cases h_found
        · exact absurd h (by simp)
        · rintro ⟨_, _, _, _, _, _, _, _, h, h_found, _⟩
          cases h
          rw [h_lookup] at h_found
          cases h_found
      | some list =>
        have h_group := chunk_group_with_chunks_list segment_table offset segment_number
          segment_file_data_offset segment_file chunk_groups_list_index
          chunk_group_data_offset list h_file h_lookup
        rw [chunk_exists_of_group chunk_table chunk_index segment_table offset list
          (by rw [h_group]) (by rw [h_group]), h_group]
        cases h_element : list.get_list_element_at_offset chunk_group_data_offset with
        | error =>
          refine ⟨rfl, fun h => ?_, fun _ _ _ h h_none => ?_,
            fun _ _ _ _ _ _ h h_found h_missing => ?_, ⟨fun h => ?_, ?_⟩,
            ⟨fun _ => Or.inr ⟨list, rfl, rfl, h_element⟩, fun _ => rfl⟩⟩
          · cases h
          · cases h
            rw [h_lookup] at h_none
            cases h_none
          · cases h
            rw [h_lookup] at h_found
            cases h_found
            rw [h_element] at h_missing
            cases h_missing
          · exact absurd h (by simp)
          · rintro ⟨_, _, _, _, _, _, _, _, h, h_found, h_there⟩
            cases h
            rw [h_lookup] at h_found
            cases h_found
            rw [h_element] at h_there
            cases h_there
        | no_element =>
          refine ⟨rfl, fun h => ?_, fun _ _ _ _ _ => rfl, fun _ _ _ _ _ _ _ _ _ => rfl,
            ⟨fun h => ?_, ?_⟩, ⟨fun h => ?_, ?_⟩⟩
          · cases h
          · exact absurd h (by simp)
          · rintro ⟨_, _, _, _, _, _, _, _, h, h_found, h_there⟩
            cases h
            rw [h_lookup] at h_found
            cases h_found
            rw [h_element] at h_there
            cases h_there
          · exact absurd h (by simp)
          · rintro (h | ⟨other, _, h_other, h_failed⟩)
            · exact absurd h (by simp)
            · cases h_other
              rw [h_element] at h_failed
              cases h_failed
        | found element_index element_data_offset =>
          refine ⟨rfl, fun h => ?_, fun _ _ _ h h_none => ?_,
            fun _ _ _ _ _ _ h h_found h_missing => ?_,
            ⟨fun _ => ⟨segment_number, segment_file_data_offset, segment_file,
              chunk_groups_list_index, chunk_group_data_offset, list, element_index,
              element_data_offset, rfl, h_lookup, h_element⟩, fun _ => rfl⟩,
            ⟨fun h => ?_, ?_⟩⟩
          · cases h
          · cases h
            rw [h_lookup] at h_none
            cases h_none
          · cases h
            rw [h_lookup] at h_found
            cases h_found
            rw [h_element] at h_missing
            cases h_missing
          · exact absurd h (by simp)
          · rintro (h | ⟨other, _, h_other, h_failed⟩)
            · exact absurd h (by simp)
            · cases h_other
              rw [h_element] at h_failed
              cases h_failed

/-- C15, on the example media of 100000 bytes and a table with the checksum
error (0, 3): at offset 100000 no segment file is found and the result is 0,
with the table as it was; at offset 32868 the three lookups find the chunk and
the result is 1. -/
theorem C15_chunk_exists_for_offset_results_witness :
    ((example_segment_table 32768 (example_chunk 0)).get_segment_file_at_offset 100000 =
        .no_segment_file ∧
      (libewf_chunk_table_chunk_exists_for_offset ⟨⟨0, 1⟩, [⟨0, 3⟩]⟩ 3
        (example_segment_table 32768 (example_chunk 0)) 100000).1 = 0 ∧
      (libewf_chunk_table_chunk_exists_for_offset ⟨⟨0, 1⟩, [⟨0, 3⟩]⟩ 3
        (example_segment_table 32768 (example_chunk 0)) 100000).2 = ⟨⟨0, 1⟩, [⟨0, 3⟩]⟩) ∧
    ((libewf_chunk_table_chunk_exists_for_offset ⟨⟨0, 1⟩, [⟨0, 3⟩]⟩ 1
        (example_segment_table 32768 (example_chunk 0)) 32868).1 = 1 ∧
      ∃ segment_number segment_file_data_offset segment_file chunk_groups_list_index
          chunk_group_data_offset chunks_list element_index element_data_offset,
        (example_segment_table 32768 (example_chunk 0)).get_segment_file_at_offset 32868 =
          .found segment_number segment_file_data_offset segment_file ∧
        segment_file.get_chunk_group_by_offset segment_file_data_offset =
          .found chunk_groups_list_index chunk_group_data_offset (some chunks_list) ∧
        chunks_list.get_list_element_at_offset chunk_group_data_offset =
          .found element_index element_data_offset) :=
  have h_outside : (example_segment_table 32768 (example_chunk 0)).get_segment_file_at_offset
      100000 = .no_segment_file := by with_unfolding_all rfl
  have h_exists : (libewf_chunk_table_chunk_exists_for_offset ⟨⟨0, 1⟩, [⟨0, 3⟩]⟩ 1
      (example_segment_table 32768 (example_chunk 0)) 32868).1 = 1 := by
    with_unfolding_all rfl
  ⟨⟨h_outside,
      (C15_chunk_exists_for_offset_results ⟨⟨0, 1⟩, [⟨0, 3⟩]⟩ 3
        (example_segment_table 32768 (example_chunk 0)) 100000).2.1 h_outside,
      (C15_chunk_exists_for_offset_results ⟨⟨0, 1⟩, [⟨0, 3⟩]⟩ 3
        (example_segment_table 32768 (example_chunk 0)) 100000).1⟩,
    h_exists,
    (C15_chunk_exists_for_offset_results ⟨⟨0, 1⟩, [⟨0, 3⟩]⟩ 1
      (example_segment_table 32768 (example_chunk 0)) 32868).2.2.2.2.1.mp h_exists⟩

/-! ## A located chunk and the chunk index -/

/-- The start sector of a chunk that starts at a byte offset below 2^63: the
byte offset divided by the number of bytes per sector. -/
theorem start_sector_of_byte_offset (media_values : libewf_media_values) (byte_offset : Nat)
    (h : byte_offset < 2 ^ 63) :
    checksum_error_start_sector media_values (to_int64 (byte_offset : Int)) =
      byte_offset / media_values.bytes_per_sector := by
  unfold checksum_error_start_sector
  rw [to_int64_of_bounds (byte_offset : Int) (by omega) (by omega), ← Int.ofNat_tdiv]
  apply to_uint64_natCast
  have h_le : byte_offset / media_values.bytes_per_sector ≤ byte_offset :=
    Nat.div_le_self _ _
  omega

theorem get_chunk_data_located_offset (ext : externals) (chunk_table : libewf_chunk_table)
    (chunk_index : Nat) (io_handle : libewf_io_handle) (media_values : libewf_media_values)
    (segment_table : libewf_segment_table)
    (delta_chunks_range_list : Option libfdata_range_list) (offset : Int)
    (chunk_data : Option libewf_chunk_data) (chunk_data_offset : Int)
    (element_data_offset : Int) (element_value : Option libewf_chunk_data)
    (h_located : get_chunk_data_by_offset_lookup segment_table delta_chunks_range_list offset =
      .found element_data_offset element_value) :
    (libewf_chunk_table_get_chunk_data_by_offset ext chunk_table chunk_index io_handle
        media_values segment_table delta_chunks_range_list offset chunk_data
        chunk_data_offset).chunk_data_offset = element_data_offset := by
  cases element_value with
  | none =>
    rw [get_chunk_data_located_null ext chunk_table chunk_index io_handle media_values
      segment_table delta_chunks_range_list offset chunk_data chunk_data_offset
      element_data_offset h_located]
  | some v =>
    rcases h_u : ext.libewf_chunk_data_unpack v media_values.chunk_size
      io_handle.compression_method with ⟨result, unpacked⟩
    by_cases h_r : result = 1
    · subst h_r
      by_cases h_c : unpacked.range_flags &&& ext.LIBEWF_RANGE_FLAG_IS_CORRUPTED = 0
      · rw [get_chunk_data_located_intact ext chunk_table chunk_index io_handle media_values
          segment_table delta_chunks_range_list offset chunk_data chunk_data_offset
          element_data_offset v unpacked h_located h_u h_c]
      · rw [get_chunk_data_located_corrupted ext chunk_table chunk_index io_handle
          media_values segment_table delta_chunks_range_list offset chunk_data
          chunk_data_offset element_data_offset v unpacked h_located h_u h_c]
    · rw [get_chunk_data_unpack_failed ext chunk_table chunk_index io_handle media_values
        segment_table delta_chunks_range_list offset chunk_data chunk_data_offset
        element_data_offset v unpacked result h_located h_u h_r]

theorem get_chunk_data_located_chunk_index (ext : externals) (chunk_table : libewf_chunk_table)
    (chunk_index other_chunk_index : Nat) (io_handle : libewf_io_handle)
    (media_values : libewf_media_values) (segment_table : libewf_segment_table)
    (delta_chunks_range_list : Option libfdata_range_list) (offset : Int)
    (chunk_data : Option libewf_chunk_data) (chunk_data_offset : Int)
    (element_data_offset : Int) (element_value : Option libewf_chunk_data)
    (h_located : get_chunk_data_by_offset_lookup segment_table delta_chunks_range_list offset =
      .found element_data_offset element_value) :
    libewf_chunk_table_get_chunk_data_by_offset ext chunk_table chunk_index io_handle
        media_values segment_table delta_chunks_range_list offset chunk_data
        chunk_data_offset =
      libewf_chunk_table_get_chunk_data_by_offset ext chunk_table other_chunk_index io_handle
        media_values segment_table delta_chunks_range_list offset chunk_data
        chunk_data_offset := by
  cases element_value with
  | none =>
    rw [get_chunk_data_located_null ext chunk_table chunk_index io_handle media_values
        segment_table delta_chunks_range_list offset chunk_data chunk_data_offset
        element_data_offset h_located,
      get_chunk_data_located_null ext chunk_table other_chunk_index io_handle media_values
        segment_table delta_chunks_range_list offset chunk_data chunk_data_offset
        element_data_offset h_located]
  | some v =>
    rcases h_u : ext.libewf_chunk_data_unpack v media_values.chunk_size
      io_handle.compression_method with ⟨result, unpacked⟩
    by_cases h_r : result = 1
    · subst h_r
      by_cases h_c : unpacked.range_flags &&& ext.LIBEWF_RANGE_FLAG_IS_CORRUPTED = 0
      · rw [get_chunk_data_located_intact ext chunk_table chunk_index io_handle media_values
            segment_table delta_chunks_range_list offset chunk_data chunk_data_offset
            element_data_offset v unpacked h_located h_u h_c,
          get_chunk_data_located_intact ext chunk_table other_chunk_index io_handle
            media_values segment_table delta_chunks_range_list offset chunk_data
            chunk_data_offset element_data_offset v unpacked h_located h_u h_c]
      · rw [get_chunk_data_located_corrupted ext chunk_table chunk_index io_handle
            media_values segment_table delta_chunks_range_list offset chunk_data
            chunk_data_offset element_data_offset v unpacked h_located h_u h_c,
          get_chunk_data_located_corrupted ext chunk_table other_chunk_index io_handle
            media_values segment_table delta_chunks_range_list offset chunk_data
            chunk_data_offset element_data_offset v unpacked h_located h_u h_c]
    · rw [get_chunk_data_unpack_failed ext chunk_table chunk_index io_handle media_values
          segment_table delta_chunks_range_list offset chunk_data chunk_data_offset
          element_data_offset v unpacked result h_located h_u h_r,
        get_chunk_data_unpack_failed ext chunk_table other_chunk_index io_handle media_values
          segment_table delta_chunks_range_list offset chunk_data chunk_data_offset
          element_data_offset v unpacked result h_located h_u h_r]

/-- C17: when the lookup locates a chunk (in the delta chunks range list or in
a chunks list), the outcome of `libewf_chunk_table_get_chunk_data_by_offset`
does not depend on `chunk_index`: two calls that differ in `chunk_index` only
have the same result, leave the same chunk table, chunk data and chunk data
offset, and the chunk data offset is the one the lookup wrote.  When the call
succeeds with a chunk flagged as corrupted, the range inserted into the
checksum errors starts at the sector of `offset - *chunk_data_offset`: for a
difference that is a byte offset below 2^63, that byte offset divided by
`bytes_per_sector`. -/
theorem C17_located_chunk_ignores_chunk_index (ext : externals)
    (chunk_table : libewf_chunk_table) (chunk_index other_chunk_index : Nat)
    (io_handle : libewf_io_handle) (media_values : libewf_media_values)
    (segment_table : libewf_segment_table)
    (delta_chunks_range_list : Option libfdata_range_list) (offset : Int)
    (chunk_data : Option libewf_chunk_data) (chunk_data_offset : Int)
    (element_data_offset : Int) (element_value : Option libewf_chunk_data)
    (h_located : get_chunk_data_by_offset_lookup segment_table delta_chunks_range_list offset =
      .found element_data_offset element_value) :
    libewf_chunk_table_get_chunk_data_by_offset ext chunk_table chunk_index io_handle
        media_values segment_table delta_chunks_range_list offset chunk_data
        chunk_data_offset =
      libewf_chunk_table_get_chunk_data_by_offset ext chunk_table other_chunk_index io_handle
        media_values segment_table delta_chunks_range_list offset chunk_data
        chunk_data_offset ∧
    (libewf_chunk_table_get_chunk_data_by_offset ext chunk_table chunk_index io_handle
        media_values segment_table delta_chunks_range_list offset chunk_data
        chunk_data_offset).chunk_data_offset = element_data_offset ∧
    (∀ returned : libewf_chunk_data,
      (libewf_chunk_table_get_chunk_data_by_offset ext chunk_table chunk_index io_handle
        media_values segment_table delta_chunks_range_list offset chunk_data
        chunk_data_offset).result = 1 →
      (libewf_chunk_table_get_chunk_data_by_offset ext chunk_table chunk_index io_handle
        media_values segment_table delta_chunks_range_list offset chunk_data
        chunk_data_offset).chunk_data = some returned →
      returned.range_flags &&& ext.LIBEWF_RANGE_FLAG_IS_CORRUPTED ≠ 0 →
      (libewf_chunk_table_get_chunk_data_by_offset ext chunk_table chunk_index io_handle
        media_values segment_table delta_chunks_range_list offset chunk_data
        chunk_data_offset).chunk_table.checksum_errors =
        (ext.libcdata_range_list_insert_range chunk_table.checksum_errors
          (checksum_error_start_sector media_values
            (to_int64 (offset -
              (libewf_chunk_table_get_chunk_data_by_offset ext chunk_table chunk_index
                io_handle media_values segment_table delta_chunks_range_list offset
                chunk_data chunk_data_offset).chunk_data_offset)))
          (checksum_error_number_of_sectors media_values
            (to_int64 (offset -
              (libewf_chunk_table_get_chunk_data_by_offset ext chunk_table chunk_index
                io_handle media_values segment_table delta_chunks_range_list offset
                chunk_data chunk_data_offset).chunk_data_offset)))).2) ∧
    (∀ byte_offset : Nat, offset - element_data_offset = (byte_offset : Int) →
      byte_offset < 2 ^ 63 →
      checksum_error_start_sector media_values (to_int64 (offset - element_data_offset)) =
        byte_offset / media_values.bytes_per_sector) := by
  have h_offset := get_chunk_data_located_offset ext chunk_table chunk_index io_handle
    media_values segment_table delta_chunks_range_list offset chunk_data chunk_data_offset
    element_data_offset element_value h_located
  refine ⟨get_chunk_data_located_chunk_index ext chunk_table chunk_index other_chunk_index
    io_handle media_values segment_table delta_chunks_range_list offset chunk_data
    chunk_data_offset element_data_offset element_value h_located, h_offset, ?_, ?_⟩
  · intro returned h_result h_returned h_corrupted
    have h_recorded := recorded_checksum_error ext chunk_table chunk_index io_handle
      media_values segment_table delta_chunks_range_list offset chunk_data chunk_data_offset
      returned h_result h_returned h_corrupted
    rw [h_located] at h_recorded
    rw [h_offset]
    exact h_recorded
  · intro byte_offset h_difference h_bound
    rw [h_difference]
    exact start_sector_of_byte_offset media_values byte_offset h_bound

/-- C17, on the corrupted second chunk of the example media, located at offset
32868 with data offset 100: the reads with `chunk_index` 1 and with
`chunk_index` 5 have the same outcome, and the start sector is
(32868 - 100) / 512 = 64. -/
theorem C17_located_chunk_ignores_chunk_index_witness :
    get_chunk_data_by_offset_lookup (example_segment_table 32768 (example_chunk 0x400)) none
        32868 = .found 100 (some (example_chunk 0x400)) ∧
    libewf_chunk_table_get_chunk_data_by_offset example_externals example_chunk_table 1
        ⟨0, 1⟩ example_media_values (example_segment_table 32768 (example_chunk 0x400)) none
        32868 none 0 =
      libewf_chunk_table_get_chunk_data_by_offset example_externals example_chunk_table 5
        ⟨0, 1⟩ example_media_values (example_segment_table 32768 (example_chunk 0x400)) none
        32868 none 0 ∧
    (libewf_chunk_table_get_chunk_data_by_offset example_externals example_chunk_table 1
        ⟨0, 1⟩ example_media_values (example_segment_table 32768 (example_chunk 0x400)) none
        32868 none 0).chunk_data_offset = 100 ∧
    checksum_error_start_sector example_media_values (to_int64 (32868 - 100)) =
      32768 / example_media_values.bytes_per_sector ∧
    32768 / example_media_values.bytes_per_sector = 64 :=
  have h_located : get_chunk_data_by_offset_lookup
      (example_segment_table 32768 (example_chunk 0x400)) none 32868 =
      .found 100 (some (example_chunk 0x400)) := by with_unfolding_all rfl
  ⟨h_located,
    (C17_located_chunk_ignores_chunk_index example_externals example_chunk_table 1 5 ⟨0, 1⟩
      example_media_values (example_segment_table 32768 (example_chunk 0x400)) none 32868 none
      0 100 (some (example_chunk 0x400)) h_located).1,
    (C17_located_chunk_ignores_chunk_index example_externals example_chunk_table 1 5 ⟨0, 1⟩
      example_media_values (example_segment_table 32768 (example_chunk 0x400)) none 32868 none
      0 100 (some (example_chunk 0x400)) h_located).2.1,
    (C17_located_chunk_ignores_chunk_index example_externals example_chunk_table 1 5 ⟨0, 1⟩
      example_media_values (example_segment_table 32768 (example_chunk 0x400)) none 32868 none
      0 100 (some (example_chunk 0x400)) h_located).2.2.2 32768 (by decide) (by decide),
    by decide⟩

/-! ## Cloning a chunk table -/

theorem clone_of_chunk_table (m : memory) (source : Nat) (io_handle_address : Option Nat)
    (range_list_address : Nat) (ranges : libcdata_range_list)
    (h_free : unallocated_from_next m) (h_available : 2 ≤ m.available)
    (h_table : m.chunk_tables source = some ⟨io_handle_address, some range_list_address⟩)
    (h_list : m.range_lists range_list_address = some ranges) :
    ∃ cloned : memory,
      libewf_chunk_table_clone libcdata_range_list_clone m none (some source) =
        (1, cloned, some m.next_address) ∧
      (∀ a, cloned.chunk_tables a =
        if a = m.next_address then some ⟨io_handle_address, some (m.next_address + 1)⟩
        else m.chunk_tables a) ∧
      (∀ a, cloned.range_lists a =
        if a = m.next_address + 1 then some ranges else m.range_lists a) ∧
      cloned.io_handles = m.io_handles := by
  have h_source : source ≠ m.next_address := by
    intro h
    have h_none := (h_free source (by omega)).1
    rw [h_table] at h_none
    cases h_none
  have h_first : ¬ m.available = 0 := by omega
  have h_second : ¬ m.available - 1 = 0 := by omega
  unfold libewf_chunk_table_clone memory_allocate_structure
  simp only [h_first, if_false, store_chunk_table, h_source, h_table]
  unfold libcdata_range_list_clone
  simp only [h_list, h_second, if_false]
  rw [if_neg (by simp)]
  refine ⟨_, rfl, fun a => ?_, fun a => rfl, rfl⟩
  by_cases h : a = m.next_address
  · simp only [h, if_true]
  · simp only [h, if_false]

/-- A call on the chunk table at an address leaves the chunk table structures
and the IO handles as they are, and every range list other than the one of
that chunk table. -/
theorem run_call_at_frame (ext : externals) (m : memory) (address : Nat)
    (call : chunk_table_call) :
    (run_call_at ext m address call).chunk_tables = m.chunk_tables ∧
    (run_call_at ext m address call).io_handles = m.io_handles ∧
    ∀ a : Nat,
      (∀ io_handle_address range_list_address,
        m.chunk_tables address = some ⟨io_handle_address, some range_list_address⟩ →
        a ≠ range_list_address) →
      (run_call_at ext m address call).range_lists a = m.range_lists a := by
  unfold run_call_at
  cases h_table : m.chunk_tables address with
  | none => exact ⟨rfl, rfl, fun _ _ => rfl⟩
  | some stored =>
    rcases stored with ⟨io_handle_address, checksum_errors⟩
    cases checksum_errors with
    | none => exact ⟨rfl, rfl, fun _ _ => rfl⟩
    | some range_list_address =>
      cases h_at : chunk_table_at m address with
      | none => exact ⟨rfl, rfl, fun _ _ => rfl⟩
      | some chunk_table =>
        refine ⟨rfl, rfl, fun a h => ?_⟩
        have h_ne : a ≠ range_list_address := h io_handle_address range_list_address rfl
        simp only [h_ne, if_false]

theorem run_calls_at_frame (ext : externals) (calls : List chunk_table_call) :
    ∀ (m : memory) (address : Nat),
      (run_calls_at ext m address calls).chunk_tables = m.chunk_tables ∧
      (run_calls_at ext m address calls).io_handles = m.io_handles ∧
      ∀ a : Nat,
        (∀ io_handle_address range_list_address,
          m.chunk_tables address = some ⟨io_handle_address, some range_list_address⟩ →
          a ≠ range_list_address) →
        (run_calls_at ext m address calls).range_lists a = m.range_lists a := by
  induction calls with
  | nil => exact fun m address => ⟨rfl, rfl, fun _ _ => rfl⟩
  | cons call rest ih =>
    intro m address
    obtain ⟨h_tables, h_handles, h_lists⟩ := run_call_at_frame ext m address call
    obtain ⟨h_rest_tables, h_rest_handles, h_rest_lists⟩ :=
      ih (run_call_at ext m address call) address
    refine ⟨?_, ?_, fun a h => ?_⟩
    · show (run_calls_at ext (run_call_at ext m address call) address rest).chunk_tables = _
      rw [h_rest_tables, h_tables]
    · show (run_calls_at ext (run_call_at ext m address call) address rest).io_handles = _
      rw [h_rest_handles, h_handles]
    · show (run_calls_at ext (run_call_at ext m address call) address rest).range_lists a = _
      rw [h_rest_lists a (by rw [h_tables]; exact h), h_lists a h]

/-- The chunk table seen at an address depends on its structure, on the IO
handles and on the range list it points to only. -/
theorem chunk_table_at_congr (m other : memory) (address : Nat)
    (h_tables : other.chunk_tables address = m.chunk_tables address)
    (h_handles : other.io_handles = m.io_handles)
    (h_lists : ∀ io_handle_address range_list_address,
      m.chunk_tables address = some ⟨io_handle_address, some range_list_address⟩ →
      other.range_lists range_list_address = m.range_lists range_list_address) :
    chunk_table_at other address = chunk_table_at m address := by
  unfold chunk_table_at
  rw [h_tables, h_handles]
  cases h_table : m.chunk_tables address with
  | none => rfl
  | some stored =>
    rcases stored with ⟨io_handle_address, checksum_errors⟩
    cases io_handle_address with
    | none => rfl
    | some handle =>
      cases checksum_errors with
      | none => rfl
      | some range_list_address =>
        simp only [h_lists (some handle) range_list_address h_table]

theorem chunk_table_at_eq_some (m : memory) (address : Nat) (chunk_table : libewf_chunk_table) :
    chunk_table_at m address = some chunk_table ↔
      ∃ io_handle_address range_list_address,
        m.chunk_tables address = some ⟨some io_handle_address, some range_list_address⟩ ∧
        m.io_handles io_handle_address = some chunk_table.io_handle ∧
        m.range_lists range_list_address = some chunk_table.checksum_errors := by
  unfold chunk_table_at
  cases h_table : m.chunk_tables address with
  | none => simp
  | some stored =>
    rcases stored with ⟨io_handle_address, checksum_errors⟩
    cases io_handle_address with
    | none => simp
    | some handle =>
      cases checksum_errors with
      | none => simp
      | some range_list_address =>
        cases h_handle : m.io_handles handle with
        | none => simp [h_handle]
        | some io_handle =>
          cases h_list : m.range_lists range_list_address with
          | none => simp [h_handle, h_list]
          | some ranges =>
            rcases chunk_table with ⟨table_handle, table_errors⟩
            simp only [h_handle, h_list]
            constructor
            · intro h_eq
              cases Option.some.inj h_eq
              exact ⟨handle, range_list_address, rfl, h_handle, h_list⟩
            · rintro ⟨other_handle, other_list, h_stored, h_other_handle, h_other_list⟩
              cases h_stored
              rw [h_handle] at h_other_handle
              rw [h_list] at h_other_list
              cases h_other_handle
              cases h_other_list
              rfl

/-- A call changes the checksum errors of the chunk table at most. -/
theorem run_call_io_handle (ext : externals) (chunk_table : libewf_chunk_table)
    (call : chunk_table_call) :
    (run_call ext chunk_table call).io_handle = chunk_table.io_handle := by
  cases call with
  | append_checksum_error start_sector number_of_sectors =>
    show (libewf_chunk_table_append_checksum_error ext chunk_table start_sector
      number_of_sectors).2.io_handle = _
    unfold libewf_chunk_table_append_checksum_error
    rcases ext.libcdata_range_list_insert_range chunk_table.checksum_errors start_sector
      number_of_sectors with ⟨result, checksum_errors⟩
    by_cases h_r : result = 1
    · simp only [h_r, ne_eq, not_true_eq_false, if_false]
    · simp only [h_r, ne_eq, not_false_eq_true, if_true]
  | get_chunk_data_by_offset chunk_index io_handle media_values segment_table
      delta_chunks_range_list offset chunk_data chunk_data_offset =>
    show (libewf_chunk_table_get_chunk_data_by_offset ext chunk_table chunk_index io_handle
      media_values segment_table delta_chunks_range_list offset chunk_data
      chunk_data_offset).chunk_table.io_handle = _
    cases h_l : get_chunk_data_by_offset_lookup segment_table delta_chunks_range_list offset with
    | error =>
      rw [get_chunk_data_lookup_error ext chunk_table chunk_index io_handle media_values
        segment_table delta_chunks_range_list offset chunk_data chunk_data_offset h_l]
    | found eo value =>
      cases value with
      | none =>
        rw [get_chunk_data_located_null ext chunk_table chunk_index io_handle media_values
          segment_table delta_chunks_range_list offset chunk_data chunk_data_offset eo h_l]
      | some v =>
        rcases h_u : ext.libewf_chunk_data_unpack v media_values.chunk_size
          io_handle.compression_method with ⟨result, unpacked⟩
        by_cases h_r : result = 1
        · subst h_r
          by_cases h_c : unpacked.range_flags &&& ext.LIBEWF_RANGE_FLAG_IS_CORRUPTED = 0
          · rw [get_chunk_data_located_intact ext chunk_table chunk_index io_handle
              media_values segment_table delta_chunks_range_list offset chunk_data
              chunk_data_offset eo v unpacked h_l h_u h_c]
          · rw [get_chunk_data_located_corrupted ext chunk_table chunk_index io_handle
              media_values segment_table delta_chunks_range_list offset chunk_data
              chunk_data_offset eo v unpacked h_l h_u h_c]
        · rw [get_chunk_data_unpack_failed ext chunk_table chunk_index io_handle media_values
            segment_table delta_chunks_range_list offset chunk_data chunk_data_offset eo v
            unpacked result h_l h_u h_r]
    | no_element =>
      rcases h_n : ext.libewf_chunk_data_initialize_clear_data chunk_data
        (missing_chunk_data_size chunk_index media_values) with ⟨result, created⟩
      by_cases h_r : result = 1
      · subst h_r
        cases created with
        | none =>
          unfold libewf_chunk_table_get_chunk_data_by_offset
          simp only [h_l, h_n]
          rw [if_neg (by simp)]
        | some new_chunk =>
          rw [get_chunk_data_created ext chunk_table chunk_index io_handle media_values
            segment_table delta_chunks_range_list offset chunk_data chunk_data_offset
            new_chunk h_l h_n]
          by_cases h_c : (new_chunk.range_flags ||| ext.LIBEWF_RANGE_FLAG_IS_CORRUPTED) &&&
              ext.LIBEWF_RANGE_FLAG_IS_CORRUPTED = 0
          · rw [add_checksum_error_intact ext chunk_table media_values _ chunk_data_offset
              (missing_chunk_offset chunk_index media_values) h_c]
          · rw [add_checksum_error_corrupted ext chunk_table media_values _ chunk_data_offset
              (missing_chunk_offset chunk_index media_values) h_c]
      · unfold libewf_chunk_table_get_chunk_data_by_offset
        simp only [h_l, h_n]
        rw [if_pos h_r]

/-- A call on the chunk table at an address leaves there the chunk table that
the call leaves. -/
theorem run_call_at_self (ext : externals) (m : memory) (address : Nat)
    (chunk_table : libewf_chunk_table) (call : chunk_table_call)
    (h : chunk_table_at m address = some chunk_table) :
    chunk_table_at (run_call_at ext m address call) address =
      some (run_call ext chunk_table call) := by
  obtain ⟨io_handle_address, range_list_address, h_table, h_handle, h_list⟩ :=
    (chunk_table_at_eq_some m address chunk_table).mp h
  have h_run : run_call_at ext m address call =
      { m with
        range_lists := fun a =>
          if a = range_list_address then some (run_call ext chunk_table call).checksum_errors
          else m.range_lists a } := by
    unfold run_call_at
    rw [h_table, h]
  rw [h_run]
  refine (chunk_table_at_eq_some _ address _).mpr
    ⟨io_handle_address, range_list_address, h_table, ?_, ?_⟩
  · rw [run_call_io_handle]
    exact h_handle
  · simp only [if_true]

theorem run_calls_at_self (ext : externals) (calls : List chunk_table_call) :
    ∀ (m : memory) (address : Nat) (chunk_table : libewf_chunk_table),
      chunk_table_at m address = some chunk_table →
      chunk_table_at (run_calls_at ext m address calls) address =
        some (run_calls ext chunk_table calls) := by
  induction calls with
  | nil => exact fun m address chunk_table h => h
  | cons call rest ih =>
    intro m address chunk_table h
    exact ih (run_call_at ext m address call) address (run_call ext chunk_table call)
      (run_call_at_self ext m address chunk_table call h)

/-- Calls on the chunk table at one address leave the chunk table seen at
another address as it is, when the two tables point to different range
lists. -/
theorem run_calls_at_other (ext : externals) (m : memory) (address other : Nat)
    (io_handle_address other_io_handle_address : Option Nat)
    (range_list_address other_range_list_address : Nat) (calls : List chunk_table_call)
    (h_table : m.chunk_tables address = some ⟨io_handle_address, some range_list_address⟩)
    (h_other : m.chunk_tables other =
      some ⟨other_io_handle_address, some other_range_list_address⟩)
    (h_distinct : other_range_list_address ≠ range_list_address) :
    chunk_table_at (run_calls_at ext m address calls) other = chunk_table_at m other := by
  obtain ⟨h_tables, h_handles, h_lists⟩ := run_calls_at_frame ext calls m address
  refine chunk_table_at_congr m _ other (congrFun h_tables other) h_handles ?_
  intro handle list h_stored
  rw [h_other] at h_stored
  cases h_stored
  refine h_lists other_range_list_address ?_
  intro handle list h_stored
  rw [h_table] at h_stored
  cases h_stored
  exact h_distinct

/-- C13: `libewf_chunk_table_clone` of a chunk table yields a new table whose
structure holds the address of the same IO handle and the address of a new
range list with the same ranges.  Right after the clone both tables report the
same checksum errors; and any sequence of later calls that append checksum
errors or read chunks, made on one of the two tables, leaves on that table what
the calls leave and leaves the other table as it was. -/
theorem C13_clone_copies_checksum_errors (ext : externals) (m : memory)
    (source io_handle_address range_list_address : Nat) (chunk_table : libewf_chunk_table)
    (h_free : unallocated_from_next m) (h_available : 2 ≤ m.available)
    (h_table : m.chunk_tables source = some ⟨some io_handle_address, some range_list_address⟩)
    (h_handle : m.io_handles io_handle_address = some chunk_table.io_handle)
    (h_list : m.range_lists range_list_address = some chunk_table.checksum_errors) :
    ∃ (cloned : memory) (destination destination_list : Nat),
      libewf_chunk_table_clone libcdata_range_list_clone m none (some source) =
        (1, cloned, some destination) ∧
      destination ≠ source ∧ destination_list ≠ range_list_address ∧
      cloned.chunk_tables source = some ⟨some io_handle_address, some range_list_address⟩ ∧
      cloned.chunk_tables destination = some ⟨some io_handle_address, some destination_list⟩ ∧
      chunk_table_at cloned source = some chunk_table ∧
      chunk_table_at cloned destination = some chunk_table ∧
      (chunk_table_at cloned destination).map libewf_chunk_table_get_number_of_checksum_errors =
        (chunk_table_at cloned source).map libewf_chunk_table_get_number_of_checksum_errors ∧
      (∀ error_index : Nat,
        (chunk_table_at cloned destination).map
            (fun table => libewf_chunk_table_get_checksum_error table error_index) =
          (chunk_table_at cloned source).map
            (fun table => libewf_chunk_table_get_checksum_error table error_index)) ∧
      ∀ calls : List chunk_table_call,
        chunk_table_at (run_calls_at ext cloned destination calls) destination =
          some (run_calls ext chunk_table calls) ∧
        chunk_table_at (run_calls_at ext cloned destination calls) source = some chunk_table ∧
        chunk_table_at (run_calls_at ext cloned source calls) source =
          some (run_calls ext chunk_table calls) ∧
        chunk_table_at (run_calls_at ext cloned source calls) destination =
          some chunk_table := by
  obtain ⟨cloned, h_clone, h_tables, h_lists, h_handles⟩ :=
    clone_of_chunk_table m source (some io_handle_address) range_list_address
      chunk_table.checksum_errors h_free h_available h_table h_list
  have h_source : source ≠ m.next_address := by
    intro h
    have h_none := (h_free source (by omega)).1
    rw [h_table] at h_none
    cases h_none
  have h_range_list : range_list_address ≠ m.next_address + 1 := by
    intro h
    have h_none := (h_free range_list_address (by omega)).2
    rw [h_list] at h_none
    cases h_none
  have h_source_table : cloned.chunk_tables source =
      some ⟨some io_handle_address, some range_list_address⟩ := by
    rw [h_tables, if_neg h_source]
    exact h_table
  have h_destination_table : cloned.chunk_tables m.next_address =
      some ⟨some io_handle_address, some (m.next_address + 1)⟩ := by
    rw [h_tables, if_pos rfl]
  have h_at_source : chunk_table_at cloned source = some chunk_table := by
    refine (chunk_table_at_eq_some cloned source chunk_table).mpr
      ⟨io_handle_address, range_list_address, h_source_table, ?_, ?_⟩
    · rw [h_handles]
      exact h_handle
    · rw [h_lists, if_neg h_range_list]
      exact h_list
  have h_at_destination : chunk_table_at cloned m.next_address = some chunk_table := by
    refine (chunk_table_at_eq_some cloned m.next_address chunk_table).mpr
      ⟨io_handle_address, m.next_address + 1, h_destination_table, ?_, ?_⟩
    · rw [h_handles]
      exact h_handle
    · rw [h_lists, if_pos rfl]
  refine ⟨cloned, m.next_address, m.next_address + 1, h_clone, fun h => h_source h.symm,
    fun h => h_range_list h.symm, h_source_table, h_destination_table, h_at_source,
    h_at_destination, ?_, ?_, ?_⟩
  · rw [h_at_source, h_at_destination]
  · intro error_index
    rw [h_at_source, h_at_destination]
  · intro calls
    refine ⟨run_calls_at_self ext calls cloned m.next_address chunk_table h_at_destination,
      ?_, run_calls_at_self ext calls cloned source chunk_table h_at_source, ?_⟩
    · rw [run_calls_at_other ext cloned m.next_address source (some io_handle_address)
        (some io_handle_address) (m.next_address + 1) range_list_address calls
        h_destination_table h_source_table h_range_list]
      exact h_at_source
    · rw [run_calls_at_other ext cloned source m.next_address (some io_handle_address)
        (some io_handle_address) range_list_address (m.next_address + 1) calls
        h_source_table h_destination_table (fun h => h_range_list h.symm)]
      exact h_at_destination

/-- C13, on the example memory: the chunk table at address 1 is cloned to a
new table at address 4, which holds the address 2 of the same IO handle and
the address 5 of a new range list with the range (0, 3); the example calls made
on the clone leave the checksum errors (0, 15) and (64, 64) there and the
range (0, 3) in the source. -/
theorem C13_clone_copies_checksum_errors_witness :
    (unallocated_from_next example_memory ∧ 2 ≤ example_memory.available ∧
      example_memory.chunk_tables 1 = some ⟨some 2, some 3⟩ ∧
      example_memory.io_handles 2 = some ⟨0, 1⟩ ∧
      example_memory.range_lists 3 = some [⟨0, 3⟩]) ∧
    (∃ (cloned : memory) (destination destination_list : Nat),
      libewf_chunk_table_clone libcdata_range_list_clone example_memory none (some 1) =
        (1, cloned, some destination) ∧
      destination ≠ 1 ∧ destination_list ≠ 3 ∧
      cloned.chunk_tables 1 = some ⟨some 2, some 3⟩ ∧
      cloned.chunk_tables destination = some ⟨some 2, some destination_list⟩ ∧
      chunk_table_at cloned 1 = some ⟨⟨0, 1⟩, [⟨0, 3⟩]⟩ ∧
      chunk_table_at cloned destination = some ⟨⟨0, 1⟩, [⟨0, 3⟩]⟩ ∧
      (chunk_table_at cloned destination).map libewf_chunk_table_get_number_of_checksum_errors =
        (chunk_table_at cloned 1).map libewf_chunk_table_get_number_of_checksum_errors ∧
      (∀ error_index : Nat,
        (chunk_table_at cloned destination).map
            (fun table => libewf_chunk_table_get_checksum_error table error_index) =
          (chunk_table_at cloned 1).map
            (fun table => libewf_chunk_table_get_checksum_error table error_index)) ∧
      ∀ calls : List chunk_table_call,
        chunk_table_at (run_calls_at example_externals cloned destination calls) destination =
          some (run_calls example_externals ⟨⟨0, 1⟩, [⟨0, 3⟩]⟩ calls) ∧
        chunk_table_at (run_calls_at example_externals cloned destination calls) 1 =
          some ⟨⟨0, 1⟩, [⟨0, 3⟩]⟩ ∧
        chunk_table_at (run_calls_at example_externals cloned 1 calls) 1 =
          some (run_calls example_externals ⟨⟨0, 1⟩, [⟨0, 3⟩]⟩ calls) ∧
        chunk_table_at (run_calls_at example_externals cloned 1 calls) destination =
          some ⟨⟨0, 1⟩, [⟨0, 3⟩]⟩) ∧
    (libewf_chunk_table_clone libcdata_range_list_clone example_memory none (some 1)).1 = 1 ∧
    (libewf_chunk_table_clone libcdata_range_list_clone example_memory none (some 1)).2.2 =
      some 4 ∧
    (libewf_chunk_table_clone libcdata_range_list_clone example_memory none
      (some 1)).2.1.chunk_tables 4 = some ⟨some 2, some 5⟩ ∧
    chunk_table_at
        (run_calls_at example_externals
          (libewf_chunk_table_clone libcdata_range_list_clone example_memory none
            (some 1)).2.1 4 example_calls) 4 =
      some ⟨⟨0, 1⟩, [⟨0, 15⟩, ⟨64, 64⟩]⟩ ∧
    chunk_table_at
        (run_calls_at example_externals
          (libewf_chunk_table_clone libcdata_range_list_clone example_memory none
            (some 1)).2.1 4 example_calls) 1 =
      some ⟨⟨0, 1⟩, [⟨0, 3⟩]⟩ :=
  have h_free : unallocated_from_next example_memory :=
    fun a h => ⟨if_neg (fun h_a => by rw [h_a] at h; exact absurd h (by decide)),
      if_neg (fun h_a => by rw [h_a] at h; exact absurd h (by decide))⟩
  ⟨⟨h_free, by decide, rfl, rfl, rfl⟩,
    C13_clone_copies_checksum_errors example_externals example_memory 1 2 3
      ⟨⟨0, 1⟩, [⟨0, 3⟩]⟩ h_free (by decide) rfl rfl rfl,
    by with_unfolding_all rfl, by with_unfolding_all rfl, by with_unfolding_all rfl,
    by with_unfolding_all rfl, by with_unfolding_all rfl⟩

end Libewf
